import Mathlib

/-!
# acyl `pkg/secrets`: populating configuration objects from a secrets backend

A shallow embedding of `pkg/secrets/secrets.go` (the remote-client adapter
`PVCSecretsFetcher` and the selector `newSecretFetcher`) and of
`pkg/secrets/fileread.go` (the file adapter `IOReaderSecretsFetcher`).

Conventions of the embedding:

* a Go `[]byte` and a Go `string` are both finite byte sequences, `Bytes`; the
  conversion `string(s)` keeps the bytes;
* string constants of the program (secret ids, paths, messages) are Lean strings;
* a Go `error` is `Option Error`, `nil` being `none`;
* a method that receives a pointer to a destination object is a state
  transformer over that object, which also yields the list of the ids that it
  requested from the backend, oldest first;
* the collaborators outside the repository (the pvc client, the file reader,
  `tls.X509KeyPair`, `pvc.NewSecretsClient`) are parameters.
-/

namespace Acyl

/-! ## Values and errors -/

/-- A byte sequence: the value of a Go `[]byte` or of a Go `string`. -/
abbrev Bytes := List UInt8

/-- The bytes of an ASCII literal, used to write byte sequences readably. -/
def ascii (s : String) : Bytes := s.toList.map (fun c => UInt8.ofNat c.toNat)

/-- The conversion `string(s)` of a byte slice: the same bytes. -/
def string (s : Bytes) : Bytes := s

/-- The two failure kinds of `strconv`: `ErrSyntax` and `ErrRange`. -/
inductive NumErr where
  | ErrSyntax
  | ErrRange
  deriving DecidableEq, Repr

/-- Error values. `ext` is an error made by a collaborator outside the
repository, `num` is a `*strconv.NumError`, `errorf` is the result of
`fmt.Errorf`/`errors.New` with the formatted message, and `wrap cause msg` is
`errors.Wrap(cause, msg)` of `github.com/pkg/errors`. -/
inductive Error where
  | ext (msg : String)
  | num (func : String) (num : Bytes) (err : NumErr)
  | errorf (msg : String)
  | wrap (cause : Error) (msg : String)
  deriving DecidableEq, Repr

/-- A Go `error`: `nil` or an error value. -/
abbrev error := Option Error

/-- The `nil` error. -/
abbrev nil : error := none

/-- `errors.Wrap(err, message)`: `nil` for a `nil` error, otherwise the error
annotated with the message. -/
def errors.Wrap (err : error) (message : String) : error :=
  match err with
  | none => nil
  | some e => some (Error.wrap e message)

/-- `fmt.Errorf` applied to an already formatted message. -/
def fmt.Errorf (msg : String) : error := some (Error.errorf msg)

/-- The two results `(s, err)` of a retrieval: the bytes and a `nil` error, or
no bytes and the error. -/
def resultPair (a : Except Error Bytes) : Bytes × error :=
  match a with
  | .ok s => (s, nil)
  | .error e => ([], some e)

/-! ## Method bodies as state transformers over a destination object -/

/-- What a call leaves behind: the returned value, the destination object
behind the pointer, and the ids that the call requested from the backend, in
the order of the requests. -/
structure Outcome (σ α : Type) where
  ret : α
  obj : σ
  reqs : List String

/-- A method body running against a destination object of type `σ`. -/
structure Populate (σ α : Type) where
  run : σ → Outcome σ α

/-- The outcome `r` of a call that comes after the requests `l`. -/
def Outcome.prepend {σ α : Type} (l : List String) (r : Outcome σ α) : Outcome σ α :=
  ⟨r.ret, r.obj, l ++ r.reqs⟩

/-- Sequencing of statements: the second runs on the object the first left, and
the requests of the first come before those of the second. -/
instance (σ : Type) : Monad (Populate σ) where
  pure a := ⟨fun o => ⟨a, o, []⟩⟩
  bind x f := ⟨fun o =>
    let r := x.run o
    ((f r.ret).run r.obj).prepend r.reqs⟩

/-- The method body `m` run after the requests `l`. -/
def Populate.logged {σ α : Type} (l : List String) (m : Populate σ α) : Populate σ α :=
  ⟨fun o => (m.run o).prepend l⟩

/-- Assignment to the destination object. -/
def assign {σ : Type} (f : σ → σ) : Populate σ Unit :=
  ⟨fun o => ⟨(), f o, []⟩⟩

/-- Read of the destination object. -/
def deref {σ : Type} : Populate σ σ := ⟨fun o => ⟨o, o, []⟩⟩

/-- Run a method on one component of a larger destination (the pointer that is
passed on to it). -/
def Populate.on {τ σ α : Type} (get : τ → σ) (set : τ → σ → τ) (m : Populate σ α) :
    Populate τ α :=
  ⟨fun o =>
    let r := m.run (get o)
    ⟨r.ret, set o r.obj, r.reqs⟩⟩

/-! ## Library functions used by the fetchers -/

/-- The width of the Go types `int` and `uint` on the 64-bit targets the program
is built for. -/
def intSize : Nat := 64

/-- The conversion `uint(i)` of an `int`. -/
def uint (i : Int) : Nat := (i % (2 : Int) ^ intSize).toNat

/-- The builtin `copy(dst, src)` seen as a function of the old content of `dst`:
the first `min(len(dst), len(src))` bytes come from `src`, the others stay. -/
def copy (dst src : Bytes) : Bytes := src.take dst.length ++ dst.drop src.length

/-- A `[32]byte` array. -/
abbrev Byte32 := { b : Bytes // b.length = 32 }

/-- The statement `copy(a[:], src)` on a `[32]byte` array `a`. -/
def copy32 (a : Byte32) (src : Bytes) : Byte32 :=
  ⟨copy a.1 src, by
    have h := a.2
    simp only [copy, List.length_append, List.length_take, List.length_drop]
    omega⟩

/-- The digit loop of `strconv.ParseUint(s, 10, 64)`, started with the value `n`
read so far: a byte that is not a decimal digit is a syntax error, a value that
leaves 64 bits is a range error (with result `maxVal = 2^64 - 1`), found in
the order of the bytes. -/
def strconv.parseUintLoop (n : Nat) : Bytes → Nat × Option NumErr
  | [] => (n, none)
  | c :: cs =>
    if 48 ≤ c.toNat ∧ c.toNat ≤ 57 then
      let d := c.toNat - 48
      if n ≥ (2 ^ 64 - 1) / 10 + 1 then
        (2 ^ 64 - 1, some NumErr.ErrRange)
      else
        let n := n * 10
        let n1 := (n + d) % 2 ^ 64
        if n1 < n ∨ n1 > 2 ^ 64 - 1 then
          (2 ^ 64 - 1, some NumErr.ErrRange)
        else
          strconv.parseUintLoop n1 cs
    else
      (0, some NumErr.ErrSyntax)

/-- `strconv.ParseUint(s, 10, 64)`, without the wrapping into a `NumError`. -/
def strconv.ParseUint (s : Bytes) : Nat × Option NumErr :=
  if s = [] then (0, some NumErr.ErrSyntax) else strconv.parseUintLoop 0 s

/-- `strconv.ParseInt(s, 10, 0)`, without the wrapping into a `NumError`: an
optional sign `+` or `-`, then `ParseUint`, then the check against the range
of a 64-bit `int`. -/
def strconv.ParseInt (s : Bytes) : Int × Option NumErr :=
  match s with
  | [] => (0, some NumErr.ErrSyntax)
  | c :: cs =>
    let neg := c = 45
    let s1 := if c = 43 ∨ c = 45 then cs else c :: cs
    let (un, err) := strconv.ParseUint s1
    if err = some NumErr.ErrSyntax then
      (0, err)
    else if ¬ neg ∧ un ≥ 2 ^ 63 then
      (2 ^ 63 - 1, some NumErr.ErrRange)
    else if neg ∧ un > 2 ^ 63 then
      (-(2 ^ 63), some NumErr.ErrRange)
    else if neg then
      (-(un : Int), none)
    else
      ((un : Int), none)

/-- `strconv.Atoi(s)`: the result of `ParseInt(s, 10, 0)`, its error reported as
a `NumError` of function `Atoi` (the fast path that `Atoi` takes for short
inputs gives the same results and is not modelled apart). -/
def strconv.Atoi (s : Bytes) : Int × error :=
  match strconv.ParseInt s with
  | (i, none) => (i, nil)
  | (i, some e) => (i, some (Error.num "Atoi" s e))

/-- A byte that is a decimal digit, `0` to `9`. -/
def isDigit (c : UInt8) : Bool := 48 ≤ c.toNat && c.toNat ≤ 57

/-- The number that a sequence of decimal digits writes. -/
def digitsValue (ds : Bytes) : Nat := ds.foldl (fun n c => n * 10 + (c.toNat - 48)) 0

/-- The number written by one or more decimal digits, and nothing for any other
text. -/
def unsignedValue (ds : Bytes) : Option Nat :=
  if ds ≠ [] ∧ ds.all isDigit = true then some (digitsValue ds) else none

/-- The integer that a text writes in decimal: an optional sign `+` or `-`, then
one or more decimal digits; nothing for any other text. This is the reading of
a text as an integer of any size, stated apart from `strconv`. -/
def decimalValue (s : Bytes) : Option Int :=
  match s with
  | [] => none
  | c :: cs =>
    if c = 43 then (unsignedValue cs).map (fun n => (n : Int))
    else if c = 45 then (unsignedValue cs).map (fun n => -(n : Int))
    else (unsignedValue (c :: cs)).map (fun n => (n : Int))

/-- `strings.Split(s, sep)` for a separator `sep` of one byte: the pieces of `s`
between the occurrences of `sep`, in order, empty pieces included. -/
def strings.Split (s : Bytes) (sep : UInt8) : List Bytes :=
  match s with
  | [] => [[]]
  | c :: cs =>
    if c = sep then
      [] :: strings.Split cs sep
    else
      match strings.Split cs sep with
      | [] => [[c]]
      | p :: ps => (c :: p) :: ps

/-- `strings.Join(elems, sep)` for a separator of one byte. -/
def strings.Join (elems : List Bytes) (sep : UInt8) : Bytes :=
  match elems with
  | [] => []
  | [p] => p
  | p :: q :: ps => p ++ sep :: strings.Join (q :: ps) sep

/-- A value of type `tls.Certificate`: the certificate chain and the private
key, both kept in encoded form. -/
structure TLSCertificate where
  Certificate : List Bytes
  PrivateKey : Bytes
  deriving DecidableEq, Repr

/-- The part of package `crypto/tls` that is used: `X509KeyPair(certPEMBlock,
keyPEMBlock)` with its two results. -/
structure TLSPackage where
  X509KeyPair : Bytes → Bytes → TLSCertificate × error

/-! ## Destination objects -/

/-- Modelled from the spec: `config.AWSCreds` of package `pkg/config`, whose
declaration lies outside `pkg/secrets`; the two text fields the fetchers write. -/
structure AWSCreds where
  AccessKeyID : Bytes
  SecretAccessKey : Bytes
  deriving DecidableEq, Repr

/-- Modelled from the spec: `config.GithubOAuthConfig` of package `pkg/config`, whose
declaration lies outside `pkg/secrets`; the fields the fetchers write. -/
structure GithubOAuthConfig where
  AppInstallationID : Nat
  ClientID : Bytes
  ClientSecret : Bytes
  CookieAuthKey : Byte32
  CookieEncKey : Byte32
  UserTokenEncKey : Byte32
  deriving DecidableEq, Repr

/-- Modelled from the spec: `config.GithubConfig` of package `pkg/config`, whose
declaration lies outside `pkg/secrets`; the fields the fetchers write. -/
structure GithubConfig where
  HookSecret : Bytes
  Token : Bytes
  AppID : Nat
  PrivateKeyPEM : Bytes
  AppHookSecret : Bytes
  OAuth : GithubOAuthConfig
  deriving DecidableEq, Repr

/-- Modelled from the spec: `config.SlackConfig` of package `pkg/config`, whose
declaration lies outside `pkg/secrets`; the field the fetchers write. -/
structure SlackConfig where
  Token : Bytes
  deriving DecidableEq, Repr

/-- Modelled from the spec: `config.ServerConfig` of package `pkg/config`, whose
declaration lies outside `pkg/secrets`; the fields the fetchers read or write. -/
structure ServerConfig where
  APIKeys : List Bytes
  DisableTLS : Bool
  TLSCert : TLSCertificate
  deriving DecidableEq, Repr

/-- Modelled from the spec: `config.PGConfig` of package `pkg/config`, whose
declaration lies outside `pkg/secrets`; the field the fetchers write. -/
structure PGConfig where
  PostgresURI : Bytes
  deriving DecidableEq, Repr

/-- The five destination objects whose pointers `PopulateAllSecrets` receives. -/
structure Dest where
  aws : AWSCreds
  gh : GithubConfig
  slack : SlackConfig
  srv : ServerConfig
  pg : PGConfig
  deriving DecidableEq, Repr

/-- The call of a method with the pointer `aws`. -/
def onAWS {α : Type} (m : Populate AWSCreds α) : Populate Dest α :=
  m.on (fun d => d.aws) (fun d x => { d with aws := x })

/-- The call of a method with the pointer `gh`. -/
def onGithub {α : Type} (m : Populate GithubConfig α) : Populate Dest α :=
  m.on (fun d => d.gh) (fun d x => { d with gh := x })

/-- The call of a method with the pointer `slack`. -/
def onSlack {α : Type} (m : Populate SlackConfig α) : Populate Dest α :=
  m.on (fun d => d.slack) (fun d x => { d with slack := x })

/-- The call of a method with the pointer `srv`. -/
def onServer {α : Type} (m : Populate ServerConfig α) : Populate Dest α :=
  m.on (fun d => d.srv) (fun d x => { d with srv := x })

/-- The call of a method with the pointer `pg`. -/
def onPG {α : Type} (m : Populate PGConfig α) : Populate Dest α :=
  m.on (fun d => d.pg) (fun d x => { d with pg := x })

/-! ## The remote-client adapter (secrets.go) -/

/-! Secret ids. -/

def awsAccessKeyIDid : String := "aws/access_key_id"
def awsSecretAccessKeyid : String := "aws/secret_access_key"
def githubHookSecretid : String := "github/hook_secret"
def githubTokenid : String := "github/token"
def githubAppID : String := "github/app/id"
def githubAppPK : String := "github/app/private_key"
def githubAppHookSecret : String := "github/app/hook_secret"
def githubOAuthInstID : String := "github/app/oauth/installation_id"
def githubOAuthClientID : String := "github/app/oauth/client/id"
def githubOAuthClientSecret : String := "github/app/oauth/client/secret"
def githubOAuthCookieEncKey : String := "github/app/oauth/cookie/encryption_key"
def githubOAuthCookieAuthKey : String := "github/app/oauth/cookie/authentication_key"
def githubOAuthUserTokenEncKey : String := "github/app/oauth/user_token/encryption_key"
def apiKeysid : String := "api_keys"
def slackTokenid : String := "slack/token"
def tlsCertid : String := "tls/cert"
def tlsKeyid : String := "tls/key"
def dbURIid : String := "db/uri"

/-- The pvc secrets client `*pvc.SecretsClient`, a collaborator outside the
repository: `get id` is what its method `Get` answers for `id`. -/
structure SecretsClient where
  get : String → Except Error Bytes

/-- The call `sc.Get(id)`: the request is recorded and the pair `(s, err)` is
returned. -/
def SecretsClient.Get {σ : Type} (sc : SecretsClient) (id : String) :
    Populate σ (Bytes × error) :=
  ⟨fun o => ⟨resultPair (sc.get id), o, [id]⟩⟩

structure PVCSecretsFetcher where
  sc : SecretsClient

def NewPVCSecretsFetcher (sc : SecretsClient) : PVCSecretsFetcher := { sc := sc }

/-- `PVCSecretsFetcher.PopulatePG`: populates postgres secrets into pg. -/
def PVCSecretsFetcher.PopulatePG (psf : PVCSecretsFetcher) : Populate PGConfig error := do
  let (s, err) ← psf.sc.Get dbURIid
  if err ≠ nil then
    return errors.Wrap err "error getting DB URI"
  assign fun pg => { pg with PostgresURI := string s }
  return nil

/-- `PVCSecretsFetcher.PopulateAWS`: populates AWS secrets into aws. -/
def PVCSecretsFetcher.PopulateAWS (psf : PVCSecretsFetcher) : Populate AWSCreds error := do
  let (s, err) ← psf.sc.Get awsAccessKeyIDid
  if err ≠ nil then
    return errors.Wrap err "error getting AWS access key ID"
  assign fun aws => { aws with AccessKeyID := string s }
  let (s, err) ← psf.sc.Get awsSecretAccessKeyid
  if err ≠ nil then
    return errors.Wrap err "error getting AWS secret access key"
  assign fun aws => { aws with SecretAccessKey := string s }
  return nil

/-- `PVCSecretsFetcher.PopulateGithub`: populates Github secrets into gh. -/
def PVCSecretsFetcher.PopulateGithub (psf : PVCSecretsFetcher) :
    Populate GithubConfig error := do
  let (s, err) ← psf.sc.Get githubHookSecretid
  if err ≠ nil then
    return errors.Wrap err "error getting GitHub hook secret"
  assign fun gh => { gh with HookSecret := string s }
  let (s, err) ← psf.sc.Get githubTokenid
  if err ≠ nil then
    return errors.Wrap err "error getting GitHub token"
  assign fun gh => { gh with Token := string s }
  let (s, err) ← psf.sc.Get githubAppID
  if err ≠ nil then
    return errors.Wrap err "error getting GitHub App ID"
  -- GitHub App
  let (appid, err) := strconv.Atoi (string s)
  if err ≠ nil then
    return errors.Wrap err "app ID must be a valid integer"
  if appid < 1 then
    return fmt.Errorf ("app id must be >= 1: " ++ toString appid)
  assign fun gh => { gh with AppID := uint appid }
  let (s, err) ← psf.sc.Get githubAppPK
  if err ≠ nil then
    return errors.Wrap err "error getting GitHub App private key"
  assign fun gh => { gh with PrivateKeyPEM := s }
  let (s, err) ← psf.sc.Get githubAppHookSecret
  if err ≠ nil then
    return errors.Wrap err "error getting GitHub App hook secret"
  assign fun gh => { gh with AppHookSecret := string s }
  -- GitHub App OAuth
  let (s, err) ← psf.sc.Get githubOAuthInstID
  if err ≠ nil then
    return errors.Wrap err "error getting GitHub App installation id"
  let (iid, err) := strconv.Atoi (string s)
  if err ≠ nil then
    return errors.Wrap err "error converting installation id into integer"
  if iid < 1 then
    return fmt.Errorf ("invalid installation id: " ++ toString iid)
  assign fun gh => { gh with OAuth := { gh.OAuth with AppInstallationID := uint iid } }
  let (s, err) ← psf.sc.Get githubOAuthClientID
  if err ≠ nil then
    return errors.Wrap err "error getting GitHub App client id"
  assign fun gh => { gh with OAuth := { gh.OAuth with ClientID := string s } }
  let (s, err) ← psf.sc.Get githubOAuthClientSecret
  if err ≠ nil then
    return errors.Wrap err "error getting GitHub App client secret"
  assign fun gh => { gh with OAuth := { gh.OAuth with ClientSecret := string s } }
  let (s, err) ← psf.sc.Get githubOAuthCookieAuthKey
  if err ≠ nil then
    return errors.Wrap err "error getting GitHub App cookie auth key"
  if s.length ≠ 32 then
    return fmt.Errorf
      ("bad cookie auth key: length must be exactly 32 bytes, value size: " ++ toString s.length)
  assign fun gh =>
    { gh with OAuth := { gh.OAuth with CookieAuthKey := copy32 gh.OAuth.CookieAuthKey s } }
  let (s, err) ← psf.sc.Get githubOAuthCookieEncKey
  if err ≠ nil then
    return errors.Wrap err "error getting GitHub App cookie enc key"
  if s.length ≠ 32 then
    return fmt.Errorf
      ("bad cookie enc key: length must be exactly 32 bytes, value size: " ++ toString s.length)
  assign fun gh =>
    { gh with OAuth := { gh.OAuth with CookieEncKey := copy32 gh.OAuth.CookieEncKey s } }
  let (s, err) ← psf.sc.Get githubOAuthUserTokenEncKey
  if err ≠ nil then
    return errors.Wrap err "error getting GitHub App user token enc key"
  if s.length ≠ 32 then
    return fmt.Errorf
      ("bad user token enc key: length must be exactly 32 bytes, value size: "
        ++ toString s.length)
  assign fun gh =>
    { gh with OAuth := { gh.OAuth with UserTokenEncKey := copy32 gh.OAuth.UserTokenEncKey s } }
  return nil

/-- `PVCSecretsFetcher.PopulateSlack`: populates Slack secrets into slack. -/
def PVCSecretsFetcher.PopulateSlack (psf : PVCSecretsFetcher) :
    Populate SlackConfig error := do
  let (s, err) ← psf.sc.Get slackTokenid
  if err ≠ nil then
    return errors.Wrap err "error getting Slack token"
  assign fun slack => { slack with Token := string s }
  return nil

/-- `PVCSecretsFetcher.PopulateServer`: populates server secrets into srv. -/
def PVCSecretsFetcher.PopulateServer (psf : PVCSecretsFetcher) (tls : TLSPackage) :
    Populate ServerConfig error := do
  let (s, err) ← psf.sc.Get apiKeysid
  if err ≠ nil then
    return errors.Wrap err "error getting API keys"
  assign fun srv => { srv with APIKeys := strings.Split (string s) 44 }
  let srv ← deref
  if ! srv.DisableTLS then
    let (s, err) ← psf.sc.Get tlsCertid
    if err ≠ nil then
      return errors.Wrap err "error getting TLS certificate"
    let c := s
    let (s, err) ← psf.sc.Get tlsKeyid
    if err ≠ nil then
      return errors.Wrap err "error getting TLS key"
    let k := s
    let (cert, err) := tls.X509KeyPair c k
    if err ≠ nil then
      return errors.Wrap err "error parsing TLS cert/key"
    assign fun srv => { srv with TLSCert := cert }
  return nil

/-- `PVCSecretsFetcher.PopulateAllSecrets`: populates all secrets into the
respective config structs. -/
def PVCSecretsFetcher.PopulateAllSecrets (psf : PVCSecretsFetcher) (tls : TLSPackage) :
    Populate Dest error := do
  let err ← onAWS psf.PopulateAWS
  if err ≠ nil then
    return errors.Wrap err "error getting AWS secrets"
  let err ← onGithub psf.PopulateGithub
  if err ≠ nil then
    return errors.Wrap err "error getting GitHub secrets"
  let err ← onSlack psf.PopulateSlack
  if err ≠ nil then
    return errors.Wrap err "error getting Slack secrets"
  let err ← onServer (psf.PopulateServer tls)
  if err ≠ nil then
    return errors.Wrap err "error getting server secrets"
  let err ← onPG psf.PopulatePG
  if err ≠ nil then
    return errors.Wrap err "error getting db secrets"
  return nil

/-! ## The file adapter (fileread.go)

The methods of this file are declared with the receiver of the remote-client
adapter but use the reader `iof.r` in their bodies, and `PopulateAllSecrets` of
`IOReaderSecretsFetcher` calls them on `iof`: they are embedded as the methods
of `IOReaderSecretsFetcher`. -/

/-- A Go `map[string]string` given by its entries. -/
structure StringMap where
  entries : List (String × String)

/-- The index expression `m[k]`: the value stored under `k`, and the empty
string when `k` is not a key of the map. -/
def StringMap.index (m : StringMap) (k : String) : String :=
  match m.entries.lookup k with
  | some v => v
  | none => ""

def vaultSecrets : StringMap :=
  { entries := [
      ("rootPath", "/vault/secrets/"),
      ("awsAccessKeyIDid", "awsAccessKeyIDid"),
      ("awsSecretAccessKeyid", "awsSecretAccessKeyid"),
      ("githubHookSecretid", "githubHookSecretid"),
      ("githubTokenid", "githubTokenid"),
      ("githubAppID", "githubAppID"),
      ("githubAppPK", "githubAppPK"),
      ("githubAppHookSecret", "githubAppHookSecret"),
      ("githubOAuthInstID", "githubOAuthInstID"),
      ("githubOAuthClientID", "githubOAuthClientID"),
      ("githubOAuthClientSecret", "githubOAuthClientSecret"),
      ("githubOAuthCookieEncKey", "githubOAuthCookieEncKey"),
      ("githubOAuthCookieAuthKey", "githubOAuthCookieAuthKey"),
      ("githubOAuthUserTokenEncKey", "githubOAuthUserTokenEncKey"),
      ("apiKeysid", "apiKeysid"),
      ("slackTokenid", "slackTokenid"),
      ("tlsCertid", "tlsCertid"),
      ("tlsKeyid", "tlsKeyid"),
      ("dbURIid", "dbURIid")] }

/-- The file reader behind `iof.r`, a collaborator outside the repository:
`readFile path` is what its method `ReadFile` answers for `path`. -/
structure Reader where
  readFile : String → Except Error Bytes

/-- The call `r.ReadFile(path)`: the request is recorded and the pair
`(s, err)` is returned. -/
def Reader.ReadFile {σ : Type} (r : Reader) (path : String) : Populate σ (Bytes × error) :=
  ⟨fun o => ⟨resultPair (r.readFile path), o, [path]⟩⟩

structure IOReaderSecretsFetcher where
  r : Reader

def NewIOReaderSecretsFetcher (r : Reader) : IOReaderSecretsFetcher := { r := r }

/-- `PopulatePG` of fileread.go: populates postgres secrets into pg. -/
def IOReaderSecretsFetcher.PopulatePG (iof : IOReaderSecretsFetcher) :
    Populate PGConfig error := do
  let (s, err) ← iof.r.ReadFile (vaultSecrets.index "rootPath" ++ vaultSecrets.index "dbURIid")
  if err ≠ nil then
    return errors.Wrap err "error getting DB URI"
  assign fun pg => { pg with PostgresURI := string s }
  return nil

/-- `PopulateAWS` of fileread.go: populates AWS secrets into aws. -/
def IOReaderSecretsFetcher.PopulateAWS (iof : IOReaderSecretsFetcher) :
    Populate AWSCreds error := do
  let (s, err) ← iof.r.ReadFile
    (vaultSecrets.index "rootPath" ++ vaultSecrets.index "awsAccessKeyIDid")
  if err ≠ nil then
    return errors.Wrap err "error getting AWS access key ID"
  assign fun aws => { aws with AccessKeyID := string s }
  let (s, err) ← iof.r.ReadFile
    (vaultSecrets.index "rootPath" ++ vaultSecrets.index "awsSecretAccessKeyid")
  if err ≠ nil then
    return errors.Wrap err "error getting AWS secret access key"
  assign fun aws => { aws with SecretAccessKey := string s }
  return nil

/-- `PopulateGithub` of fileread.go: populates Github secrets into gh. The
names `githubAppId`, `githubOAuthInstId` and `githubOAuthClientId` are written
as in the source. -/
def IOReaderSecretsFetcher.PopulateGithub (iof : IOReaderSecretsFetcher) :
    Populate GithubConfig error := do
  let (s, err) ← iof.r.ReadFile
    (vaultSecrets.index "rootPath" ++ vaultSecrets.index "githubHookSecretid")
  if err ≠ nil then
    return errors.Wrap err "error getting GitHub hook secret"
  assign fun gh => { gh with HookSecret := string s }
  let (s, err) ← iof.r.ReadFile
    (vaultSecrets.index "rootPath" ++ vaultSecrets.index "githubTokenid")
  if err ≠ nil then
    return errors.Wrap err "error getting GitHub token"
  assign fun gh => { gh with Token := string s }
  let (s, err) ← iof.r.ReadFile
    (vaultSecrets.index "rootPath" ++ vaultSecrets.index "githubAppId")
  if err ≠ nil then
    return errors.Wrap err "error getting GitHub App ID"
  -- GitHub App
  let (appid, err) := strconv.Atoi (string s)
  if err ≠ nil then
    return errors.Wrap err "app ID must be a valid integer"
  if appid < 1 then
    return fmt.Errorf ("app id must be >= 1: " ++ toString appid)
  assign fun gh => { gh with AppID := uint appid }
  let (s, err) ← iof.r.ReadFile
    (vaultSecrets.index "rootPath" ++ vaultSecrets.index "githubAppPK")
  if err ≠ nil then
    return errors.Wrap err "error getting GitHub App private key"
  assign fun gh => { gh with PrivateKeyPEM := s }
  let (s, err) ← iof.r.ReadFile
    (vaultSecrets.index "rootPath" ++ vaultSecrets.index "githubAppHookSecret")
  if err ≠ nil then
    return errors.Wrap err "error getting GitHub App hook secret"
  assign fun gh => { gh with AppHookSecret := string s }
  -- GitHub App OAuth
  let (s, err) ← iof.r.ReadFile
    (vaultSecrets.index "rootPath" ++ vaultSecrets.index "githubOAuthInstId")
  if err ≠ nil then
    return errors.Wrap err "error getting GitHub App installation id"
  let (iid, err) := strconv.Atoi (string s)
  if err ≠ nil then
    return errors.Wrap err "error converting installation id into integer"
  if iid < 1 then
    return fmt.Errorf ("invalid installation id: " ++ toString iid)
  assign fun gh => { gh with OAuth := { gh.OAuth with AppInstallationID := uint iid } }
  let (s, err) ← iof.r.ReadFile
    (vaultSecrets.index "rootPath" ++ vaultSecrets.index "githubOAuthClientId")
  if err ≠ nil then
    return errors.Wrap err "error getting GitHub App client id"
  assign fun gh => { gh with OAuth := { gh.OAuth with ClientID := string s } }
  let (s, err) ← iof.r.ReadFile
    (vaultSecrets.index "rootPath" ++ vaultSecrets.index "githubOAuthClientSecret")
  if err ≠ nil then
    return errors.Wrap err "error getting GitHub App client secret"
  assign fun gh => { gh with OAuth := { gh.OAuth with ClientSecret := string s } }
  let (s, err) ← iof.r.ReadFile
    (vaultSecrets.index "rootPath" ++ vaultSecrets.index "githubOAuthCookieAuthKey")
  if err ≠ nil then
    return errors.Wrap err "error getting GitHub App cookie auth key"
  if s.length ≠ 32 then
    return fmt.Errorf
      ("bad cookie auth key: length must be exactly 32 bytes, value size: " ++ toString s.length)
  assign fun gh =>
    { gh with OAuth := { gh.OAuth with CookieAuthKey := copy32 gh.OAuth.CookieAuthKey s } }
  let (s, err) ← iof.r.ReadFile
    (vaultSecrets.index "rootPath" ++ vaultSecrets.index "githubOAuthCookieEncKey")
  if err ≠ nil then
    return errors.Wrap err "error getting GitHub App cookie enc key"
  if s.length ≠ 32 then
    return fmt.Errorf
      ("bad cookie enc key: length must be exactly 32 bytes, value size: " ++ toString s.length)
  assign fun gh =>
    { gh with OAuth := { gh.OAuth with CookieEncKey := copy32 gh.OAuth.CookieEncKey s } }
  let (s, err) ← iof.r.ReadFile
    (vaultSecrets.index "rootPath" ++ vaultSecrets.index "githubOAuthUserTokenEncKey")
  if err ≠ nil then
    return errors.Wrap err "error getting GitHub App user token enc key"
  if s.length ≠ 32 then
    return fmt.Errorf
      ("bad user token enc key: length must be exactly 32 bytes, value size: "
        ++ toString s.length)
  assign fun gh =>
    { gh with OAuth := { gh.OAuth with UserTokenEncKey := copy32 gh.OAuth.UserTokenEncKey s } }
  return nil

/-- `PopulateSlack` of fileread.go: populates Slack secrets into slack. -/
def IOReaderSecretsFetcher.PopulateSlack (iof : IOReaderSecretsFetcher) :
    Populate SlackConfig error := do
  let (s, err) ← iof.r.ReadFile (vaultSecrets.index "rootPath" ++ vaultSecrets.index "slackTokenid")
  if err ≠ nil then
    return errors.Wrap err "error getting Slack token"
  assign fun slack => { slack with Token := string s }
  return nil

/-- `PopulateServer` of fileread.go: populates server secrets into srv. -/
def IOReaderSecretsFetcher.PopulateServer (iof : IOReaderSecretsFetcher) (tls : TLSPackage) :
    Populate ServerConfig error := do
  let (s, err) ← iof.r.ReadFile (vaultSecrets.index "rootPath" ++ vaultSecrets.index "apiKeysid")
  if err ≠ nil then
    return errors.Wrap err "error getting API keys"
  assign fun srv => { srv with APIKeys := strings.Split (string s) 44 }
  let srv ← deref
  if ! srv.DisableTLS then
    let (s, err) ← iof.r.ReadFile (vaultSecrets.index "rootPath" ++ vaultSecrets.index "tlsCertid")
    if err ≠ nil then
      return errors.Wrap err "error getting TLS certificate"
    let c := s
    let (s, err) ← iof.r.ReadFile (vaultSecrets.index "rootPath" ++ vaultSecrets.index "tlsKeyid")
    if err ≠ nil then
      return errors.Wrap err "error getting TLS key"
    let k := s
    let (cert, err) := tls.X509KeyPair c k
    if err ≠ nil then
      return errors.Wrap err "error parsing TLS cert/key"
    assign fun srv => { srv with TLSCert := cert }
  return nil

/-- `IOReaderSecretsFetcher.PopulateAllSecrets`: populates all secrets into the
respective config structs. -/
def IOReaderSecretsFetcher.PopulateAllSecrets (iof : IOReaderSecretsFetcher)
    (tls : TLSPackage) : Populate Dest error := do
  let err ← onAWS iof.PopulateAWS
  if err ≠ nil then
    return errors.Wrap err "error getting AWS secrets"
  let err ← onGithub iof.PopulateGithub
  if err ≠ nil then
    return errors.Wrap err "error getting GitHub secrets"
  let err ← onSlack iof.PopulateSlack
  if err ≠ nil then
    return errors.Wrap err "error getting Slack secrets"
  let err ← onServer (iof.PopulateServer tls)
  if err ≠ nil then
    return errors.Wrap err "error getting server secrets"
  let err ← onPG iof.PopulatePG
  if err ≠ nil then
    return errors.Wrap err "error getting db secrets"
  return nil

/-! ## The backend selector (secrets.go) -/

/-- Modelled from the spec: `config.VaultConfig` of package `pkg/config`, whose
declaration lies outside `pkg/secrets`; the fields `newSecretFetcher` reads. -/
structure VaultConfig where
  UseAgent : Bool
  Addr : String
  TokenAuth : Bool
  Token : String
  K8sAuth : Bool
  K8sJWTPath : String
  K8sRole : String
  K8sAuthPath : String
  AppID : String
  UserIDPath : String
  deriving DecidableEq, Repr

/-- The authentication kinds of pvc that the selector names. -/
inductive VaultAuthentication where
  | Token
  | K8s
  | AppID
  deriving DecidableEq, Repr

/-- The values of `pvc.SecretsClientOption` that the selector builds, by the
function of pvc that makes them and its arguments. -/
inductive SecretsClientOption where
  | WithVaultBackend
  | WithEnvVarBackend
  | WithVaultAuthentication (auth : VaultAuthentication)
  | WithVaultToken (token : String)
  | WithVaultK8sAuth (jwt : Bytes) (role : String)
  | WithVaultK8sAuthPath (path : String)
  | WithVaultAppID (appID : String)
  | WithVaultUserIDPath (path : String)
  | WithVaultHost (host : String)
  | WithMapping (mapping : String)
  deriving DecidableEq, Repr

/-- Modelled from the spec: `config.SecretsConfig` of package `pkg/config`, whose
declaration lies outside `pkg/secrets`; `Backend` is an option value that may be `nil`. -/
structure SecretsConfig where
  Backend : Option SecretsClientOption
  Mapping : String
  deriving DecidableEq, Repr

/-- The part of package pvc that the selector calls: `NewSecretsClient(ops...)`,
which gives a client or an error. -/
structure PVCPackage where
  NewSecretsClient : List (Option SecretsClientOption) → Except Error SecretsClient

/-- The part of package `io/ioutil` that the selector calls. -/
structure IoutilPackage where
  ReadFile : String → Bytes × error

/-- A value of the interface `SecretFetcher` as `newSecretFetcher` returns it:
the fetcher that `NewReadFileSecretsFetcher(vaultConfig)` makes (a function
that `pkg/secrets` calls and does not define) or a `*PVCSecretsFetcher`. -/
inductive SecretFetcher where
  | ReadFile (vaultConfig : VaultConfig)
  | PVC (psf : PVCSecretsFetcher)

def NewReadFileSecretsFetcher (vaultConfig : VaultConfig) : SecretFetcher :=
  SecretFetcher.ReadFile vaultConfig

/-- `errors.New(message)`. -/
def errors.New (message : String) : error := some (Error.errorf message)

/-- `newSecretFetcher`. The two results are followed by the value that
`*secretsConfig` holds when the function returns. A statement whose value the
source drops (`errors.New(...)`, `errors.Wrapf(...)` without `return`) is kept
as a binding that is not used; logging is left out. -/
def newSecretFetcher (pvc : PVCPackage) (ioutil : IoutilPackage) (secretsBackend : String)
    (secretsConfig : SecretsConfig) (vaultConfig : VaultConfig) :
    (Option SecretFetcher × error) × SecretsConfig := Id.run do
  let mut secretsConfig := secretsConfig
  if vaultConfig.UseAgent then
    let sf := NewReadFileSecretsFetcher vaultConfig
    return ((some sf, nil), secretsConfig)
  let mut ops : List (Option SecretsClientOption) := []
  if secretsBackend = "vault" then
    secretsConfig := { secretsConfig with Backend := some SecretsClientOption.WithVaultBackend }
    if vaultConfig.TokenAuth then
      ops := [some (SecretsClientOption.WithVaultAuthentication VaultAuthentication.Token),
              some (SecretsClientOption.WithVaultToken vaultConfig.Token)]
    else if vaultConfig.K8sAuth then
      let (jwt, err) := ioutil.ReadFile vaultConfig.K8sJWTPath
      if err ≠ nil then
        let _dropped := errors.Wrap err "error reading k8s jwt path"
      ops := [some (SecretsClientOption.WithVaultAuthentication VaultAuthentication.K8s),
              some (SecretsClientOption.WithVaultK8sAuth (string jwt) vaultConfig.K8sRole),
              some (SecretsClientOption.WithVaultK8sAuthPath vaultConfig.K8sAuthPath)]
    else if vaultConfig.AppID ≠ "" ∧ vaultConfig.UserIDPath ≠ "" then
      ops := [some (SecretsClientOption.WithVaultAuthentication VaultAuthentication.AppID),
              some (SecretsClientOption.WithVaultAppID vaultConfig.AppID),
              some (SecretsClientOption.WithVaultUserIDPath vaultConfig.UserIDPath)]
    else
      let _dropped := errors.New "no Vault authentication methods were supplied"
    ops := ops ++ [some (SecretsClientOption.WithVaultHost vaultConfig.Addr)]
  else if secretsBackend = "env" then
    secretsConfig := { secretsConfig with Backend := some SecretsClientOption.WithEnvVarBackend }
  else
    let _dropped := errors.New ("invalid secrets backend: " ++ secretsBackend)
  if secretsConfig.Mapping = "" then
    let _dropped := errors.New "secrets mapping is required"
  ops := ops ++ [some (SecretsClientOption.WithMapping secretsConfig.Mapping),
                 secretsConfig.Backend]
  match pvc.NewSecretsClient ops with
  | .error err =>
    return ((none, errors.Wrap (some err)
      "secrets.getSecretsClient error creating new PVC Secrets Client"), secretsConfig)
  | .ok sc =>
    let sf := NewPVCSecretsFetcher sc
    return ((some (SecretFetcher.PVC sf), nil), secretsConfig)

/-- One of the two implementations of the interface `SecretFetcher` in
`pkg/secrets`: the remote-client adapter or the file adapter. -/
inductive Adapter where
  | remote (psf : PVCSecretsFetcher)
  | file (iof : IOReaderSecretsFetcher)

/-- The method `PopulateAWS` of the interface, by dynamic dispatch. -/
def Adapter.PopulateAWS : Adapter → Populate AWSCreds error
  | .remote psf => psf.PopulateAWS
  | .file iof => iof.PopulateAWS

/-- The method `PopulateGithub` of the interface, by dynamic dispatch. -/
def Adapter.PopulateGithub : Adapter → Populate GithubConfig error
  | .remote psf => psf.PopulateGithub
  | .file iof => iof.PopulateGithub

/-- The method `PopulateSlack` of the interface, by dynamic dispatch. -/
def Adapter.PopulateSlack : Adapter → Populate SlackConfig error
  | .remote psf => psf.PopulateSlack
  | .file iof => iof.PopulateSlack

/-- The method `PopulateServer` of the interface, by dynamic dispatch. -/
def Adapter.PopulateServer : Adapter → TLSPackage → Populate ServerConfig error
  | .remote psf, tls => psf.PopulateServer tls
  | .file iof, tls => iof.PopulateServer tls

/-- The method `PopulatePG` of the interface, by dynamic dispatch. -/
def Adapter.PopulatePG : Adapter → Populate PGConfig error
  | .remote psf => psf.PopulatePG
  | .file iof => iof.PopulatePG

/-- The method `PopulateAllSecrets` of the interface, by dynamic dispatch. -/
def Adapter.PopulateAllSecrets : Adapter → TLSPackage → Populate Dest error
  | .remote psf, tls => psf.PopulateAllSecrets tls
  | .file iof, tls => iof.PopulateAllSecrets tls

/-! ## Notions used to state the properties -/

/-- The validation that `PopulateGithub` applies to the value `v` retrieved for
the secret `id`: an integer of at least 1 for the app id and the installation
id, a length of 32 for the three keys, nothing for the other secrets. -/
def githubCheck (id : String) (v : Bytes) : Bool :=
  if id = githubAppID ∨ id = githubOAuthInstID then
    decide ((strconv.Atoi v).2 = nil ∧ 1 ≤ (strconv.Atoi v).1)
  else if id = githubOAuthCookieAuthKey ∨ id = githubOAuthCookieEncKey
      ∨ id = githubOAuthUserTokenEncKey then
    decide (v.length = 32)
  else true

/-- The step of `PopulateGithub` for the secret `id` succeeds against the
client `sc`: the value is retrieved and passes its validation. -/
def githubStepOK (sc : SecretsClient) (id : String) : Bool :=
  match sc.get id with
  | .ok v => githubCheck id v
  | .error _ => false

/-- The elements of `l` up to and including the first one that fails `p`, or
all of `l` when none fails. -/
def throughFirstFailure (p : String → Bool) (l : List String) : List String :=
  match l with
  | [] => []
  | k :: ks => if p k then k :: throughFirstFailure p ks else [k]

/-- The file reader of `iof` and the remote client of `psf` hold the same
secrets: for each of the eighteen logical secrets, the reader answers at the
secret's own file, the root path followed by the entry of the `vaultSecrets`
table for that secret, what the client answers at the id that the
remote-client adapter requests for it (bytes or failure). -/
def SameAnswers (psf : PVCSecretsFetcher) (iof : IOReaderSecretsFetcher) : Prop :=
  iof.r.readFile (vaultSecrets.index "rootPath" ++ vaultSecrets.index "awsAccessKeyIDid")
    = psf.sc.get awsAccessKeyIDid ∧
  iof.r.readFile (vaultSecrets.index "rootPath" ++ vaultSecrets.index "awsSecretAccessKeyid")
    = psf.sc.get awsSecretAccessKeyid ∧
  iof.r.readFile (vaultSecrets.index "rootPath" ++ vaultSecrets.index "githubHookSecretid")
    = psf.sc.get githubHookSecretid ∧
  iof.r.readFile (vaultSecrets.index "rootPath" ++ vaultSecrets.index "githubTokenid")
    = psf.sc.get githubTokenid ∧
  iof.r.readFile (vaultSecrets.index "rootPath" ++ vaultSecrets.index "githubAppID")
    = psf.sc.get githubAppID ∧
  iof.r.readFile (vaultSecrets.index "rootPath" ++ vaultSecrets.index "githubAppPK")
    = psf.sc.get githubAppPK ∧
  iof.r.readFile (vaultSecrets.index "rootPath" ++ vaultSecrets.index "githubAppHookSecret")
    = psf.sc.get githubAppHookSecret ∧
  iof.r.readFile (vaultSecrets.index "rootPath" ++ vaultSecrets.index "githubOAuthInstID")
    = psf.sc.get githubOAuthInstID ∧
  iof.r.readFile (vaultSecrets.index "rootPath" ++ vaultSecrets.index "githubOAuthClientID")
    = psf.sc.get githubOAuthClientID ∧
  iof.r.readFile (vaultSecrets.index "rootPath" ++ vaultSecrets.index "githubOAuthClientSecret")
    = psf.sc.get githubOAuthClientSecret ∧
  iof.r.readFile (vaultSecrets.index "rootPath" ++ vaultSecrets.index "githubOAuthCookieAuthKey")
    = psf.sc.get githubOAuthCookieAuthKey ∧
  iof.r.readFile (vaultSecrets.index "rootPath" ++ vaultSecrets.index "githubOAuthCookieEncKey")
    = psf.sc.get githubOAuthCookieEncKey ∧
  iof.r.readFile (vaultSecrets.index "rootPath" ++ vaultSecrets.index "githubOAuthUserTokenEncKey")
    = psf.sc.get githubOAuthUserTokenEncKey ∧
  iof.r.readFile (vaultSecrets.index "rootPath" ++ vaultSecrets.index "slackTokenid")
    = psf.sc.get slackTokenid ∧
  iof.r.readFile (vaultSecrets.index "rootPath" ++ vaultSecrets.index "apiKeysid")
    = psf.sc.get apiKeysid ∧
  iof.r.readFile (vaultSecrets.index "rootPath" ++ vaultSecrets.index "tlsCertid")
    = psf.sc.get tlsCertid ∧
  iof.r.readFile (vaultSecrets.index "rootPath" ++ vaultSecrets.index "tlsKeyid")
    = psf.sc.get tlsKeyid ∧
  iof.r.readFile (vaultSecrets.index "rootPath" ++ vaultSecrets.index "dbURIid")
    = psf.sc.get dbURIid

/-! ## Sample inputs -/

/-- The `[32]byte` array of zero bytes. -/
def zero32 : Byte32 := ⟨List.replicate 32 0, by decide⟩

/-- The zero value of `GithubConfig`. -/
def GithubConfig.zero : GithubConfig :=
  { HookSecret := [], Token := [], AppID := 0, PrivateKeyPEM := [], AppHookSecret := [],
    OAuth := { AppInstallationID := 0, ClientID := [], ClientSecret := [],
               CookieAuthKey := zero32, CookieEncKey := zero32, UserTokenEncKey := zero32 } }

/-- The zero values of the five destination objects. -/
def Dest.zero : Dest :=
  { aws := { AccessKeyID := [], SecretAccessKey := [] },
    gh := GithubConfig.zero,
    slack := { Token := [] },
    srv := { APIKeys := [], DisableTLS := false, TLSCert := { Certificate := [], PrivateKey := [] } },
    pg := { PostgresURI := [] } }

/-- A key-pair constructor that accepts a pair when the two blocks are equal
and not empty. -/
def sampleTLS : TLSPackage :=
  { X509KeyPair := fun c k =>
      if c = k ∧ c ≠ [] then ({ Certificate := [c], PrivateKey := k }, nil)
      else ({ Certificate := [], PrivateKey := [] }, some (Error.ext "tls: failed to find any PEM data")) }

/-- A remote backend that answers `0` for the GitHub app id and `x` for every
other id. -/
def clientAppIdZero : SecretsClient :=
  { get := fun id => if id = githubAppID then .ok (ascii "0") else .ok (ascii "x") }

/-- A remote backend with valid GitHub secrets: `42` for the app id, `7` for
the installation id, thirty-two bytes `k` for each of the three keys and `x` for
every other id. -/
def clientValid : SecretsClient :=
  { get := fun id =>
      if id = githubAppID then .ok (ascii "42")
      else if id = githubOAuthInstID then .ok (ascii "7")
      else if id = githubOAuthCookieAuthKey ∨ id = githubOAuthCookieEncKey
          ∨ id = githubOAuthUserTokenEncKey then .ok (List.replicate 32 107)
      else .ok (ascii "x") }

/-- A remote backend like `clientValid` whose cookie authentication key is the
five bytes `short`. -/
def clientShortKey : SecretsClient :=
  { get := fun id =>
      if id = githubOAuthCookieAuthKey then .ok (ascii "short") else clientValid.get id }

/-- A file reader that holds `short` in the file of the cookie authentication
key and `7` in every other file. -/
def readerShortKey : Reader :=
  { readFile := fun path =>
      if path = "/vault/secrets/githubOAuthCookieAuthKey" then .ok (ascii "short")
      else .ok (ascii "7") }

/-- A remote backend that holds the API keys `a,,b` and nothing else, so that
both TLS retrievals fail. -/
def clientNoTLS : SecretsClient :=
  { get := fun id =>
      if id = apiKeysid then .ok (ascii "a,,b") else .error (Error.ext "secret not found") }

/-- A file reader that holds the API keys `a,,b` and nothing else, so that both
TLS reads fail. -/
def readerNoTLS : Reader :=
  { readFile := fun path =>
      if path = "/vault/secrets/apiKeysid" then .ok (ascii "a,,b")
      else .error (Error.ext "no such file or directory") }

/-- A remote backend whose TLS certificate and TLS key differ. -/
def clientMismatch : SecretsClient :=
  { get := fun id => if id = tlsKeyid then .ok (ascii "y") else .ok (ascii "x") }

/-- A client constructor that insists on its options: none is `nil` and exactly
one of them names an authentication kind. -/
def pvcStrict : PVCPackage :=
  { NewSecretsClient := fun ops =>
      if ops.all Option.isSome = true ∧
          (ops.filter (fun op =>
            match op with
            | some (SecretsClientOption.WithVaultAuthentication _) => true
            | _ => false)).length = 1 then
        .ok clientValid
      else .error (Error.ext "pvc: bad options") }

/-- A file system in which every file holds the text `jwt`. -/
def ioutilJWT : IoutilPackage := { ReadFile := fun _ => (ascii "jwt", nil) }

/-- A Vault configuration in which all three authentication modes are
satisfied: token, Kubernetes, and AppID with a user id path. -/
def vaultAllModes : VaultConfig :=
  { UseAgent := false, Addr := "https://vault:8200", TokenAuth := true, Token := "tok",
    K8sAuth := true, K8sJWTPath := "/var/run/secrets/token", K8sRole := "acyl",
    K8sAuthPath := "kubernetes", AppID := "app", UserIDPath := "/etc/user-id" }

/-- A Vault configuration in which token authentication alone is satisfied. -/
def vaultTokenOnly : VaultConfig :=
  { vaultAllModes with K8sAuth := false, AppID := "", UserIDPath := "" }

/-- A Vault configuration in which Kubernetes authentication and AppID
authentication are satisfied. -/
def vaultK8sAndAppID : VaultConfig := { vaultAllModes with TokenAuth := false }

/-- A Vault configuration in which AppID authentication alone is satisfied. -/
def vaultAppIDOnly : VaultConfig := { vaultAllModes with TokenAuth := false, K8sAuth := false }

/-- A secrets configuration with a mapping and no backend chosen yet. -/
def secretsConfigSample : SecretsConfig := { Backend := none, Mapping := "secret/acyl/ID" }

/-- A client constructor that accepts every list of options. -/
def pvcLenient : PVCPackage := { NewSecretsClient := fun _ => .ok clientValid }

/-- A secrets configuration whose mapping is empty. -/
def secretsConfigNoMapping : SecretsConfig := { Backend := none, Mapping := "" }

/-- A secrets configuration with a mapping, whose backend option was set by an
earlier selection of the `env` backend. -/
def secretsConfigEnvSet : SecretsConfig :=
  { Backend := some SecretsClientOption.WithEnvVarBackend, Mapping := "secret/acyl/ID" }

/-- A file reader whose only file is `/vault/secrets/db/uri`, holding a
database URI. -/
def readerDbUriSlash : Reader :=
  { readFile := fun path =>
      if path = "/vault/secrets/db/uri" then .ok (ascii "postgres://u:p@host/db")
      else .error (Error.ext "no such file or directory") }

/-- A file reader whose only file is `/vault/secrets/dbURIid`, holding a
database URI. -/
def readerDbURIid : Reader :=
  { readFile := fun path =>
      if path = "/vault/secrets/dbURIid" then .ok (ascii "postgres://u:p@host/db")
      else .error (Error.ext "no such file or directory") }

/-- A file reader with valid GitHub secrets: thirty-two bytes `k` in the files
of the three keys and `7` in every other file. -/
def readerValid : Reader :=
  { readFile := fun path =>
      if path = "/vault/secrets/githubOAuthCookieAuthKey"
          ∨ path = "/vault/secrets/githubOAuthCookieEncKey"
          ∨ path = "/vault/secrets/githubOAuthUserTokenEncKey" then .ok (List.replicate 32 107)
      else .ok (ascii "7") }

/-- A remote backend whose API keys secret is empty and that holds nothing
else. -/
def clientEmptyKeys : SecretsClient :=
  { get := fun id =>
      if id = apiKeysid then .ok [] else .error (Error.ext "secret not found") }

/-- A remote backend that holds what `readerValid` holds: thirty-two bytes `k`
for each of the three keys and `7` for every other id. -/
def clientSevens : SecretsClient :=
  { get := fun id =>
      if id = githubOAuthCookieAuthKey ∨ id = githubOAuthCookieEncKey
          ∨ id = githubOAuthUserTokenEncKey then .ok (List.replicate 32 107)
      else .ok (ascii "7") }

/-- A file reader that has no file at all. -/
def readerEmpty : Reader :=
  { readFile := fun _ => .error (Error.ext "no such file or directory") }

/-- A file reader that holds each secret of `clientValid` in that secret's own
file, the root path followed by the table entry of the secret: `42` in
`/vault/secrets/githubAppID`, `7` in `/vault/secrets/githubOAuthInstID`,
thirty-two bytes `k` in the files of the three keys and `x` in the files of the
thirteen other secrets. There is no other file, and `/vault/secrets/` itself
cannot be read. -/
def readerOwnFiles : Reader :=
  { readFile := fun path =>
      if path = "/vault/secrets/githubAppID" then .ok (ascii "42")
      else if path = "/vault/secrets/githubOAuthInstID" then .ok (ascii "7")
      else if path = "/vault/secrets/githubOAuthCookieAuthKey"
          ∨ path = "/vault/secrets/githubOAuthCookieEncKey"
          ∨ path = "/vault/secrets/githubOAuthUserTokenEncKey" then .ok (List.replicate 32 107)
      else if path ∈ ["/vault/secrets/awsAccessKeyIDid", "/vault/secrets/awsSecretAccessKeyid",
          "/vault/secrets/githubHookSecretid", "/vault/secrets/githubTokenid",
          "/vault/secrets/githubAppPK", "/vault/secrets/githubAppHookSecret",
          "/vault/secrets/githubOAuthClientID", "/vault/secrets/githubOAuthClientSecret",
          "/vault/secrets/slackTokenid", "/vault/secrets/apiKeysid",
          "/vault/secrets/tlsCertid", "/vault/secrets/tlsKeyid",
          "/vault/secrets/dbURIid"] then .ok (ascii "x")
      else .error (Error.ext "no such file or directory") }

/-! ## Evaluation rules for method bodies -/

@[simp] theorem Populate.run_pure {σ α : Type} (a : α) (o : σ) :
    (pure a : Populate σ α).run o = ⟨a, o, []⟩ := rfl

@[simp] theorem Populate.run_bind {σ α β : Type} (x : Populate σ α) (f : α → Populate σ β)
    (o : σ) :
    (x >>= f).run o = ((f (x.run o).ret).run (x.run o).obj).prepend (x.run o).reqs := rfl

@[simp] theorem Outcome.prepend_mk {σ α : Type} (l l2 : List String) (a : α) (o : σ) :
    Outcome.prepend l ⟨a, o, l2⟩ = ⟨a, o, l ++ l2⟩ := rfl

@[simp] theorem Outcome.prepend_ret {σ α : Type} (l : List String) (r : Outcome σ α) :
    (r.prepend l).ret = r.ret := rfl

@[simp] theorem Outcome.prepend_obj {σ α : Type} (l : List String) (r : Outcome σ α) :
    (r.prepend l).obj = r.obj := rfl

@[simp] theorem Outcome.prepend_reqs {σ α : Type} (l : List String) (r : Outcome σ α) :
    (r.prepend l).reqs = l ++ r.reqs := rfl

@[simp] theorem run_assign {σ : Type} (f : σ → σ) (o : σ) :
    (assign f).run o = ⟨(), f o, []⟩ := rfl

@[simp] theorem run_deref {σ : Type} (o : σ) : (deref : Populate σ σ).run o = ⟨o, o, []⟩ := rfl

@[simp] theorem Populate.run_on {τ σ α : Type} (get : τ → σ) (set : τ → σ → τ)
    (m : Populate σ α) (o : τ) :
    (m.on get set).run o = ⟨(m.run (get o)).ret, set o (m.run (get o)).obj, (m.run (get o)).reqs⟩ :=
  rfl

@[simp] theorem Populate.run_logged {σ α : Type} (l : List String) (m : Populate σ α) (o : σ) :
    (m.logged l).run o = (m.run o).prepend l := rfl

@[simp] theorem resultPair_ok (v : Bytes) : resultPair (.ok v) = (v, nil) := rfl

@[simp] theorem resultPair_error (e : Error) : resultPair (.error e) = ([], some e) := rfl

@[simp] theorem SecretsClient.run_Get {σ : Type} (sc : SecretsClient) (id : String) (o : σ) :
    (sc.Get id).run o = ⟨resultPair (sc.get id), o, [id]⟩ := rfl

@[simp] theorem Reader.run_ReadFile {σ : Type} (r : Reader) (path : String) (o : σ) :
    (r.ReadFile path).run o = ⟨resultPair (r.readFile path), o, [path]⟩ := rfl

/-- A retrieval followed by the rest of a body: the rest runs on the two
results, after the request. -/
theorem SecretsClient.Get_bind {σ α : Type} (sc : SecretsClient) (id : String)
    (f : Bytes × error → Populate σ α) :
    sc.Get id >>= f = (f (resultPair (sc.get id))).logged [id] := rfl

/-- A file read followed by the rest of a body: the rest runs on the two
results, after the request. -/
theorem Reader.ReadFile_bind {σ α : Type} (r : Reader) (path : String)
    (f : Bytes × error → Populate σ α) :
    r.ReadFile path >>= f = (f (resultPair (r.readFile path))).logged [path] := rfl

/-- A `pure` statement followed by the rest of a body. -/
theorem Populate.pure_bind {σ α β : Type} (a : α) (f : α → Populate σ β) :
    (pure a : Populate σ α) >>= f = f a := by
  show Populate.mk _ = f a
  cases hf : f a with
  | mk g => simp [hf, Outcome.prepend, Pure.pure]

/-! ## `PopulateAllSecrets` -/

/-- The body of `PopulateAllSecrets` over five arbitrary per-domain operations:
its outcome from the outcomes of the five operations on their own objects. -/
theorem aggregate_run (pa : Populate AWSCreds error) (pg : Populate GithubConfig error)
    (ps : Populate SlackConfig error) (pv : Populate ServerConfig error)
    (pp : Populate PGConfig error) (d : Dest) :
    (do
      let err ← onAWS pa
      if err ≠ nil then
        return errors.Wrap err "error getting AWS secrets"
      let err ← onGithub pg
      if err ≠ nil then
        return errors.Wrap err "error getting GitHub secrets"
      let err ← onSlack ps
      if err ≠ nil then
        return errors.Wrap err "error getting Slack secrets"
      let err ← onServer pv
      if err ≠ nil then
        return errors.Wrap err "error getting server secrets"
      let err ← onPG pp
      if err ≠ nil then
        return errors.Wrap err "error getting db secrets"
      return nil : Populate Dest error).run d =
      if (pa.run d.aws).ret ≠ nil then
        ⟨errors.Wrap (pa.run d.aws).ret "error getting AWS secrets",
          { d with aws := (pa.run d.aws).obj },
          (pa.run d.aws).reqs⟩
      else if (pg.run d.gh).ret ≠ nil then
        ⟨errors.Wrap (pg.run d.gh).ret "error getting GitHub secrets",
          { d with aws := (pa.run d.aws).obj, gh := (pg.run d.gh).obj },
          (pa.run d.aws).reqs ++ (pg.run d.gh).reqs⟩
      else if (ps.run d.slack).ret ≠ nil then
        ⟨errors.Wrap (ps.run d.slack).ret "error getting Slack secrets",
          { d with aws := (pa.run d.aws).obj, gh := (pg.run d.gh).obj,
                   slack := (ps.run d.slack).obj },
          (pa.run d.aws).reqs ++ (pg.run d.gh).reqs ++ (ps.run d.slack).reqs⟩
      else if (pv.run d.srv).ret ≠ nil then
        ⟨errors.Wrap (pv.run d.srv).ret "error getting server secrets",
          { d with aws := (pa.run d.aws).obj, gh := (pg.run d.gh).obj,
                   slack := (ps.run d.slack).obj, srv := (pv.run d.srv).obj },
          (pa.run d.aws).reqs ++ (pg.run d.gh).reqs ++ (ps.run d.slack).reqs
            ++ (pv.run d.srv).reqs⟩
      else
        ⟨errors.Wrap (pp.run d.pg).ret "error getting db secrets",
          ⟨(pa.run d.aws).obj, (pg.run d.gh).obj, (ps.run d.slack).obj, (pv.run d.srv).obj,
            (pp.run d.pg).obj⟩,
          (pa.run d.aws).reqs ++ (pg.run d.gh).reqs ++ (ps.run d.slack).reqs
            ++ (pv.run d.srv).reqs ++ (pp.run d.pg).reqs⟩ := by
  simp only [onAWS, onGithub, onSlack, onServer, onPG, Populate.run_bind, Populate.run_on]
  by_cases ha : (pa.run d.aws).ret = nil
  · by_cases hg : (pg.run d.gh).ret = nil
    · by_cases hs : (ps.run d.slack).ret = nil
      · by_cases hv : (pv.run d.srv).ret = nil
        · by_cases hp : (pp.run d.pg).ret = nil
          · simp [ha, hg, hs, hv, hp, errors.Wrap]
          · simp [ha, hg, hs, hv, hp]
        · simp [ha, hg, hs, hv]
      · simp [ha, hg, hs]
    · simp [ha, hg]
  · simp [ha]

/-- The outcome of `PopulateAllSecrets` of either adapter from the outcomes of
its five per-domain operations. -/
theorem Adapter.PopulateAllSecrets_run (tls : TLSPackage) (sf : Adapter) (d : Dest) :
    (sf.PopulateAllSecrets tls).run d =
      if (sf.PopulateAWS.run d.aws).ret ≠ nil then
        ⟨errors.Wrap (sf.PopulateAWS.run d.aws).ret "error getting AWS secrets",
          { d with aws := (sf.PopulateAWS.run d.aws).obj },
          (sf.PopulateAWS.run d.aws).reqs⟩
      else if (sf.PopulateGithub.run d.gh).ret ≠ nil then
        ⟨errors.Wrap (sf.PopulateGithub.run d.gh).ret "error getting GitHub secrets",
          { d with aws := (sf.PopulateAWS.run d.aws).obj, gh := (sf.PopulateGithub.run d.gh).obj },
          (sf.PopulateAWS.run d.aws).reqs ++ (sf.PopulateGithub.run d.gh).reqs⟩
      else if (sf.PopulateSlack.run d.slack).ret ≠ nil then
        ⟨errors.Wrap (sf.PopulateSlack.run d.slack).ret "error getting Slack secrets",
          { d with aws := (sf.PopulateAWS.run d.aws).obj, gh := (sf.PopulateGithub.run d.gh).obj,
                   slack := (sf.PopulateSlack.run d.slack).obj },
          (sf.PopulateAWS.run d.aws).reqs ++ (sf.PopulateGithub.run d.gh).reqs
            ++ (sf.PopulateSlack.run d.slack).reqs⟩
      else if ((sf.PopulateServer tls).run d.srv).ret ≠ nil then
        ⟨errors.Wrap ((sf.PopulateServer tls).run d.srv).ret "error getting server secrets",
          { d with aws := (sf.PopulateAWS.run d.aws).obj, gh := (sf.PopulateGithub.run d.gh).obj,
                   slack := (sf.PopulateSlack.run d.slack).obj,
                   srv := ((sf.PopulateServer tls).run d.srv).obj },
          (sf.PopulateAWS.run d.aws).reqs ++ (sf.PopulateGithub.run d.gh).reqs
            ++ (sf.PopulateSlack.run d.slack).reqs ++ ((sf.PopulateServer tls).run d.srv).reqs⟩
      else
        ⟨errors.Wrap (sf.PopulatePG.run d.pg).ret "error getting db secrets",
          ⟨(sf.PopulateAWS.run d.aws).obj, (sf.PopulateGithub.run d.gh).obj,
            (sf.PopulateSlack.run d.slack).obj, ((sf.PopulateServer tls).run d.srv).obj,
            (sf.PopulatePG.run d.pg).obj⟩,
          (sf.PopulateAWS.run d.aws).reqs ++ (sf.PopulateGithub.run d.gh).reqs
            ++ (sf.PopulateSlack.run d.slack).reqs ++ ((sf.PopulateServer tls).run d.srv).reqs
            ++ (sf.PopulatePG.run d.pg).reqs⟩ := by
  cases sf with
  | remote psf =>
    exact aggregate_run psf.PopulateAWS psf.PopulateGithub psf.PopulateSlack
      (psf.PopulateServer tls) psf.PopulatePG d
  | file iof =>
    exact aggregate_run iof.PopulateAWS iof.PopulateGithub iof.PopulateSlack
      (iof.PopulateServer tls) iof.PopulatePG d

/-- C1: for either adapter and any five destination objects, `PopulateAllSecrets`
fails iff one of the five per-domain operations fails; it fails with the error
of the first failing domain in the order AWS, GitHub, Slack, server, PG, wrapped
with that domain's message; the ids it requests are those of the operations up
to and including the failing one, in that order, and the destination objects of
the later domains are unchanged. When none fails it returns `nil` after the
requests of all five, in that order. -/
theorem PopulateAllSecrets_stops_at_first_failure (tls : TLSPackage) (sf : Adapter)
    (d : Dest) :
    let a := sf.PopulateAWS.run d.aws
    let g := sf.PopulateGithub.run d.gh
    let s := sf.PopulateSlack.run d.slack
    let v := (sf.PopulateServer tls).run d.srv
    let p := sf.PopulatePG.run d.pg
    let r := (sf.PopulateAllSecrets tls).run d
    (r.ret ≠ nil ↔ a.ret ≠ nil ∨ g.ret ≠ nil ∨ s.ret ≠ nil ∨ v.ret ≠ nil ∨ p.ret ≠ nil) ∧
    (∀ e, a.ret = some e →
      r.ret = some (Error.wrap e "error getting AWS secrets") ∧ r.reqs = a.reqs ∧
      r.obj.gh = d.gh ∧ r.obj.slack = d.slack ∧ r.obj.srv = d.srv ∧ r.obj.pg = d.pg) ∧
    (∀ e, a.ret = nil → g.ret = some e →
      r.ret = some (Error.wrap e "error getting GitHub secrets") ∧ r.reqs = a.reqs ++ g.reqs ∧
      r.obj.slack = d.slack ∧ r.obj.srv = d.srv ∧ r.obj.pg = d.pg) ∧
    (∀ e, a.ret = nil → g.ret = nil → s.ret = some e →
      r.ret = some (Error.wrap e "error getting Slack secrets") ∧
      r.reqs = a.reqs ++ g.reqs ++ s.reqs ∧ r.obj.srv = d.srv ∧ r.obj.pg = d.pg) ∧
    (∀ e, a.ret = nil → g.ret = nil → s.ret = nil → v.ret = some e →
      r.ret = some (Error.wrap e "error getting server secrets") ∧
      r.reqs = a.reqs ++ g.reqs ++ s.reqs ++ v.reqs ∧ r.obj.pg = d.pg) ∧
    (∀ e, a.ret = nil → g.ret = nil → s.ret = nil → v.ret = nil → p.ret = some e →
      r.ret = some (Error.wrap e "error getting db secrets") ∧
      r.reqs = a.reqs ++ g.reqs ++ s.reqs ++ v.reqs ++ p.reqs) ∧
    (a.ret = nil → g.ret = nil → s.ret = nil → v.ret = nil → p.ret = nil →
      r.ret = nil ∧ r.reqs = a.reqs ++ g.reqs ++ s.reqs ++ v.reqs ++ p.reqs) := by
  intro a g s v p r
  have hr : r = _ := Adapter.PopulateAllSecrets_run tls sf d
  refine ⟨?_, ?_, ?_, ?_, ?_, ?_, ?_⟩
  · rw [hr]
    by_cases ha : (sf.PopulateAWS.run d.aws).ret = nil
    · by_cases hg : (sf.PopulateGithub.run d.gh).ret = nil
      · by_cases hs : (sf.PopulateSlack.run d.slack).ret = nil
        · by_cases hv : ((sf.PopulateServer tls).run d.srv).ret = nil
          · by_cases hp : (sf.PopulatePG.run d.pg).ret = nil
            · simp [a, g, s, v, p, ha, hg, hs, hv, hp, errors.Wrap]
            · cases hp1 : (sf.PopulatePG.run d.pg).ret with
              | none => exact absurd hp1 hp
              | some e => simp [a, g, s, v, p, ha, hg, hs, hv, hp1, errors.Wrap]
          · cases hv1 : ((sf.PopulateServer tls).run d.srv).ret with
            | none => exact absurd hv1 hv
            | some e => simp [a, g, s, v, p, ha, hg, hs, hv1, errors.Wrap]
        · cases hs1 : (sf.PopulateSlack.run d.slack).ret with
          | none => exact absurd hs1 hs
          | some e => simp [a, g, s, v, p, ha, hg, hs1, errors.Wrap]
      · cases hg1 : (sf.PopulateGithub.run d.gh).ret with
        | none => exact absurd hg1 hg
        | some e => simp [a, g, s, v, p, ha, hg1, errors.Wrap]
    · cases ha1 : (sf.PopulateAWS.run d.aws).ret with
      | none => exact absurd ha1 ha
      | some e => simp [a, g, s, v, p, ha1, errors.Wrap]
  · intro e ha
    rw [hr]
    simp [show (sf.PopulateAWS.run d.aws).ret = some e from ha, errors.Wrap, a]
  · intro e ha hg
    rw [hr]
    simp [show (sf.PopulateAWS.run d.aws).ret = none from ha,
      show (sf.PopulateGithub.run d.gh).ret = some e from hg, errors.Wrap, a, g]
  · intro e ha hg hs
    rw [hr]
    simp [show (sf.PopulateAWS.run d.aws).ret = none from ha,
      show (sf.PopulateGithub.run d.gh).ret = none from hg,
      show (sf.PopulateSlack.run d.slack).ret = some e from hs, errors.Wrap, a, g, s]
  · intro e ha hg hs hv
    rw [hr]
    simp [show (sf.PopulateAWS.run d.aws).ret = none from ha,
      show (sf.PopulateGithub.run d.gh).ret = none from hg,
      show (sf.PopulateSlack.run d.slack).ret = none from hs,
      show ((sf.PopulateServer tls).run d.srv).ret = some e from hv, errors.Wrap, a, g, s, v]
  · intro e ha hg hs hv hp
    rw [hr]
    simp [show (sf.PopulateAWS.run d.aws).ret = none from ha,
      show (sf.PopulateGithub.run d.gh).ret = none from hg,
      show (sf.PopulateSlack.run d.slack).ret = none from hs,
      show ((sf.PopulateServer tls).run d.srv).ret = none from hv,
      show (sf.PopulatePG.run d.pg).ret = some e from hp, errors.Wrap, a, g, s, v, p]
  · intro ha hg hs hv hp
    rw [hr]
    simp [show (sf.PopulateAWS.run d.aws).ret = none from ha,
      show (sf.PopulateGithub.run d.gh).ret = none from hg,
      show (sf.PopulateSlack.run d.slack).ret = none from hs,
      show ((sf.PopulateServer tls).run d.srv).ret = none from hv,
      show (sf.PopulatePG.run d.pg).ret = none from hp, errors.Wrap, a, g, s, v, p]

/-- Witness of C1: with the remote backend that answers `0` for the app id,
`PopulateAllSecrets` fails at GitHub with the wrapped validation error, after
the two AWS requests and the first three GitHub requests, and leaves the Slack
object as it was. -/
theorem PopulateAllSecrets_stops_at_first_failure_witness :
    (((Adapter.remote ⟨clientAppIdZero⟩).PopulateAllSecrets sampleTLS).run Dest.zero).ret
        = some (Error.wrap (Error.errorf "app id must be >= 1: 0") "error getting GitHub secrets") ∧
    (((Adapter.remote ⟨clientAppIdZero⟩).PopulateAllSecrets sampleTLS).run Dest.zero).reqs
        = [awsAccessKeyIDid, awsSecretAccessKeyid, githubHookSecretid, githubTokenid, githubAppID] ∧
    (((Adapter.remote ⟨clientAppIdZero⟩).PopulateAllSecrets sampleTLS).run Dest.zero).obj.slack
        = Dest.zero.slack := by
  have h := (PopulateAllSecrets_stops_at_first_failure sampleTLS
    (Adapter.remote ⟨clientAppIdZero⟩) Dest.zero).2.2.1
    (Error.errorf "app id must be >= 1: 0") (by decide) (by decide)
  exact ⟨h.1, h.2.1.trans (by decide), h.2.2.1⟩

/-- A successful run of the remote `PopulateAWS` writes the two answers. -/
theorem PVCSecretsFetcher.PopulateAWS_run_ok (psf : PVCSecretsFetcher) (aws : AWSCreds)
    (v1 v2 : Bytes) (h1 : psf.sc.get awsAccessKeyIDid = .ok v1)
    (h2 : psf.sc.get awsSecretAccessKeyid = .ok v2) :
    psf.PopulateAWS.run aws =
      ⟨nil, { AccessKeyID := v1, SecretAccessKey := v2 },
        [awsAccessKeyIDid, awsSecretAccessKeyid]⟩ := by
  simp [PVCSecretsFetcher.PopulateAWS, h1, h2, string]

/-- A successful run of the file `PopulateAWS` writes the two file contents. -/
theorem IOReaderSecretsFetcher.PopulateAWS_file_run_ok (iof : IOReaderSecretsFetcher)
    (aws : AWSCreds) (v1 v2 : Bytes)
    (h1 : iof.r.readFile (vaultSecrets.index "rootPath" ++ vaultSecrets.index "awsAccessKeyIDid")
      = .ok v1)
    (h2 : iof.r.readFile
      (vaultSecrets.index "rootPath" ++ vaultSecrets.index "awsSecretAccessKeyid") = .ok v2) :
    iof.PopulateAWS.run aws =
      ⟨nil, { AccessKeyID := v1, SecretAccessKey := v2 },
        [vaultSecrets.index "rootPath" ++ vaultSecrets.index "awsAccessKeyIDid",
         vaultSecrets.index "rootPath" ++ vaultSecrets.index "awsSecretAccessKeyid"]⟩ := by
  simp [IOReaderSecretsFetcher.PopulateAWS, h1, h2, string]

/-- C2: for either adapter, when `PopulateAllSecrets` fails at a domain, the
destination object of every domain before it is the object that the domain's
own per-domain operation left (nothing is rolled back). In particular, when
`PopulateGithub` fails after both AWS retrievals succeeded, `aws.AccessKeyID`
and `aws.SecretAccessKey` are the two values the backend answered. -/
theorem PopulateAllSecrets_keeps_earlier_writes (tls : TLSPackage) (sf : Adapter) (d : Dest) :
    let a := sf.PopulateAWS.run d.aws
    let g := sf.PopulateGithub.run d.gh
    let s := sf.PopulateSlack.run d.slack
    let v := (sf.PopulateServer tls).run d.srv
    let p := sf.PopulatePG.run d.pg
    let r := (sf.PopulateAllSecrets tls).run d
    (a.ret = nil → g.ret ≠ nil → r.ret ≠ nil ∧ r.obj.aws = a.obj) ∧
    (a.ret = nil → g.ret = nil → s.ret ≠ nil →
      r.ret ≠ nil ∧ r.obj.aws = a.obj ∧ r.obj.gh = g.obj) ∧
    (a.ret = nil → g.ret = nil → s.ret = nil → v.ret ≠ nil →
      r.ret ≠ nil ∧ r.obj.aws = a.obj ∧ r.obj.gh = g.obj ∧ r.obj.slack = s.obj) ∧
    (a.ret = nil → g.ret = nil → s.ret = nil → v.ret = nil → p.ret ≠ nil →
      r.ret ≠ nil ∧ r.obj.aws = a.obj ∧ r.obj.gh = g.obj ∧ r.obj.slack = s.obj ∧
      r.obj.srv = v.obj) ∧
    (∀ psf v1 v2, sf = Adapter.remote psf →
      psf.sc.get awsAccessKeyIDid = .ok v1 → psf.sc.get awsSecretAccessKeyid = .ok v2 →
      g.ret ≠ nil →
      r.ret ≠ nil ∧ r.obj.aws.AccessKeyID = v1 ∧ r.obj.aws.SecretAccessKey = v2) ∧
    (∀ iof v1 v2, sf = Adapter.file iof →
      iof.r.readFile (vaultSecrets.index "rootPath" ++ vaultSecrets.index "awsAccessKeyIDid")
        = .ok v1 →
      iof.r.readFile (vaultSecrets.index "rootPath" ++ vaultSecrets.index "awsSecretAccessKeyid")
        = .ok v2 →
      g.ret ≠ nil →
      r.ret ≠ nil ∧ r.obj.aws.AccessKeyID = v1 ∧ r.obj.aws.SecretAccessKey = v2) := by
  intro a g s v p r
  have hr : r = _ := Adapter.PopulateAllSecrets_run tls sf d
  have wrap_ne : ∀ (e : error) (m : String), e ≠ nil → errors.Wrap e m ≠ nil := by
    intro e m he
    cases e with
    | none => exact absurd rfl he
    | some x => simp [errors.Wrap]
  have first : a.ret = nil → g.ret ≠ nil → r.ret ≠ nil ∧ r.obj.aws = a.obj := by
    intro ha hg
    rw [hr]
    simp only [show (sf.PopulateAWS.run d.aws).ret = nil from ha, ne_eq, not_true_eq_false,
      if_false, if_neg, if_pos (show (sf.PopulateGithub.run d.gh).ret ≠ nil from hg)]
    exact ⟨wrap_ne _ _ hg, trivial⟩
  refine ⟨first, ?_, ?_, ?_, ?_, ?_⟩
  · intro ha hg hs
    rw [hr]
    simp only [show (sf.PopulateAWS.run d.aws).ret = nil from ha,
      show (sf.PopulateGithub.run d.gh).ret = nil from hg, ne_eq, not_true_eq_false,
      if_false, if_pos (show (sf.PopulateSlack.run d.slack).ret ≠ nil from hs)]
    exact ⟨wrap_ne _ _ hs, trivial, trivial⟩
  · intro ha hg hs hv
    rw [hr]
    simp only [show (sf.PopulateAWS.run d.aws).ret = nil from ha,
      show (sf.PopulateGithub.run d.gh).ret = nil from hg,
      show (sf.PopulateSlack.run d.slack).ret = nil from hs, ne_eq, not_true_eq_false,
      if_false, if_pos (show ((sf.PopulateServer tls).run d.srv).ret ≠ nil from hv)]
    exact ⟨wrap_ne _ _ hv, trivial, trivial, trivial⟩
  · intro ha hg hs hv hp
    rw [hr]
    simp only [show (sf.PopulateAWS.run d.aws).ret = nil from ha,
      show (sf.PopulateGithub.run d.gh).ret = nil from hg,
      show (sf.PopulateSlack.run d.slack).ret = nil from hs,
      show ((sf.PopulateServer tls).run d.srv).ret = nil from hv, ne_eq, not_true_eq_false,
      if_false]
    exact ⟨wrap_ne _ _ hp, trivial, trivial, trivial, trivial⟩
  · intro psf v1 v2 hsf h1 h2 hg
    subst hsf
    have ha : a = _ := PVCSecretsFetcher.PopulateAWS_run_ok psf d.aws v1 v2 h1 h2
    have h := first (by rw [ha]) hg
    refine ⟨h.1, ?_, ?_⟩
    · rw [h.2, ha]
    · rw [h.2, ha]
  · intro iof v1 v2 hsf h1 h2 hg
    subst hsf
    have ha : a = _ := IOReaderSecretsFetcher.PopulateAWS_file_run_ok iof d.aws v1 v2 h1 h2
    have h := first (by rw [ha]) hg
    refine ⟨h.1, ?_, ?_⟩
    · rw [h.2, ha]
    · rw [h.2, ha]

/-- Witness of C2: the remote backend that answers `0` for the app id makes
`PopulateGithub` fail; the AWS fields then hold the two answers `x`. -/
theorem PopulateAllSecrets_keeps_earlier_writes_witness :
    (((Adapter.remote ⟨clientAppIdZero⟩).PopulateAllSecrets sampleTLS).run Dest.zero).ret ≠ nil ∧
    (((Adapter.remote ⟨clientAppIdZero⟩).PopulateAllSecrets sampleTLS).run Dest.zero).obj.aws
      = { AccessKeyID := ascii "x", SecretAccessKey := ascii "x" } := by
  have h := (PopulateAllSecrets_keeps_earlier_writes sampleTLS
    (Adapter.remote ⟨clientAppIdZero⟩) Dest.zero).1 (by decide) (by decide)
  exact ⟨h.1, h.2.trans (by decide)⟩

/-! ## `strconv.Atoi` -/

/-- The digits read after a value `n`. -/
theorem foldl_digits_ge (ds : Bytes) (n : Nat) :
    n ≤ ds.foldl (fun n c => n * 10 + (c.toNat - 48)) n := by
  induction ds generalizing n with
  | nil => simp
  | cons c cs ih =>
    simp only [List.foldl_cons]
    have := ih (n * 10 + (c.toNat - 48))
    omega

/-- The digit loop of `ParseUint` succeeds exactly on digit sequences whose
value stays below `2^64`, and then gives that value. -/
theorem strconv.parseUintLoop_eq_ok (ds : Bytes) (n v : Nat) (hn : n < 2 ^ 64) :
    strconv.parseUintLoop n ds = (v, none) ↔
      ds.all isDigit = true ∧ v = ds.foldl (fun n c => n * 10 + (c.toNat - 48)) n ∧
        v < 2 ^ 64 := by
  induction ds generalizing n with
  | nil =>
    simp only [strconv.parseUintLoop, List.all_nil, List.foldl_nil, true_and, Prod.mk.injEq,
      and_true]
    constructor
    · intro h; subst h; exact ⟨rfl, hn⟩
    · intro h; exact h.1.symm
  | cons c cs ih =>
    have hge := foldl_digits_ge cs (n * 10 + (c.toNat - 48))
    by_cases hd : 48 ≤ c.toNat ∧ c.toNat ≤ 57
    · have hdig : isDigit c = true := by simp [isDigit, hd.1, hd.2]
      by_cases hc : n ≥ (2 ^ 64 - 1) / 10 + 1
      · simp only [strconv.parseUintLoop, hd, and_self, if_true, hc, List.all_cons,
          List.foldl_cons, Prod.mk.injEq]
        constructor
        · intro h; exact absurd h.2 (by simp)
        · rintro ⟨_, h1, h2⟩
          exfalso
          omega
      · by_cases hw : (n * 10 + (c.toNat - 48)) % 2 ^ 64 < n * 10 ∨
            (n * 10 + (c.toNat - 48)) % 2 ^ 64 > 2 ^ 64 - 1
        · simp only [strconv.parseUintLoop, hd, and_self, if_true, hc, if_false, hw,
            List.all_cons, List.foldl_cons]
          constructor
          · intro h; exact absurd (congrArg Prod.snd h) (by simp)
          · rintro ⟨_, h1, h2⟩
            exfalso
            have : n * 10 + (c.toNat - 48) < 2 ^ 64 := by omega
            rw [Nat.mod_eq_of_lt this] at hw
            omega
        · have hlt : n * 10 + (c.toNat - 48) < 2 ^ 64 := by
            by_contra hge2
            apply hw
            left
            have h1 : n * 10 + (c.toNat - 48) < 2 ^ 64 + 2 ^ 64 := by omega
            omega
          have hmod : (n * 10 + (c.toNat - 48)) % 2 ^ 64 = n * 10 + (c.toNat - 48) :=
            Nat.mod_eq_of_lt hlt
          simp only [strconv.parseUintLoop, hd, and_self, if_true, hc, if_false, hw,
            List.all_cons, List.foldl_cons, hdig, Bool.true_and]
          rw [hmod]
          exact ih (n * 10 + (c.toNat - 48)) hlt
    · have hdig : isDigit c = false := by
        simp only [isDigit, Bool.and_eq_false_imp, decide_eq_true_eq, decide_eq_false_iff_not]
        intro h1 h2
        exact hd ⟨h1, h2⟩
      simp only [strconv.parseUintLoop, hd, if_false, List.all_cons, hdig, Bool.false_and,
        Bool.false_eq_true, false_and, iff_false]
      intro h
      exact absurd (congrArg Prod.snd h) (by simp)

/-- A range error of the digit loop comes with the value `2^64 - 1`. -/
theorem strconv.parseUintLoop_range (ds : Bytes) (n v : Nat)
    (h : strconv.parseUintLoop n ds = (v, some NumErr.ErrRange)) : v = 2 ^ 64 - 1 := by
  induction ds generalizing n with
  | nil => simp [strconv.parseUintLoop] at h
  | cons c cs ih =>
    simp only [strconv.parseUintLoop] at h
    split_ifs at h with h1 h2 h3
    · exact (congrArg Prod.fst h).symm
    · exact (congrArg Prod.fst h).symm
    · exact ih _ h
    · exact absurd (congrArg Prod.snd h) (by simp)

/-- `ParseUint` succeeds exactly on one or more digits whose value is below
`2^64`. -/
theorem strconv.ParseUint_eq_ok (ds : Bytes) (v : Nat) :
    strconv.ParseUint ds = (v, none) ↔ unsignedValue ds = some v ∧ v < 2 ^ 64 := by
  unfold strconv.ParseUint unsignedValue digitsValue
  by_cases hnil : ds = []
  · simp [hnil]
  · simp only [hnil, if_false, ne_eq, not_false_eq_true, true_and]
    rw [strconv.parseUintLoop_eq_ok ds 0 v (by norm_num)]
    by_cases hall : ds.all isDigit = true
    · simp only [hall, if_true, Option.some.injEq, true_and]
      constructor
      · rintro ⟨h1, h2⟩; exact ⟨h1.symm, h2⟩
      · rintro ⟨h1, h2⟩; exact ⟨h1.symm, h2⟩
    · simp [hall]

/-- A range error of `ParseUint` comes with the value `2^64 - 1`. -/
theorem strconv.ParseUint_range (ds : Bytes) (v : Nat)
    (h : strconv.ParseUint ds = (v, some NumErr.ErrRange)) : v = 2 ^ 64 - 1 := by
  unfold strconv.ParseUint at h
  split_ifs at h with h1
  · exact absurd (congrArg Prod.snd h) (by simp)
  · exact strconv.parseUintLoop_range ds 0 v h

/-- The result of `ParseInt` from the result of `ParseUint` on the text after
the sign. -/
theorem strconv.ParseInt_ok_iff (neg : Bool) (s1 : Bytes) (n : Int) :
    (match strconv.ParseUint s1 with
      | (un, err) =>
        if err = some NumErr.ErrSyntax then ((0 : Int), err)
        else if ¬ (neg = true) ∧ un ≥ 2 ^ 63 then (2 ^ 63 - 1, some NumErr.ErrRange)
        else if neg = true ∧ un > 2 ^ 63 then (-(2 ^ 63), some NumErr.ErrRange)
        else if neg = true then (-(un : Int), none)
        else ((un : Int), none)) = (n, none) ↔
      ∃ v, unsignedValue s1 = some v ∧ n = (if neg = true then -(v : Int) else (v : Int)) ∧
        -(2 ^ 63) ≤ n ∧ n < 2 ^ 63 := by
  rcases hp : strconv.ParseUint s1 with ⟨un, err⟩
  cases err with
  | none =>
    have hu := (strconv.ParseUint_eq_ok s1 un).1 hp
    simp only [reduceCtorEq, if_false]
    cases neg with
    | false =>
      simp only [Bool.false_eq_true, not_false_eq_true, true_and, false_and, if_false]
      by_cases hbig : un ≥ 2 ^ 63
      · simp only [hbig, if_true, Prod.mk.injEq, reduceCtorEq, and_false, false_iff]
        rintro ⟨v, hv, hn, _, hlt⟩
        rw [hu.1] at hv
        cases hv
        omega
      · simp only [hbig, if_false, Prod.mk.injEq, and_true]
        constructor
        · intro h
          exact ⟨un, hu.1, h.symm, by omega, by omega⟩
        · rintro ⟨v, hv, hn, _, _⟩
          rw [hu.1] at hv
          cases hv
          exact hn.symm
    | true =>
      simp only [not_true_eq_false, false_and, if_false, true_and, if_true]
      by_cases hbig : un > 2 ^ 63
      · simp only [hbig, if_true, Prod.mk.injEq, reduceCtorEq, and_false, false_iff]
        rintro ⟨v, hv, hn, hge, _⟩
        rw [hu.1] at hv
        cases hv
        omega
      · simp only [hbig, if_false, Prod.mk.injEq, and_true]
        constructor
        · intro h
          exact ⟨un, hu.1, h.symm, by omega, by omega⟩
        · rintro ⟨v, hv, hn, _, _⟩
          rw [hu.1] at hv
          cases hv
          exact hn.symm
  | some e =>
    have hno : ∀ v, unsignedValue s1 = some v → ¬ v < 2 ^ 64 := by
      intro v hv hlt
      have := (strconv.ParseUint_eq_ok s1 v).2 ⟨hv, hlt⟩
      rw [hp] at this
      exact absurd (congrArg Prod.snd this) (by simp)
    cases e with
    | ErrSyntax =>
      simp only [if_true, Prod.mk.injEq, reduceCtorEq, and_false, false_iff]
      rintro ⟨v, hv, hn, hge, hlt⟩
      apply hno v hv
      cases neg <;> simp at hn <;> omega
    | ErrRange =>
      have hun := strconv.ParseUint_range s1 un hp
      simp only [Option.some.injEq, reduceCtorEq, if_false]
      have hfalse : ¬ ∃ v, unsignedValue s1 = some v ∧
          n = (if neg = true then -(v : Int) else (v : Int)) ∧ -(2 ^ 63) ≤ n ∧ n < 2 ^ 63 := by
        rintro ⟨v, hv, hn, hge, hlt⟩
        apply hno v hv
        cases neg <;> simp at hn <;> omega
      simp only [hfalse, iff_false]
      subst hun
      cases neg <;> simp

/-- `ParseInt` gives `n` without error exactly when the text writes the integer
`n` in decimal and `n` is in the range of a 64-bit `int`. -/
theorem strconv.ParseInt_eq_ok (s : Bytes) (n : Int) :
    strconv.ParseInt s = (n, none) ↔
      decimalValue s = some n ∧ -(2 ^ 63) ≤ n ∧ n < 2 ^ 63 := by
  cases s with
  | nil => simp [strconv.ParseInt, decimalValue]
  | cons c cs =>
    by_cases h43 : c = 43
    · subst h43
      have h := strconv.ParseInt_ok_iff false cs n
      simp only [strconv.ParseInt, decimalValue]
      simp only [Bool.false_eq_true, not_false_eq_true, true_and, false_and, if_false] at h
      simp only [true_or, if_true, show ¬ ((43 : UInt8) = 45) by decide, not_false_eq_true,
        true_and, false_and, if_false]
      rw [h]
      constructor
      · rintro ⟨v, hv, hn, h1, h2⟩
        exact ⟨by simp [hv, hn], h1, h2⟩
      · rintro ⟨hv, h1, h2⟩
        rcases hu : unsignedValue cs with _ | v
        · simp [hu] at hv
        · simp [hu] at hv
          exact ⟨v, rfl, hv.symm, h1, h2⟩
    · by_cases h45 : c = 45
      · subst h45
        have h := strconv.ParseInt_ok_iff true cs n
        simp only [strconv.ParseInt, decimalValue]
        simp only [not_true_eq_false, false_and, if_false, true_and, if_true] at h
        simp only [or_true, if_true, show ¬ ((45 : UInt8) = 43) by decide, not_true_eq_false,
          true_and, false_and, if_false]
        rw [h]
        constructor
        · rintro ⟨v, hv, hn, h1, h2⟩
          exact ⟨by simp [hv, hn], h1, h2⟩
        · rintro ⟨hv, h1, h2⟩
          rcases hu : unsignedValue cs with _ | v
          · simp [hu] at hv
          · simp [hu] at hv
            exact ⟨v, rfl, hv.symm, h1, h2⟩
      · have h := strconv.ParseInt_ok_iff false (c :: cs) n
        simp only [strconv.ParseInt, decimalValue]
        simp only [Bool.false_eq_true, not_false_eq_true, true_and, false_and, if_false] at h
        simp only [h43, h45, or_self, if_false, not_false_eq_true, true_and, false_and]
        rw [h]
        constructor
        · rintro ⟨v, hv, hn, h1, h2⟩
          exact ⟨by simp [hv, hn], h1, h2⟩
        · rintro ⟨hv, h1, h2⟩
          rcases hu : unsignedValue (c :: cs) with _ | v
          · simp [hu] at hv
          · simp [hu] at hv
            exact ⟨v, rfl, hv.symm, h1, h2⟩

/-- `Atoi` gives `n` without error exactly when the text writes the integer `n`
in decimal (an optional sign, then one or more digits) and `n` is in the range
of a 64-bit `int`. -/
theorem strconv.Atoi_eq_ok (s : Bytes) (n : Int) :
    strconv.Atoi s = (n, nil) ↔ decimalValue s = some n ∧ -(2 ^ 63) ≤ n ∧ n < 2 ^ 63 := by
  rw [← strconv.ParseInt_eq_ok]
  unfold strconv.Atoi
  rcases strconv.ParseInt s with ⟨i, _ | e⟩
  · simp
  · simp

/-- `Atoi` reports no error exactly when its value with the `nil` error is its
result. -/
theorem strconv.Atoi_err_nil (s : Bytes) :
    (strconv.Atoi s).2 = nil ↔ strconv.Atoi s = ((strconv.Atoi s).1, nil) := by
  constructor
  · intro h
    exact Prod.ext rfl h
  · intro h
    exact congrArg Prod.snd h

/-! ## `PopulateGithub`: the numeric ids -/

/-- The conversion `uint` keeps an `int` that is not negative. -/
theorem uint_of_nonneg (n : Int) (h0 : 0 ≤ n) (h1 : n < 2 ^ 63) : ((uint n : Nat) : Int) = n := by
  unfold uint intSize
  have h2 : n % (2 : Int) ^ 64 = n := Int.emod_eq_of_lt h0 (by omega)
  rw [h2]
  exact Int.toNat_of_nonneg h0

/-- Once the app id step of the remote `PopulateGithub` is passed, the private
key is requested and `AppID` keeps the value written, whatever the later steps
do. -/
theorem PVCSecretsFetcher.PopulateGithub_appid_pass (psf : PVCSecretsFetcher)
    (gh : GithubConfig) (v1 v2 v3 : Bytes) (n3 : Int)
    (h1 : psf.sc.get githubHookSecretid = .ok v1) (h2 : psf.sc.get githubTokenid = .ok v2)
    (h3 : psf.sc.get githubAppID = .ok v3) (h3a : strconv.Atoi v3 = (n3, nil))
    (h3b : ¬ n3 < 1) :
    githubAppPK ∈ (psf.PopulateGithub.run gh).reqs ∧
      (psf.PopulateGithub.run gh).obj.AppID = uint n3 := by
  rcases h4 : psf.sc.get githubAppPK with e | v4
  · simp only [PVCSecretsFetcher.PopulateGithub, ↓SecretsClient.Get_bind, ↓Populate.pure_bind, string,
      resultPair_ok, resultPair_error, ne_eq, not_false_eq_true, not_true_eq_false,
      reduceCtorEq, ↓reduceIte, *]
    simp [errors.Wrap, fmt.Errorf]
  rcases h5 : psf.sc.get githubAppHookSecret with e | v5
  · simp only [PVCSecretsFetcher.PopulateGithub, ↓SecretsClient.Get_bind, ↓Populate.pure_bind, string,
      resultPair_ok, resultPair_error, ne_eq, not_false_eq_true, not_true_eq_false,
      reduceCtorEq, ↓reduceIte, *]
    simp [errors.Wrap, fmt.Errorf]
  rcases h6 : psf.sc.get githubOAuthInstID with e | v6
  · simp only [PVCSecretsFetcher.PopulateGithub, ↓SecretsClient.Get_bind, ↓Populate.pure_bind, string,
      resultPair_ok, resultPair_error, ne_eq, not_false_eq_true, not_true_eq_false,
      reduceCtorEq, ↓reduceIte, *]
    simp [errors.Wrap, fmt.Errorf]
  rcases h6a : strconv.Atoi v6 with ⟨n6, _ | e⟩
  swap
  · simp only [PVCSecretsFetcher.PopulateGithub, ↓SecretsClient.Get_bind, ↓Populate.pure_bind, string,
      resultPair_ok, resultPair_error, ne_eq, not_false_eq_true, not_true_eq_false,
      reduceCtorEq, ↓reduceIte, *]
    simp [errors.Wrap, fmt.Errorf]
  by_cases h6b : n6 < 1
  · simp only [PVCSecretsFetcher.PopulateGithub, ↓SecretsClient.Get_bind, ↓Populate.pure_bind, string,
      resultPair_ok, resultPair_error, ne_eq, not_false_eq_true, not_true_eq_false,
      reduceCtorEq, ↓reduceIte, *]
    simp [errors.Wrap, fmt.Errorf]
  rcases h7 : psf.sc.get githubOAuthClientID with e | v7
  · simp only [PVCSecretsFetcher.PopulateGithub, ↓SecretsClient.Get_bind, ↓Populate.pure_bind, string,
      resultPair_ok, resultPair_error, ne_eq, not_false_eq_true, not_true_eq_false,
      reduceCtorEq, ↓reduceIte, *]
    simp [errors.Wrap, fmt.Errorf]
  rcases h8 : psf.sc.get githubOAuthClientSecret with e | v8
  · simp only [PVCSecretsFetcher.PopulateGithub, ↓SecretsClient.Get_bind, ↓Populate.pure_bind, string,
      resultPair_ok, resultPair_error, ne_eq, not_false_eq_true, not_true_eq_false,
      reduceCtorEq, ↓reduceIte, *]
    simp [errors.Wrap, fmt.Errorf]
  rcases h9 : psf.sc.get githubOAuthCookieAuthKey with e | v9
  · simp only [PVCSecretsFetcher.PopulateGithub, ↓SecretsClient.Get_bind, ↓Populate.pure_bind, string,
      resultPair_ok, resultPair_error, ne_eq, not_false_eq_true, not_true_eq_false,
      reduceCtorEq, ↓reduceIte, *]
    simp [errors.Wrap, fmt.Errorf]
  by_cases h9a : v9.length = 32
  swap
  · simp only [PVCSecretsFetcher.PopulateGithub, ↓SecretsClient.Get_bind, ↓Populate.pure_bind, string,
      resultPair_ok, resultPair_error, ne_eq, not_false_eq_true, not_true_eq_false,
      reduceCtorEq, ↓reduceIte, *]
    simp [errors.Wrap, fmt.Errorf]
  rcases h10 : psf.sc.get githubOAuthCookieEncKey with e | v10
  · simp only [PVCSecretsFetcher.PopulateGithub, ↓SecretsClient.Get_bind, ↓Populate.pure_bind, string,
      resultPair_ok, resultPair_error, ne_eq, not_false_eq_true, not_true_eq_false,
      reduceCtorEq, ↓reduceIte, *]
    simp [errors.Wrap, fmt.Errorf]
  by_cases h10a : v10.length = 32
  swap
  · simp only [PVCSecretsFetcher.PopulateGithub, ↓SecretsClient.Get_bind, ↓Populate.pure_bind, string,
      resultPair_ok, resultPair_error, ne_eq, not_false_eq_true, not_true_eq_false,
      reduceCtorEq, ↓reduceIte, *]
    simp [errors.Wrap, fmt.Errorf]
  rcases h11 : psf.sc.get githubOAuthUserTokenEncKey with e | v11
  · simp only [PVCSecretsFetcher.PopulateGithub, ↓SecretsClient.Get_bind, ↓Populate.pure_bind, string,
      resultPair_ok, resultPair_error, ne_eq, not_false_eq_true, not_true_eq_false,
      reduceCtorEq, ↓reduceIte, *]
    simp [errors.Wrap, fmt.Errorf]
  by_cases h11a : v11.length = 32
  swap
  · simp only [PVCSecretsFetcher.PopulateGithub, ↓SecretsClient.Get_bind, ↓Populate.pure_bind, string,
      resultPair_ok, resultPair_error, ne_eq, not_false_eq_true, not_true_eq_false,
      reduceCtorEq, ↓reduceIte, *]
    simp [errors.Wrap, fmt.Errorf]
  simp only [PVCSecretsFetcher.PopulateGithub, ↓SecretsClient.Get_bind, ↓Populate.pure_bind, string,
    resultPair_ok, resultPair_error, ne_eq, not_false_eq_true, not_true_eq_false,
    reduceCtorEq, ↓reduceIte, *]
  simp [errors.Wrap, fmt.Errorf]

/-- When the app id is not valid, the remote `PopulateGithub` fails at that step:
it has written the hook secret and the token only. -/
theorem PVCSecretsFetcher.PopulateGithub_appid_fail (psf : PVCSecretsFetcher)
    (gh : GithubConfig) (v1 v2 v3 : Bytes)
    (h1 : psf.sc.get githubHookSecretid = .ok v1) (h2 : psf.sc.get githubTokenid = .ok v2)
    (h3 : psf.sc.get githubAppID = .ok v3)
    (hbad : (strconv.Atoi v3).2 ≠ nil ∨ (strconv.Atoi v3).1 < 1) :
    (psf.PopulateGithub.run gh).ret ≠ nil ∧
      (psf.PopulateGithub.run gh).reqs = [githubHookSecretid, githubTokenid, githubAppID] ∧
      (psf.PopulateGithub.run gh).obj = { gh with HookSecret := v1, Token := v2 } := by
  rcases h3a : strconv.Atoi v3 with ⟨n3, _ | e⟩
  swap
  · simp only [PVCSecretsFetcher.PopulateGithub, ↓SecretsClient.Get_bind, ↓Populate.pure_bind, string,
      resultPair_ok, resultPair_error, ne_eq, not_false_eq_true, not_true_eq_false,
      reduceCtorEq, ↓reduceIte, *]
    simp [errors.Wrap, fmt.Errorf]
  have h3b : n3 < 1 := by
    rcases hbad with h | h
    · simp [h3a] at h
    · simpa [h3a] using h
  simp only [PVCSecretsFetcher.PopulateGithub, ↓SecretsClient.Get_bind, ↓Populate.pure_bind, string,
    resultPair_ok, resultPair_error, ne_eq, not_false_eq_true, not_true_eq_false,
    reduceCtorEq, ↓reduceIte, *]
  simp [errors.Wrap, fmt.Errorf]

/-- Once the installation id step of the remote `PopulateGithub` is passed, the
client id is requested and `AppInstallationID` keeps the value written, whatever
the later steps do. -/
theorem PVCSecretsFetcher.PopulateGithub_instid_pass (psf : PVCSecretsFetcher)
    (gh : GithubConfig) (v1 v2 v3 v4 v5 v6 : Bytes) (n3 n6 : Int)
    (h1 : psf.sc.get githubHookSecretid = .ok v1) (h2 : psf.sc.get githubTokenid = .ok v2)
    (h3 : psf.sc.get githubAppID = .ok v3) (h3a : strconv.Atoi v3 = (n3, nil))
    (h3b : ¬ n3 < 1)
    (h4 : psf.sc.get githubAppPK = .ok v4) (h5 : psf.sc.get githubAppHookSecret = .ok v5)
    (h6 : psf.sc.get githubOAuthInstID = .ok v6) (h6a : strconv.Atoi v6 = (n6, nil))
    (h6b : ¬ n6 < 1) :
    githubOAuthClientID ∈ (psf.PopulateGithub.run gh).reqs ∧
      (psf.PopulateGithub.run gh).obj.OAuth.AppInstallationID = uint n6 := by
  rcases h7 : psf.sc.get githubOAuthClientID with e | v7
  · simp only [PVCSecretsFetcher.PopulateGithub, ↓SecretsClient.Get_bind, ↓Populate.pure_bind, string,
      resultPair_ok, resultPair_error, ne_eq, not_false_eq_true, not_true_eq_false,
      reduceCtorEq, ↓reduceIte, *]
    simp [errors.Wrap, fmt.Errorf]
  rcases h8 : psf.sc.get githubOAuthClientSecret with e | v8
  · simp only [PVCSecretsFetcher.PopulateGithub, ↓SecretsClient.Get_bind, ↓Populate.pure_bind, string,
      resultPair_ok, resultPair_error, ne_eq, not_false_eq_true, not_true_eq_false,
      reduceCtorEq, ↓reduceIte, *]
    simp [errors.Wrap, fmt.Errorf]
  rcases h9 : psf.sc.get githubOAuthCookieAuthKey with e | v9
  · simp only [PVCSecretsFetcher.PopulateGithub, ↓SecretsClient.Get_bind, ↓Populate.pure_bind, string,
      resultPair_ok, resultPair_error, ne_eq, not_false_eq_true, not_true_eq_false,
      reduceCtorEq, ↓reduceIte, *]
    simp [errors.Wrap, fmt.Errorf]
  by_cases h9a : v9.length = 32
  swap
  · simp only [PVCSecretsFetcher.PopulateGithub, ↓SecretsClient.Get_bind, ↓Populate.pure_bind, string,
      resultPair_ok, resultPair_error, ne_eq, not_false_eq_true, not_true_eq_false,
      reduceCtorEq, ↓reduceIte, *]
    simp [errors.Wrap, fmt.Errorf]
  rcases h10 : psf.sc.get githubOAuthCookieEncKey with e | v10
  · simp only [PVCSecretsFetcher.PopulateGithub, ↓SecretsClient.Get_bind, ↓Populate.pure_bind, string,
      resultPair_ok, resultPair_error, ne_eq, not_false_eq_true, not_true_eq_false,
      reduceCtorEq, ↓reduceIte, *]
    simp [errors.Wrap, fmt.Errorf]
  by_cases h10a : v10.length = 32
  swap
  · simp only [PVCSecretsFetcher.PopulateGithub, ↓SecretsClient.Get_bind, ↓Populate.pure_bind, string,
      resultPair_ok, resultPair_error, ne_eq, not_false_eq_true, not_true_eq_false,
      reduceCtorEq, ↓reduceIte, *]
    simp [errors.Wrap, fmt.Errorf]
  rcases h11 : psf.sc.get githubOAuthUserTokenEncKey with e | v11
  · simp only [PVCSecretsFetcher.PopulateGithub, ↓SecretsClient.Get_bind, ↓Populate.pure_bind, string,
      resultPair_ok, resultPair_error, ne_eq, not_false_eq_true, not_true_eq_false,
      reduceCtorEq, ↓reduceIte, *]
    simp [errors.Wrap, fmt.Errorf]
  by_cases h11a : v11.length = 32
  swap
  · simp only [PVCSecretsFetcher.PopulateGithub, ↓SecretsClient.Get_bind, ↓Populate.pure_bind, string,
      resultPair_ok, resultPair_error, ne_eq, not_false_eq_true, not_true_eq_false,
      reduceCtorEq, ↓reduceIte, *]
    simp [errors.Wrap, fmt.Errorf]
  simp only [PVCSecretsFetcher.PopulateGithub, ↓SecretsClient.Get_bind, ↓Populate.pure_bind, string,
    resultPair_ok, resultPair_error, ne_eq, not_false_eq_true, not_true_eq_false,
    reduceCtorEq, ↓reduceIte, *]
  simp [errors.Wrap, fmt.Errorf]

/-- When the installation id is not valid, the remote `PopulateGithub` fails at
that step, before the client id is requested and with the OAuth fields as they
were. -/
theorem PVCSecretsFetcher.PopulateGithub_instid_fail (psf : PVCSecretsFetcher)
    (gh : GithubConfig) (v1 v2 v3 v4 v5 v6 : Bytes) (n3 : Int)
    (h1 : psf.sc.get githubHookSecretid = .ok v1) (h2 : psf.sc.get githubTokenid = .ok v2)
    (h3 : psf.sc.get githubAppID = .ok v3) (h3a : strconv.Atoi v3 = (n3, nil))
    (h3b : ¬ n3 < 1)
    (h4 : psf.sc.get githubAppPK = .ok v4) (h5 : psf.sc.get githubAppHookSecret = .ok v5)
    (h6 : psf.sc.get githubOAuthInstID = .ok v6)
    (hbad : (strconv.Atoi v6).2 ≠ nil ∨ (strconv.Atoi v6).1 < 1) :
    (psf.PopulateGithub.run gh).ret ≠ nil ∧
      (psf.PopulateGithub.run gh).reqs = [githubHookSecretid, githubTokenid, githubAppID,
        githubAppPK, githubAppHookSecret, githubOAuthInstID] ∧
      (psf.PopulateGithub.run gh).obj.OAuth = gh.OAuth := by
  rcases h6a : strconv.Atoi v6 with ⟨n6, _ | e⟩
  swap
  · simp only [PVCSecretsFetcher.PopulateGithub, ↓SecretsClient.Get_bind, ↓Populate.pure_bind, string,
      resultPair_ok, resultPair_error, ne_eq, not_false_eq_true, not_true_eq_false,
      reduceCtorEq, ↓reduceIte, *]
    simp [errors.Wrap, fmt.Errorf]
  have h6b : n6 < 1 := by
    rcases hbad with h | h
    · simp [h6a] at h
    · simpa [h6a] using h
  simp only [PVCSecretsFetcher.PopulateGithub, ↓SecretsClient.Get_bind, ↓Populate.pure_bind, string,
    resultPair_ok, resultPair_error, ne_eq, not_false_eq_true, not_true_eq_false,
    reduceCtorEq, ↓reduceIte, *]
  simp [errors.Wrap, fmt.Errorf]

/-- A text that does not write an integer from 1 to `2^63 - 1` in decimal is
refused by the validation of an id. -/
theorem strconv.Atoi_invalid (s : Bytes)
    (h : ∀ n, decimalValue s = some n → n < 1 ∨ 2 ^ 63 ≤ n) :
    (strconv.Atoi s).2 ≠ nil ∨ (strconv.Atoi s).1 < 1 := by
  by_cases he : (strconv.Atoi s).2 = nil
  · right
    have h1 := (strconv.Atoi_eq_ok s (strconv.Atoi s).1).1 ((strconv.Atoi_err_nil s).1 he)
    rcases h _ h1.1 with h2 | h2
    · exact h2
    · omega
  · left
    exact he

/-- C3: in the remote `PopulateGithub`, when the retrievals before it succeed,
the app id step is passed (the next secret, the private key, is requested) with
`gh.AppID = n` exactly when `strconv.Atoi` parses the value as the integer `n`
and `n >= 1`; that holds for every text that writes an integer from 1 up to the
largest `int` in decimal. When the value is `0`, writes zero or a negative
integer, or is not numeric, `PopulateGithub` returns an error and `gh.AppID` is
as before. The
same holds for the installation id and `gh.OAuth.AppInstallationID`, the next
secret being the client id. -/
theorem PopulateGithub_numeric_ids (psf : PVCSecretsFetcher) (gh : GithubConfig)
    (v1 v2 : Bytes) (h1 : psf.sc.get githubHookSecretid = .ok v1)
    (h2 : psf.sc.get githubTokenid = .ok v2) :
    (∀ s, psf.sc.get githubAppID = .ok s →
      (∀ n : Int, (githubAppPK ∈ (psf.PopulateGithub.run gh).reqs ∧
          ((psf.PopulateGithub.run gh).obj.AppID : Int) = n) ↔
        (strconv.Atoi s = (n, nil) ∧ 1 ≤ n)) ∧
      (∀ n : Int, decimalValue s = some n → 1 ≤ n → n < 2 ^ 63 →
        githubAppPK ∈ (psf.PopulateGithub.run gh).reqs ∧
          ((psf.PopulateGithub.run gh).obj.AppID : Int) = n) ∧
      (s = ascii "0" ∨ (∃ n : Int, decimalValue s = some n ∧ n < 1) ∨ decimalValue s = none →
        (psf.PopulateGithub.run gh).ret ≠ nil ∧
          (psf.PopulateGithub.run gh).obj.AppID = gh.AppID)) ∧
    (∀ v3 n3 v4 v5 s, psf.sc.get githubAppID = .ok v3 → strconv.Atoi v3 = (n3, nil) → 1 ≤ n3 →
      psf.sc.get githubAppPK = .ok v4 → psf.sc.get githubAppHookSecret = .ok v5 →
      psf.sc.get githubOAuthInstID = .ok s →
      (∀ n : Int, (githubOAuthClientID ∈ (psf.PopulateGithub.run gh).reqs ∧
          ((psf.PopulateGithub.run gh).obj.OAuth.AppInstallationID : Int) = n) ↔
        (strconv.Atoi s = (n, nil) ∧ 1 ≤ n)) ∧
      (∀ n : Int, decimalValue s = some n → 1 ≤ n → n < 2 ^ 63 →
        githubOAuthClientID ∈ (psf.PopulateGithub.run gh).reqs ∧
          ((psf.PopulateGithub.run gh).obj.OAuth.AppInstallationID : Int) = n) ∧
      (s = ascii "0" ∨ (∃ n : Int, decimalValue s = some n ∧ n < 1) ∨ decimalValue s = none →
        (psf.PopulateGithub.run gh).ret ≠ nil ∧
          (psf.PopulateGithub.run gh).obj.OAuth.AppInstallationID
            = gh.OAuth.AppInstallationID)) := by
  have classes : ∀ s : Bytes,
      (s = ascii "0" ∨ (∃ n : Int, decimalValue s = some n ∧ n < 1) ∨ decimalValue s = none) →
      (strconv.Atoi s).2 ≠ nil ∨ (strconv.Atoi s).1 < 1 := by
    intro s hs
    apply strconv.Atoi_invalid
    intro n hn
    rcases hs with hs | ⟨m, hm, hneg⟩ | hs
    · subst hs
      have : decimalValue (ascii "0") = some 0 := by decide
      rw [this] at hn
      cases hn
      left
      decide
    · rw [hm] at hn
      cases hn
      left
      omega
    · rw [hs] at hn
      cases hn
  constructor
  · intro s h3
    have pass : ∀ n : Int, strconv.Atoi s = (n, nil) → 1 ≤ n →
        githubAppPK ∈ (psf.PopulateGithub.run gh).reqs ∧
          ((psf.PopulateGithub.run gh).obj.AppID : Int) = n := by
      intro n ha hn
      have hp := PVCSecretsFetcher.PopulateGithub_appid_pass psf gh v1 v2 s n h1 h2 h3 ha
        (by omega)
      have hr := ((strconv.Atoi_eq_ok s n).1 ha).2.2
      exact ⟨hp.1, by rw [hp.2]; exact uint_of_nonneg n (by omega) hr⟩
    refine ⟨?_, ?_, ?_⟩
    · intro n
      constructor
      · rintro ⟨hreq, hval⟩
        by_cases hbad : (strconv.Atoi s).2 ≠ nil ∨ (strconv.Atoi s).1 < 1
        · have hf := PVCSecretsFetcher.PopulateGithub_appid_fail psf gh v1 v2 s h1 h2 h3 hbad
          rw [hf.2.1] at hreq
          exact absurd hreq (by decide)
        · have hok : (strconv.Atoi s).2 = nil := by
            by_contra hne
            exact hbad (Or.inl hne)
          have hge : 1 ≤ (strconv.Atoi s).1 := by
            by_contra hlt
            exact hbad (Or.inr (by omega))
          have ha := (strconv.Atoi_err_nil s).1 hok
          have hp := pass _ ha hge
          have : n = (strconv.Atoi s).1 := by rw [← hval, hp.2]
          subst this
          exact ⟨ha, hge⟩
      · rintro ⟨ha, hn⟩
        exact pass n ha hn
    · intro n hd hn hlt
      exact pass n ((strconv.Atoi_eq_ok s n).2 ⟨hd, by omega, hlt⟩) hn
    · intro hs
      have hf := PVCSecretsFetcher.PopulateGithub_appid_fail psf gh v1 v2 s h1 h2 h3 (classes s hs)
      exact ⟨hf.1, by rw [hf.2.2]⟩
  · intro v3 n3 v4 v5 s h3 h3a h3b h4 h5 h6
    have pass : ∀ n : Int, strconv.Atoi s = (n, nil) → 1 ≤ n →
        githubOAuthClientID ∈ (psf.PopulateGithub.run gh).reqs ∧
          ((psf.PopulateGithub.run gh).obj.OAuth.AppInstallationID : Int) = n := by
      intro n ha hn
      have hp := PVCSecretsFetcher.PopulateGithub_instid_pass psf gh v1 v2 v3 v4 v5 s n3 n
        h1 h2 h3 h3a (by omega) h4 h5 h6 ha (by omega)
      have hr := ((strconv.Atoi_eq_ok s n).1 ha).2.2
      exact ⟨hp.1, by rw [hp.2]; exact uint_of_nonneg n (by omega) hr⟩
    refine ⟨?_, ?_, ?_⟩
    · intro n
      constructor
      · rintro ⟨hreq, hval⟩
        by_cases hbad : (strconv.Atoi s).2 ≠ nil ∨ (strconv.Atoi s).1 < 1
        · have hf := PVCSecretsFetcher.PopulateGithub_instid_fail psf gh v1 v2 v3 v4 v5 s n3
            h1 h2 h3 h3a (by omega) h4 h5 h6 hbad
          rw [hf.2.1] at hreq
          exact absurd hreq (by decide)
        · have hok : (strconv.Atoi s).2 = nil := by
            by_contra hne
            exact hbad (Or.inl hne)
          have hge : 1 ≤ (strconv.Atoi s).1 := by
            by_contra hlt
            exact hbad (Or.inr (by omega))
          have ha := (strconv.Atoi_err_nil s).1 hok
          have hp := pass _ ha hge
          have : n = (strconv.Atoi s).1 := by rw [← hval, hp.2]
          subst this
          exact ⟨ha, hge⟩
      · rintro ⟨ha, hn⟩
        exact pass n ha hn
    · intro n hd hn hlt
      exact pass n ((strconv.Atoi_eq_ok s n).2 ⟨hd, by omega, hlt⟩) hn
    · intro hs
      have hf := PVCSecretsFetcher.PopulateGithub_instid_fail psf gh v1 v2 v3 v4 v5 s n3
        h1 h2 h3 h3a (by omega) h4 h5 h6 (classes s hs)
      exact ⟨hf.1, by rw [hf.2.2]⟩

/-- Witness of C3: the backend with app id `42` and installation id `7` passes
both steps and stores 42 and 7; the backend with app id `0` fails. -/
theorem PopulateGithub_numeric_ids_witness :
    ((githubAppPK ∈ ((PVCSecretsFetcher.mk clientValid).PopulateGithub.run GithubConfig.zero).reqs ∧
        ((((PVCSecretsFetcher.mk clientValid).PopulateGithub.run GithubConfig.zero).obj.AppID : Nat)
          : Int) = 42) ∧
      (githubOAuthClientID ∈
          ((PVCSecretsFetcher.mk clientValid).PopulateGithub.run GithubConfig.zero).reqs ∧
        ((((PVCSecretsFetcher.mk clientValid).PopulateGithub.run
          GithubConfig.zero).obj.OAuth.AppInstallationID : Nat) : Int) = 7)) ∧
    (((PVCSecretsFetcher.mk clientAppIdZero).PopulateGithub.run GithubConfig.zero).ret ≠ nil ∧
      ((PVCSecretsFetcher.mk clientAppIdZero).PopulateGithub.run GithubConfig.zero).obj.AppID
        = GithubConfig.zero.AppID) :=
  ⟨⟨((PopulateGithub_numeric_ids ⟨clientValid⟩ GithubConfig.zero (ascii "x") (ascii "x")
        rfl rfl).1 (ascii "42") rfl).2.1 42 (by decide) (by decide) (by decide),
    ((PopulateGithub_numeric_ids ⟨clientValid⟩ GithubConfig.zero (ascii "x") (ascii "x")
        rfl rfl).2 (ascii "42") 42 (ascii "x") (ascii "x") (ascii "7")
        rfl (by decide) (by decide) rfl rfl rfl).2.1 7 (by decide) (by decide) (by decide)⟩,
   ((PopulateGithub_numeric_ids ⟨clientAppIdZero⟩ GithubConfig.zero (ascii "x") (ascii "x")
        rfl rfl).1 (ascii "0") rfl).2.2 (Or.inl rfl)⟩

/-! ## `PopulateGithub`: the app id scenario and the symmetric keys -/

/-- C4: for every initial `GithubConfig`, when the hook secret and the token
are retrieved and the backend answers `42` for the app id, `gh.AppID` is 42 when
`PopulateGithub` returns. When the answer for the app id fails validation
(`Atoi` reports an error or the integer is below 1, as for `0`),
`PopulateGithub` returns an error and `gh.AppID`, `gh.PrivateKeyPEM`,
`gh.AppHookSecret` and all fields of `gh.OAuth` keep the values they had before
the call, whatever the earlier retrievals gave. -/
theorem PopulateGithub_app_id_scenario (psf : PVCSecretsFetcher) (gh : GithubConfig) :
    (∀ v1 v2, psf.sc.get githubHookSecretid = .ok v1 → psf.sc.get githubTokenid = .ok v2 →
      psf.sc.get githubAppID = .ok (ascii "42") → (psf.PopulateGithub.run gh).obj.AppID = 42) ∧
    (∀ s, psf.sc.get githubAppID = .ok s →
      ((strconv.Atoi s).2 ≠ nil ∨ (strconv.Atoi s).1 < 1) →
      (psf.PopulateGithub.run gh).ret ≠ nil ∧
      (psf.PopulateGithub.run gh).obj.AppID = gh.AppID ∧
      (psf.PopulateGithub.run gh).obj.PrivateKeyPEM = gh.PrivateKeyPEM ∧
      (psf.PopulateGithub.run gh).obj.AppHookSecret = gh.AppHookSecret ∧
      (psf.PopulateGithub.run gh).obj.OAuth = gh.OAuth) ∧
    (psf.sc.get githubAppID = .ok (ascii "0") →
      (psf.PopulateGithub.run gh).ret ≠ nil ∧
      (psf.PopulateGithub.run gh).obj.AppID = gh.AppID ∧
      (psf.PopulateGithub.run gh).obj.PrivateKeyPEM = gh.PrivateKeyPEM ∧
      (psf.PopulateGithub.run gh).obj.AppHookSecret = gh.AppHookSecret ∧
      (psf.PopulateGithub.run gh).obj.OAuth = gh.OAuth) := by
  have invalid : ∀ s, psf.sc.get githubAppID = .ok s →
      ((strconv.Atoi s).2 ≠ nil ∨ (strconv.Atoi s).1 < 1) →
      (psf.PopulateGithub.run gh).ret ≠ nil ∧
      (psf.PopulateGithub.run gh).obj.AppID = gh.AppID ∧
      (psf.PopulateGithub.run gh).obj.PrivateKeyPEM = gh.PrivateKeyPEM ∧
      (psf.PopulateGithub.run gh).obj.AppHookSecret = gh.AppHookSecret ∧
      (psf.PopulateGithub.run gh).obj.OAuth = gh.OAuth := by
    intro s h3 hbad
    rcases h1 : psf.sc.get githubHookSecretid with e | v1
    · simp only [PVCSecretsFetcher.PopulateGithub, ↓SecretsClient.Get_bind, ↓Populate.pure_bind, string,
        resultPair_ok, resultPair_error, ne_eq, not_false_eq_true, not_true_eq_false,
        reduceCtorEq, ↓reduceIte, *]
      simp [errors.Wrap, fmt.Errorf]
    rcases h2 : psf.sc.get githubTokenid with e | v2
    · simp only [PVCSecretsFetcher.PopulateGithub, ↓SecretsClient.Get_bind, ↓Populate.pure_bind, string,
        resultPair_ok, resultPair_error, ne_eq, not_false_eq_true, not_true_eq_false,
        reduceCtorEq, ↓reduceIte, *]
      simp [errors.Wrap, fmt.Errorf]
    have hf := PVCSecretsFetcher.PopulateGithub_appid_fail psf gh v1 v2 s h1 h2 h3 hbad
    refine ⟨hf.1, ?_, ?_, ?_, ?_⟩ <;> rw [hf.2.2]
  refine ⟨?_, invalid, ?_⟩
  · intro v1 v2 h1 h2 h3
    have hp := PVCSecretsFetcher.PopulateGithub_appid_pass psf gh v1 v2 (ascii "42") 42 h1 h2 h3
      (by decide) (by decide)
    rw [hp.2]
    decide
  · intro h3
    exact invalid (ascii "0") h3 (Or.inr (by decide))

/-- Witness of C4: the backend with app id `42` sets `AppID` to 42; with app id
`0` the call fails and `AppID` stays 0. -/
theorem PopulateGithub_app_id_scenario_witness :
    ((PVCSecretsFetcher.mk clientValid).PopulateGithub.run GithubConfig.zero).obj.AppID = 42 ∧
    ((PVCSecretsFetcher.mk clientAppIdZero).PopulateGithub.run GithubConfig.zero).ret ≠ nil ∧
    ((PVCSecretsFetcher.mk clientAppIdZero).PopulateGithub.run GithubConfig.zero).obj.AppID = 0 :=
  ⟨(PopulateGithub_app_id_scenario ⟨clientValid⟩ GithubConfig.zero).1 (ascii "x") (ascii "x")
      rfl rfl rfl,
   ((PopulateGithub_app_id_scenario ⟨clientAppIdZero⟩ GithubConfig.zero).2.2 rfl).1,
   ((PopulateGithub_app_id_scenario ⟨clientAppIdZero⟩ GithubConfig.zero).2.2 rfl).2.1⟩

/-- Copying a source as long as the destination gives the source. -/
theorem copy_of_length_eq (dst src : Bytes) (h : src.length = dst.length) : copy dst src = src := by
  unfold copy
  rw [← h, List.take_length, h, List.drop_length, List.append_nil]

/-- Copying thirty-two bytes into a `[32]byte` array gives these bytes. -/
theorem copy32_val (a : Byte32) (src : Bytes) (h : src.length = 32) : (copy32 a src).1 = src :=
  copy_of_length_eq a.1 src (by rw [h, a.2])

/-- C5: when all eleven retrievals of the remote `PopulateGithub` succeed, both
numeric ids are valid and the three key secrets are 32 bytes long,
`PopulateGithub` returns no error and each of the three key fields holds, byte
for byte, the value retrieved for its own secret. -/
theorem PopulateGithub_keys_copied (psf : PVCSecretsFetcher) (gh : GithubConfig)
    (v1 v2 v3 v4 v5 v6 v7 v8 v9 v10 v11 : Bytes) (n3 n6 : Int)
    (h1 : psf.sc.get githubHookSecretid = .ok v1) (h2 : psf.sc.get githubTokenid = .ok v2)
    (h3 : psf.sc.get githubAppID = .ok v3) (h3a : strconv.Atoi v3 = (n3, nil)) (h3b : 1 ≤ n3)
    (h4 : psf.sc.get githubAppPK = .ok v4) (h5 : psf.sc.get githubAppHookSecret = .ok v5)
    (h6 : psf.sc.get githubOAuthInstID = .ok v6) (h6a : strconv.Atoi v6 = (n6, nil))
    (h6b : 1 ≤ n6)
    (h7 : psf.sc.get githubOAuthClientID = .ok v7)
    (h8 : psf.sc.get githubOAuthClientSecret = .ok v8)
    (h9 : psf.sc.get githubOAuthCookieAuthKey = .ok v9) (h9a : v9.length = 32)
    (h10 : psf.sc.get githubOAuthCookieEncKey = .ok v10) (h10a : v10.length = 32)
    (h11 : psf.sc.get githubOAuthUserTokenEncKey = .ok v11) (h11a : v11.length = 32) :
    (psf.PopulateGithub.run gh).ret = nil ∧
    (psf.PopulateGithub.run gh).obj.OAuth.CookieAuthKey.1 = v9 ∧
    (psf.PopulateGithub.run gh).obj.OAuth.CookieEncKey.1 = v10 ∧
    (psf.PopulateGithub.run gh).obj.OAuth.UserTokenEncKey.1 = v11 := by
  have h3c : ¬ n3 < 1 := by omega
  have h6c : ¬ n6 < 1 := by omega
  simp only [PVCSecretsFetcher.PopulateGithub, ↓SecretsClient.Get_bind, ↓Populate.pure_bind, string,
    resultPair_ok, resultPair_error, ne_eq, not_false_eq_true, not_true_eq_false,
    reduceCtorEq, ↓reduceIte, *]
  simp [errors.Wrap, fmt.Errorf, copy32_val, h9a, h10a, h11a]

/-- Witness of C5: the backend with valid ids and three keys of thirty-two bytes
`k`. -/
theorem PopulateGithub_keys_copied_witness :
    ((PVCSecretsFetcher.mk clientValid).PopulateGithub.run GithubConfig.zero).ret = nil ∧
    ((PVCSecretsFetcher.mk clientValid).PopulateGithub.run GithubConfig.zero).obj.OAuth.CookieAuthKey.1
      = List.replicate 32 107 ∧
    ((PVCSecretsFetcher.mk clientValid).PopulateGithub.run GithubConfig.zero).obj.OAuth.CookieEncKey.1
      = List.replicate 32 107 ∧
    ((PVCSecretsFetcher.mk clientValid).PopulateGithub.run
      GithubConfig.zero).obj.OAuth.UserTokenEncKey.1 = List.replicate 32 107 :=
  PopulateGithub_keys_copied ⟨clientValid⟩ GithubConfig.zero (ascii "x") (ascii "x") (ascii "42")
    (ascii "x") (ascii "x") (ascii "7") (ascii "x") (ascii "x") (List.replicate 32 107)
    (List.replicate 32 107) (List.replicate 32 107) 42 7
    rfl rfl rfl (by decide) (by decide) rfl rfl rfl (by decide) (by decide) rfl rfl
    rfl (by decide) rfl (by decide) rfl (by decide)

/-- C6: in `PopulateGithub` of either adapter, when all earlier steps succeed
and the value retrieved for one of the three symmetric keys (cookie auth key,
cookie enc key, user token enc key) has a length other than 32, the call returns
the length error of that key, whose message ends with the size of the value, and
the 32-byte field of that key is as it was before the call. -/
theorem PopulateGithub_key_length_mismatch (gh : GithubConfig) :
    (∀ (psf : PVCSecretsFetcher) (v1 v2 v3 v4 v5 v6 v7 v8 : Bytes) (n3 n6 : Int),
      psf.sc.get githubHookSecretid = .ok v1 →
      psf.sc.get githubTokenid = .ok v2 →
      psf.sc.get githubAppID = .ok v3 → strconv.Atoi v3 = (n3, nil) → 1 ≤ n3 →
      psf.sc.get githubAppPK = .ok v4 →
      psf.sc.get githubAppHookSecret = .ok v5 →
      psf.sc.get githubOAuthInstID = .ok v6 → strconv.Atoi v6 = (n6, nil) → 1 ≤ n6 →
      psf.sc.get githubOAuthClientID = .ok v7 →
      psf.sc.get githubOAuthClientSecret = .ok v8 →
      (∀ s, psf.sc.get githubOAuthCookieAuthKey = .ok s → s.length ≠ 32 →
        (psf.PopulateGithub.run gh).ret = some (Error.errorf
          ("bad cookie auth key: length must be exactly 32 bytes, value size: "
            ++ toString s.length)) ∧
        (psf.PopulateGithub.run gh).obj.OAuth.CookieAuthKey = gh.OAuth.CookieAuthKey) ∧
      (∀ v9 s, psf.sc.get githubOAuthCookieAuthKey = .ok v9 → v9.length = 32 →
        psf.sc.get githubOAuthCookieEncKey = .ok s → s.length ≠ 32 →
        (psf.PopulateGithub.run gh).ret = some (Error.errorf
          ("bad cookie enc key: length must be exactly 32 bytes, value size: "
            ++ toString s.length)) ∧
        (psf.PopulateGithub.run gh).obj.OAuth.CookieEncKey = gh.OAuth.CookieEncKey) ∧
      (∀ v9 v10 s, psf.sc.get githubOAuthCookieAuthKey = .ok v9 → v9.length = 32 →
        psf.sc.get githubOAuthCookieEncKey = .ok v10 → v10.length = 32 →
        psf.sc.get githubOAuthUserTokenEncKey = .ok s → s.length ≠ 32 →
        (psf.PopulateGithub.run gh).ret = some (Error.errorf
          ("bad user token enc key: length must be exactly 32 bytes, value size: "
            ++ toString s.length)) ∧
        (psf.PopulateGithub.run gh).obj.OAuth.UserTokenEncKey = gh.OAuth.UserTokenEncKey)) ∧
    (∀ (iof : IOReaderSecretsFetcher) (v1 v2 v3 v4 v5 v6 v7 v8 : Bytes) (n3 n6 : Int),
      iof.r.readFile (vaultSecrets.index "rootPath" ++ vaultSecrets.index "githubHookSecretid") = .ok v1 →
      iof.r.readFile (vaultSecrets.index "rootPath" ++ vaultSecrets.index "githubTokenid") = .ok v2 →
      iof.r.readFile (vaultSecrets.index "rootPath" ++ vaultSecrets.index "githubAppId") = .ok v3 → strconv.Atoi v3 = (n3, nil) → 1 ≤ n3 →
      iof.r.readFile (vaultSecrets.index "rootPath" ++ vaultSecrets.index "githubAppPK") = .ok v4 →
      iof.r.readFile (vaultSecrets.index "rootPath" ++ vaultSecrets.index "githubAppHookSecret") = .ok v5 →
      iof.r.readFile (vaultSecrets.index "rootPath" ++ vaultSecrets.index "githubOAuthInstId") = .ok v6 → strconv.Atoi v6 = (n6, nil) → 1 ≤ n6 →
      iof.r.readFile (vaultSecrets.index "rootPath" ++ vaultSecrets.index "githubOAuthClientId") = .ok v7 →
      iof.r.readFile (vaultSecrets.index "rootPath" ++ vaultSecrets.index "githubOAuthClientSecret") = .ok v8 →
      (∀ s, iof.r.readFile (vaultSecrets.index "rootPath" ++ vaultSecrets.index "githubOAuthCookieAuthKey") = .ok s → s.length ≠ 32 →
        (iof.PopulateGithub.run gh).ret = some (Error.errorf
          ("bad cookie auth key: length must be exactly 32 bytes, value size: "
            ++ toString s.length)) ∧
        (iof.PopulateGithub.run gh).obj.OAuth.CookieAuthKey = gh.OAuth.CookieAuthKey) ∧
      (∀ v9 s, iof.r.readFile (vaultSecrets.index "rootPath" ++ vaultSecrets.index "githubOAuthCookieAuthKey") = .ok v9 → v9.length = 32 →
        iof.r.readFile (vaultSecrets.index "rootPath" ++ vaultSecrets.index "githubOAuthCookieEncKey") = .ok s → s.length ≠ 32 →
        (iof.PopulateGithub.run gh).ret = some (Error.errorf
          ("bad cookie enc key: length must be exactly 32 bytes, value size: "
            ++ toString s.length)) ∧
        (iof.PopulateGithub.run gh).obj.OAuth.CookieEncKey = gh.OAuth.CookieEncKey) ∧
      (∀ v9 v10 s, iof.r.readFile (vaultSecrets.index "rootPath" ++ vaultSecrets.index "githubOAuthCookieAuthKey") = .ok v9 → v9.length = 32 →
        iof.r.readFile (vaultSecrets.index "rootPath" ++ vaultSecrets.index "githubOAuthCookieEncKey") = .ok v10 → v10.length = 32 →
        iof.r.readFile (vaultSecrets.index "rootPath" ++ vaultSecrets.index "githubOAuthUserTokenEncKey") = .ok s → s.length ≠ 32 →
        (iof.PopulateGithub.run gh).ret = some (Error.errorf
          ("bad user token enc key: length must be exactly 32 bytes, value size: "
            ++ toString s.length)) ∧
        (iof.PopulateGithub.run gh).obj.OAuth.UserTokenEncKey = gh.OAuth.UserTokenEncKey)) := by
  constructor
  · intro psf v1 v2 v3 v4 v5 v6 v7 v8 n3 n6 h1 h2 h3 h3a h3b h4 h5 h6 h6a h6b h7 h8
    have h3c : ¬ n3 < 1 := by omega
    have h6c : ¬ n6 < 1 := by omega
    refine ⟨?_, ?_, ?_⟩
    · intro s h9 h9a
      simp only [PVCSecretsFetcher.PopulateGithub, ↓SecretsClient.Get_bind, ↓Populate.pure_bind, string,
        resultPair_ok, resultPair_error, ne_eq, not_false_eq_true, not_true_eq_false,
        reduceCtorEq, ↓reduceIte, *]
      simp [errors.Wrap, fmt.Errorf]
    · intro v9 s h9 h9a h10 h10a
      simp only [PVCSecretsFetcher.PopulateGithub, ↓SecretsClient.Get_bind, ↓Populate.pure_bind, string,
        resultPair_ok, resultPair_error, ne_eq, not_false_eq_true, not_true_eq_false,
        reduceCtorEq, ↓reduceIte, *]
      simp [errors.Wrap, fmt.Errorf]
    · intro v9 v10 s h9 h9a h10 h10a h11 h11a
      simp only [PVCSecretsFetcher.PopulateGithub, ↓SecretsClient.Get_bind, ↓Populate.pure_bind, string,
        resultPair_ok, resultPair_error, ne_eq, not_false_eq_true, not_true_eq_false,
        reduceCtorEq, ↓reduceIte, *]
      simp [errors.Wrap, fmt.Errorf]
  · intro iof v1 v2 v3 v4 v5 v6 v7 v8 n3 n6 h1 h2 h3 h3a h3b h4 h5 h6 h6a h6b h7 h8
    have h3c : ¬ n3 < 1 := by omega
    have h6c : ¬ n6 < 1 := by omega
    refine ⟨?_, ?_, ?_⟩
    · intro s h9 h9a
      simp only [IOReaderSecretsFetcher.PopulateGithub, ↓Reader.ReadFile_bind, ↓Populate.pure_bind, string,
        resultPair_ok, resultPair_error, ne_eq, not_false_eq_true, not_true_eq_false,
        reduceCtorEq, ↓reduceIte, *]
      simp [errors.Wrap, fmt.Errorf]
    · intro v9 s h9 h9a h10 h10a
      simp only [IOReaderSecretsFetcher.PopulateGithub, ↓Reader.ReadFile_bind, ↓Populate.pure_bind, string,
        resultPair_ok, resultPair_error, ne_eq, not_false_eq_true, not_true_eq_false,
        reduceCtorEq, ↓reduceIte, *]
      simp [errors.Wrap, fmt.Errorf]
    · intro v9 v10 s h9 h9a h10 h10a h11 h11a
      simp only [IOReaderSecretsFetcher.PopulateGithub, ↓Reader.ReadFile_bind, ↓Populate.pure_bind, string,
        resultPair_ok, resultPair_error, ne_eq, not_false_eq_true, not_true_eq_false,
        reduceCtorEq, ↓reduceIte, *]
      simp [errors.Wrap, fmt.Errorf]

/-- Witness of C6: a cookie authentication key of five bytes, for the remote
backend and for the file reader. -/
theorem PopulateGithub_key_length_mismatch_witness :
    (((PVCSecretsFetcher.mk clientShortKey).PopulateGithub.run GithubConfig.zero).ret =
        some (Error.errorf
          "bad cookie auth key: length must be exactly 32 bytes, value size: 5") ∧
      ((PVCSecretsFetcher.mk clientShortKey).PopulateGithub.run
        GithubConfig.zero).obj.OAuth.CookieAuthKey = zero32) ∧
    (((IOReaderSecretsFetcher.mk readerShortKey).PopulateGithub.run GithubConfig.zero).ret =
        some (Error.errorf
          "bad cookie auth key: length must be exactly 32 bytes, value size: 5") ∧
      ((IOReaderSecretsFetcher.mk readerShortKey).PopulateGithub.run
        GithubConfig.zero).obj.OAuth.CookieAuthKey = zero32) :=
  ⟨((PopulateGithub_key_length_mismatch GithubConfig.zero).1 ⟨clientShortKey⟩
      (ascii "x") (ascii "x") (ascii "42") (ascii "x") (ascii "x") (ascii "7") (ascii "x")
      (ascii "x") 42 7 rfl rfl rfl (by decide) (by decide) rfl rfl rfl (by decide) (by decide)
      rfl rfl).1 (ascii "short") rfl (by decide),
   ((PopulateGithub_key_length_mismatch GithubConfig.zero).2 ⟨readerShortKey⟩
      (ascii "7") (ascii "7") (ascii "7") (ascii "7") (ascii "7") (ascii "7") (ascii "7")
      (ascii "7") 7 7 rfl rfl rfl (by decide) (by decide) rfl rfl rfl (by decide) (by decide)
      rfl rfl).1 (ascii "short") rfl (by decide)⟩

/-! ## `PopulateServer` -/

/-- A split has at least one piece. -/
theorem strings.Split_ne_nil (s : Bytes) (sep : UInt8) : strings.Split s sep ≠ [] := by
  cases s with
  | nil => simp [strings.Split]
  | cons c cs =>
    unfold strings.Split
    split_ifs
    · simp
    · split <;> simp

/-- No piece of a split holds the separator. -/
theorem strings.Split_no_sep (s : Bytes) (sep : UInt8) :
    ∀ p ∈ strings.Split s sep, sep ∉ p := by
  induction s with
  | nil => simp [strings.Split]
  | cons c cs ih =>
    unfold strings.Split
    split_ifs with hc
    · intro p hp
      rcases List.mem_cons.1 hp with h | h
      · subst h; simp
      · exact ih p h
    · split
      · intro p hp
        simp only [List.mem_singleton] at hp
        subst hp
        simp [Ne.symm hc]
      · rename_i q qs hq
        intro p hp
        rcases List.mem_cons.1 hp with h | h
        · subst h
          have := ih q (by rw [hq]; exact List.mem_cons_self _ _)
          simp [Ne.symm hc, this]
        · exact ih p (by rw [hq]; exact List.mem_cons_of_mem _ h)

/-- A split has one piece more than the text has separators. -/
theorem strings.Split_length (s : Bytes) (sep : UInt8) :
    (strings.Split s sep).length = s.count sep + 1 := by
  induction s with
  | nil => simp [strings.Split]
  | cons c cs ih =>
    unfold strings.Split
    split_ifs with hc
    · subst hc
      simp [ih]
    · have hne := strings.Split_ne_nil cs sep
      split
      · rename_i hq
        exact absurd hq hne
      · rename_i q qs hq
        rw [hq] at ih
        simp only [List.length_cons] at ih ⊢
        rw [List.count_cons_of_ne (Ne.symm hc)]
        exact ih

/-- Joining the pieces of a split with the separator gives the text back. -/
theorem strings.Join_Split (s : Bytes) (sep : UInt8) :
    strings.Join (strings.Split s sep) sep = s := by
  induction s with
  | nil => simp [strings.Split, strings.Join]
  | cons c cs ih =>
    have hne := strings.Split_ne_nil cs sep
    unfold strings.Split
    split_ifs with hc
    · subst hc
      rcases hq : strings.Split cs c with _ | ⟨q, qs⟩
      · exact absurd hq hne
      · rw [hq] at ih
        simp [strings.Join, ih]
    · split
      · rename_i hq
        exact absurd hq hne
      · rename_i q qs hq
        rw [hq] at ih
        cases qs with
        | nil =>
          simp only [strings.Join] at ih ⊢
          rw [ih]
        | cons q2 qs2 =>
          simp only [strings.Join] at ih ⊢
          rw [← ih]
          simp

/-- The remote `PopulateServer` stores the split of the API keys value, whatever
the TLS step does. -/
theorem PVCSecretsFetcher.PopulateServer_APIKeys (psf : PVCSecretsFetcher) (tls : TLSPackage)
    (srv : ServerConfig) (s : Bytes) (h1 : psf.sc.get apiKeysid = .ok s) :
    ((psf.PopulateServer tls).run srv).obj.APIKeys = strings.Split s 44 := by
  rcases hD : srv.DisableTLS
  swap
  · simp only [PVCSecretsFetcher.PopulateServer, ↓SecretsClient.Get_bind, ↓Populate.pure_bind, string,
      resultPair_ok, resultPair_error, ne_eq, not_false_eq_true, not_true_eq_false,
      reduceCtorEq, ↓reduceIte, *]
    simp [errors.Wrap, hD]
  rcases h2 : psf.sc.get tlsCertid with e | c
  · simp only [PVCSecretsFetcher.PopulateServer, ↓SecretsClient.Get_bind, ↓Populate.pure_bind, string,
      resultPair_ok, resultPair_error, ne_eq, not_false_eq_true, not_true_eq_false,
      reduceCtorEq, ↓reduceIte, *]
    simp [errors.Wrap, hD]
  rcases h3 : psf.sc.get tlsKeyid with e | k
  · simp only [PVCSecretsFetcher.PopulateServer, ↓SecretsClient.Get_bind, ↓Populate.pure_bind, string,
      resultPair_ok, resultPair_error, ne_eq, not_false_eq_true, not_true_eq_false,
      reduceCtorEq, ↓reduceIte, *]
    simp [errors.Wrap, hD]
  rcases hx : tls.X509KeyPair c k with ⟨cert, _ | e⟩
  · simp only [PVCSecretsFetcher.PopulateServer, ↓SecretsClient.Get_bind, ↓Populate.pure_bind, string,
      resultPair_ok, resultPair_error, ne_eq, not_false_eq_true, not_true_eq_false,
      reduceCtorEq, ↓reduceIte, *]
    simp [errors.Wrap, hD]
  · simp only [PVCSecretsFetcher.PopulateServer, ↓SecretsClient.Get_bind, ↓Populate.pure_bind, string,
      resultPair_ok, resultPair_error, ne_eq, not_false_eq_true, not_true_eq_false,
      reduceCtorEq, ↓reduceIte, *]
    simp [errors.Wrap, hD]

/-- C7: for every value `s` retrieved for the API keys, `srv.APIKeys` after the
remote `PopulateServer` is the split of `s` on the comma (byte 44): no element
holds a comma, there is one element more than `s` has commas, joining the
elements with a comma gives `s` back (so nothing is trimmed and empty elements
are kept); `a,b,c` gives `a`, `b`, `c` and `a,,b` gives `a`, the empty text, `b`. -/
theorem PopulateServer_api_keys_split (psf : PVCSecretsFetcher) (tls : TLSPackage)
    (srv : ServerConfig) (s : Bytes) (h : psf.sc.get apiKeysid = .ok s) :
    ((psf.PopulateServer tls).run srv).obj.APIKeys = strings.Split (string s) 44 ∧
    (∀ p ∈ ((psf.PopulateServer tls).run srv).obj.APIKeys, (44 : UInt8) ∉ p) ∧
    (((psf.PopulateServer tls).run srv).obj.APIKeys).length = s.count 44 + 1 ∧
    strings.Join ((psf.PopulateServer tls).run srv).obj.APIKeys 44 = s ∧
    (s = ascii "a,b,c" →
      ((psf.PopulateServer tls).run srv).obj.APIKeys = [ascii "a", ascii "b", ascii "c"]) ∧
    (s = ascii "a,,b" →
      ((psf.PopulateServer tls).run srv).obj.APIKeys = [ascii "a", ascii "", ascii "b"]) := by
  have hk := PVCSecretsFetcher.PopulateServer_APIKeys psf tls srv s h
  rw [hk]
  refine ⟨rfl, strings.Split_no_sep s 44, strings.Split_length s 44, strings.Join_Split s 44,
    ?_, ?_⟩
  · intro hs
    subst hs
    decide
  · intro hs
    subst hs
    decide

/-- Witness of C7: the backend whose API keys are `a,,b`. -/
theorem PopulateServer_api_keys_split_witness :
    (((PVCSecretsFetcher.mk clientNoTLS).PopulateServer sampleTLS).run Dest.zero.srv).obj.APIKeys
      = [ascii "a", ascii "", ascii "b"] :=
  (PopulateServer_api_keys_split ⟨clientNoTLS⟩ sampleTLS Dest.zero.srv (ascii "a,,b") rfl).2.2.2.2.2
    rfl

/-- C8: for either adapter and every `ServerConfig` with `DisableTLS = true`,
`PopulateServer` requests the API keys secret only, leaves `srv.TLSCert` as it
was, and succeeds iff the API keys retrieval succeeds, whatever the backend
holds for the two TLS secrets. -/
theorem PopulateServer_tls_disabled (tls : TLSPackage) (srv : ServerConfig)
    (hD : srv.DisableTLS = true) :
    (∀ psf : PVCSecretsFetcher,
      ((psf.PopulateServer tls).run srv).reqs = [apiKeysid] ∧
      tlsCertid ∉ ((psf.PopulateServer tls).run srv).reqs ∧
      tlsKeyid ∉ ((psf.PopulateServer tls).run srv).reqs ∧
      ((psf.PopulateServer tls).run srv).obj.TLSCert = srv.TLSCert ∧
      (((psf.PopulateServer tls).run srv).ret = nil ↔ ∃ v, psf.sc.get apiKeysid = .ok v)) ∧
    (∀ iof : IOReaderSecretsFetcher,
      ((iof.PopulateServer tls).run srv).reqs = ["/vault/secrets/apiKeysid"] ∧
      (vaultSecrets.index "rootPath" ++ vaultSecrets.index "tlsCertid")
        ∉ ((iof.PopulateServer tls).run srv).reqs ∧
      (vaultSecrets.index "rootPath" ++ vaultSecrets.index "tlsKeyid")
        ∉ ((iof.PopulateServer tls).run srv).reqs ∧
      ((iof.PopulateServer tls).run srv).obj.TLSCert = srv.TLSCert ∧
      (((iof.PopulateServer tls).run srv).ret = nil ↔
        ∃ v, iof.r.readFile "/vault/secrets/apiKeysid" = .ok v)) := by
  constructor
  · intro psf
    have hreq : ((psf.PopulateServer tls).run srv).reqs = [apiKeysid] ∧
        ((psf.PopulateServer tls).run srv).obj.TLSCert = srv.TLSCert ∧
        (((psf.PopulateServer tls).run srv).ret = nil ↔ ∃ v, psf.sc.get apiKeysid = .ok v) := by
      rcases h1 : psf.sc.get apiKeysid with e | v
      · simp only [PVCSecretsFetcher.PopulateServer, ↓SecretsClient.Get_bind, ↓Populate.pure_bind, string,
          resultPair_ok, resultPair_error, ne_eq, not_false_eq_true, not_true_eq_false,
          reduceCtorEq, ↓reduceIte, *]
        simp [errors.Wrap, hD]
      simp only [PVCSecretsFetcher.PopulateServer, ↓SecretsClient.Get_bind, ↓Populate.pure_bind, string,
        resultPair_ok, resultPair_error, ne_eq, not_false_eq_true, not_true_eq_false,
        reduceCtorEq, ↓reduceIte, *]
      simp [errors.Wrap, hD]
    refine ⟨hreq.1, ?_, ?_, hreq.2.1, hreq.2.2⟩
    · rw [hreq.1]; decide
    · rw [hreq.1]; decide
  · intro iof
    have hreq : ((iof.PopulateServer tls).run srv).reqs
          = [vaultSecrets.index "rootPath" ++ vaultSecrets.index "apiKeysid"] ∧
        ((iof.PopulateServer tls).run srv).obj.TLSCert = srv.TLSCert ∧
        (((iof.PopulateServer tls).run srv).ret = nil ↔
          ∃ v, iof.r.readFile (vaultSecrets.index "rootPath" ++ vaultSecrets.index "apiKeysid")
            = .ok v) := by
      rcases h1 : iof.r.readFile (vaultSecrets.index "rootPath" ++ vaultSecrets.index "apiKeysid")
        with e | v
      · simp only [IOReaderSecretsFetcher.PopulateServer, ↓Reader.ReadFile_bind, ↓Populate.pure_bind, string,
          resultPair_ok, resultPair_error, ne_eq, not_false_eq_true, not_true_eq_false,
          reduceCtorEq, ↓reduceIte, *]
        simp [errors.Wrap, hD]
      simp only [IOReaderSecretsFetcher.PopulateServer, ↓Reader.ReadFile_bind, ↓Populate.pure_bind, string,
        resultPair_ok, resultPair_error, ne_eq, not_false_eq_true, not_true_eq_false,
        reduceCtorEq, ↓reduceIte, *]
      simp [errors.Wrap, hD]
    have hpath : vaultSecrets.index "rootPath" ++ vaultSecrets.index "apiKeysid"
        = "/vault/secrets/apiKeysid" := by decide
    rw [hpath] at hreq
    refine ⟨hreq.1, ?_, ?_, hreq.2.1, hreq.2.2⟩
    · rw [hreq.1]; decide
    · rw [hreq.1]; decide

/-- Witness of C8: with TLS disabled, a backend without the two TLS secrets
makes `PopulateServer` succeed, for the remote backend and for the file reader. -/
theorem PopulateServer_tls_disabled_witness :
    (((PVCSecretsFetcher.mk clientNoTLS).PopulateServer sampleTLS).run
        { Dest.zero.srv with DisableTLS := true }).ret = nil ∧
    (((IOReaderSecretsFetcher.mk readerNoTLS).PopulateServer sampleTLS).run
        { Dest.zero.srv with DisableTLS := true }).ret = nil :=
  ⟨((PopulateServer_tls_disabled sampleTLS { Dest.zero.srv with DisableTLS := true } rfl).1
      ⟨clientNoTLS⟩).2.2.2.2.2 ⟨ascii "a,,b", rfl⟩,
   ((PopulateServer_tls_disabled sampleTLS { Dest.zero.srv with DisableTLS := true } rfl).2
      ⟨readerNoTLS⟩).2.2.2.2.2 ⟨ascii "a,,b", rfl⟩⟩

/-- C9: for every `ServerConfig` with `DisableTLS = false` and every remote
backend whose API keys, TLS certificate and TLS key retrievals succeed: when
`tls.X509KeyPair` rejects the certificate and key with an error, `PopulateServer`
returns that error wrapped as `error parsing TLS cert/key` and `srv.TLSCert` is
as before the call; when it accepts them, `PopulateServer` succeeds and
`srv.TLSCert` is the pair it built. -/
theorem PopulateServer_tls_pair (psf : PVCSecretsFetcher) (tls : TLSPackage)
    (srv : ServerConfig) (s c k : Bytes) (hD : srv.DisableTLS = false)
    (h1 : psf.sc.get apiKeysid = .ok s) (h2 : psf.sc.get tlsCertid = .ok c)
    (h3 : psf.sc.get tlsKeyid = .ok k) :
    (∀ cert e, tls.X509KeyPair c k = (cert, some e) →
      ((psf.PopulateServer tls).run srv).ret = some (Error.wrap e "error parsing TLS cert/key") ∧
      ((psf.PopulateServer tls).run srv).obj.TLSCert = srv.TLSCert) ∧
    (∀ cert, tls.X509KeyPair c k = (cert, nil) →
      ((psf.PopulateServer tls).run srv).ret = nil ∧
      ((psf.PopulateServer tls).run srv).obj.TLSCert = cert) := by
  constructor
  · intro cert e hx
    simp only [PVCSecretsFetcher.PopulateServer, ↓SecretsClient.Get_bind, ↓Populate.pure_bind, string,
      resultPair_ok, resultPair_error, ne_eq, not_false_eq_true, not_true_eq_false,
      reduceCtorEq, ↓reduceIte, *]
    simp [errors.Wrap, hD]
  · intro cert hx
    simp only [PVCSecretsFetcher.PopulateServer, ↓SecretsClient.Get_bind, ↓Populate.pure_bind, string,
      resultPair_ok, resultPair_error, ne_eq, not_false_eq_true, not_true_eq_false,
      reduceCtorEq, ↓reduceIte, *]
    simp [errors.Wrap, hD]

/-- Witness of C9: a certificate and key that the sample constructor rejects,
and a pair that it accepts. -/
theorem PopulateServer_tls_pair_witness :
    ((((PVCSecretsFetcher.mk clientMismatch).PopulateServer sampleTLS).run Dest.zero.srv).ret =
        some (Error.wrap (Error.ext "tls: failed to find any PEM data")
          "error parsing TLS cert/key") ∧
      (((PVCSecretsFetcher.mk clientMismatch).PopulateServer sampleTLS).run
        Dest.zero.srv).obj.TLSCert = Dest.zero.srv.TLSCert) ∧
    ((((PVCSecretsFetcher.mk clientValid).PopulateServer sampleTLS).run Dest.zero.srv).ret = nil ∧
      (((PVCSecretsFetcher.mk clientValid).PopulateServer sampleTLS).run
        Dest.zero.srv).obj.TLSCert = { Certificate := [ascii "x"], PrivateKey := ascii "x" }) :=
  ⟨(PopulateServer_tls_pair ⟨clientMismatch⟩ sampleTLS Dest.zero.srv (ascii "x") (ascii "x")
      (ascii "y") rfl rfl rfl rfl).1 _ _ rfl,
   (PopulateServer_tls_pair ⟨clientValid⟩ sampleTLS Dest.zero.srv (ascii "x") (ascii "x")
      (ascii "x") rfl rfl rfl rfl).2 _ rfl⟩

/-! ## `newSecretFetcher` -/

/-- Counterexample to C10 as stated: with all three authentication modes
satisfied (more than one), `newSecretFetcher` returns no error, even with a
client constructor that refuses every option list without exactly one
authentication kind; it returns a fetcher, the same one as for the
configuration in which token authentication alone is satisfied. -/
theorem newSecretFetcher_several_modes_no_error :
    vaultAllModes.UseAgent = false ∧ vaultAllModes.TokenAuth = true ∧
    vaultAllModes.K8sAuth = true ∧
    (vaultAllModes.AppID ≠ "" ∧ vaultAllModes.UserIDPath ≠ "") ∧
    (newSecretFetcher pvcStrict ioutilJWT "vault" secretsConfigSample vaultAllModes).1.2 = nil ∧
    (newSecretFetcher pvcStrict ioutilJWT "vault" secretsConfigSample vaultAllModes).1.1
      = some (SecretFetcher.PVC (NewPVCSecretsFetcher clientValid)) ∧
    newSecretFetcher pvcStrict ioutilJWT "vault" secretsConfigSample vaultAllModes
      = newSecretFetcher pvcStrict ioutilJWT "vault" secretsConfigSample vaultTokenOnly := by
  refine ⟨rfl, rfl, rfl, by decide, rfl, rfl, rfl⟩

/-- C10, amended: for the `vault` backend with `UseAgent = false` and a mapping
that is not empty, `newSecretFetcher` takes the first satisfied authentication
mode in the order token, Kubernetes (its JWT file read without error), AppID
with user id path, and calls the client constructor with the options of that
mode alone, followed by the host, the mapping and the backend; the modes after
the first satisfied one are not looked at and raise no error. The call fails
only when the constructor fails, with the constructor's error wrapped;
otherwise it returns the fetcher over the constructed client. -/
theorem newSecretFetcher_vault_auth_priority (pvc : PVCPackage) (ioutil : IoutilPackage)
    (secretsConfig : SecretsConfig) (vaultConfig : VaultConfig)
    (hAgent : vaultConfig.UseAgent = false) (hMapping : secretsConfig.Mapping ≠ "") :
    (vaultConfig.TokenAuth = true →
      newSecretFetcher pvc ioutil "vault" secretsConfig vaultConfig =
        (match pvc.NewSecretsClient
            [some (SecretsClientOption.WithVaultAuthentication VaultAuthentication.Token),
             some (SecretsClientOption.WithVaultToken vaultConfig.Token),
             some (SecretsClientOption.WithVaultHost vaultConfig.Addr),
             some (SecretsClientOption.WithMapping secretsConfig.Mapping),
             some SecretsClientOption.WithVaultBackend] with
          | .error err => (none, some (Error.wrap err
              "secrets.getSecretsClient error creating new PVC Secrets Client"))
          | .ok sc => (some (SecretFetcher.PVC (NewPVCSecretsFetcher sc)), nil),
         { secretsConfig with Backend := some SecretsClientOption.WithVaultBackend })) ∧
    (vaultConfig.TokenAuth = false → vaultConfig.K8sAuth = true →
      ∀ jwt, ioutil.ReadFile vaultConfig.K8sJWTPath = (jwt, nil) →
      newSecretFetcher pvc ioutil "vault" secretsConfig vaultConfig =
        (match pvc.NewSecretsClient
            [some (SecretsClientOption.WithVaultAuthentication VaultAuthentication.K8s),
             some (SecretsClientOption.WithVaultK8sAuth jwt vaultConfig.K8sRole),
             some (SecretsClientOption.WithVaultK8sAuthPath vaultConfig.K8sAuthPath),
             some (SecretsClientOption.WithVaultHost vaultConfig.Addr),
             some (SecretsClientOption.WithMapping secretsConfig.Mapping),
             some SecretsClientOption.WithVaultBackend] with
          | .error err => (none, some (Error.wrap err
              "secrets.getSecretsClient error creating new PVC Secrets Client"))
          | .ok sc => (some (SecretFetcher.PVC (NewPVCSecretsFetcher sc)), nil),
         { secretsConfig with Backend := some SecretsClientOption.WithVaultBackend })) ∧
    (vaultConfig.TokenAuth = false → vaultConfig.K8sAuth = false →
      vaultConfig.AppID ≠ "" → vaultConfig.UserIDPath ≠ "" →
      newSecretFetcher pvc ioutil "vault" secretsConfig vaultConfig =
        (match pvc.NewSecretsClient
            [some (SecretsClientOption.WithVaultAuthentication VaultAuthentication.AppID),
             some (SecretsClientOption.WithVaultAppID vaultConfig.AppID),
             some (SecretsClientOption.WithVaultUserIDPath vaultConfig.UserIDPath),
             some (SecretsClientOption.WithVaultHost vaultConfig.Addr),
             some (SecretsClientOption.WithMapping secretsConfig.Mapping),
             some SecretsClientOption.WithVaultBackend] with
          | .error err => (none, some (Error.wrap err
              "secrets.getSecretsClient error creating new PVC Secrets Client"))
          | .ok sc => (some (SecretFetcher.PVC (NewPVCSecretsFetcher sc)), nil),
         { secretsConfig with Backend := some SecretsClientOption.WithVaultBackend })) := by
  refine ⟨?_, ?_, ?_⟩
  · intro hT
    simp only [newSecretFetcher, Id.run, hAgent, hT, hMapping]
    simp
    split <;> simp_all [errors.Wrap]
  · intro hT hK jwt hj
    simp only [newSecretFetcher, Id.run, hAgent, hT, hK, hj, hMapping]
    simp [string]
    split <;> simp_all [errors.Wrap]
  · intro hT hK hA hU
    have hAU : vaultConfig.AppID ≠ "" ∧ vaultConfig.UserIDPath ≠ "" := ⟨hA, hU⟩
    simp only [newSecretFetcher, Id.run, hAgent, hT, hK, hAU, hMapping]
    simp
    split <;> (try split) <;> simp_all [errors.Wrap]

/-- Witness of the amended C10: the three modes at sample configurations, with
the strict constructor; in the first two, later modes are satisfied as well. -/
theorem newSecretFetcher_vault_auth_priority_witness :
    (newSecretFetcher pvcStrict ioutilJWT "vault" secretsConfigSample vaultAllModes).1
      = (some (SecretFetcher.PVC (NewPVCSecretsFetcher clientValid)), nil) ∧
    (newSecretFetcher pvcStrict ioutilJWT "vault" secretsConfigSample vaultK8sAndAppID).1
      = (some (SecretFetcher.PVC (NewPVCSecretsFetcher clientValid)), nil) ∧
    (newSecretFetcher pvcStrict ioutilJWT "vault" secretsConfigSample vaultAppIDOnly).1
      = (some (SecretFetcher.PVC (NewPVCSecretsFetcher clientValid)), nil) :=
  ⟨congrArg Prod.fst ((newSecretFetcher_vault_auth_priority pvcStrict ioutilJWT
      secretsConfigSample vaultAllModes rfl (by decide)).1 rfl),
   congrArg Prod.fst ((newSecretFetcher_vault_auth_priority pvcStrict ioutilJWT
      secretsConfigSample vaultK8sAndAppID rfl (by decide)).2.1 rfl rfl (ascii "jwt") rfl),
   congrArg Prod.fst ((newSecretFetcher_vault_auth_priority pvcStrict ioutilJWT
      secretsConfigSample vaultAppIDOnly rfl (by decide)).2.2 rfl rfl (by decide) (by decide))⟩

/-! ## `newSecretFetcher`: the mapping and the backend name -/

/-- C11, what the code does: for the `env` backend, and for the `vault` backend
with token authentication, with `UseAgent = false` and an empty mapping,
`newSecretFetcher` does call the client constructor, with the option
`WithMapping("")` among its options, and its result is the constructor's: the
fetcher over the constructed client with a `nil` error, or the constructor's
error wrapped. The error `secrets mapping is required` is built and dropped; it
is never returned. -/
theorem newSecretFetcher_empty_mapping (pvc : PVCPackage) (ioutil : IoutilPackage)
    (secretsConfig : SecretsConfig) (vaultConfig : VaultConfig)
    (hAgent : vaultConfig.UseAgent = false) (hMapping : secretsConfig.Mapping = "") :
    newSecretFetcher pvc ioutil "env" secretsConfig vaultConfig =
      (match pvc.NewSecretsClient
          [some (SecretsClientOption.WithMapping ""),
           some SecretsClientOption.WithEnvVarBackend] with
        | .error err => (none, some (Error.wrap err
            "secrets.getSecretsClient error creating new PVC Secrets Client"))
        | .ok sc => (some (SecretFetcher.PVC (NewPVCSecretsFetcher sc)), nil),
       { secretsConfig with Backend := some SecretsClientOption.WithEnvVarBackend }) ∧
    (vaultConfig.TokenAuth = true →
      newSecretFetcher pvc ioutil "vault" secretsConfig vaultConfig =
        (match pvc.NewSecretsClient
            [some (SecretsClientOption.WithVaultAuthentication VaultAuthentication.Token),
             some (SecretsClientOption.WithVaultToken vaultConfig.Token),
             some (SecretsClientOption.WithVaultHost vaultConfig.Addr),
             some (SecretsClientOption.WithMapping ""),
             some SecretsClientOption.WithVaultBackend] with
          | .error err => (none, some (Error.wrap err
              "secrets.getSecretsClient error creating new PVC Secrets Client"))
          | .ok sc => (some (SecretFetcher.PVC (NewPVCSecretsFetcher sc)), nil),
         { secretsConfig with Backend := some SecretsClientOption.WithVaultBackend })) ∧
    (newSecretFetcher pvc ioutil "env" secretsConfig vaultConfig).1.2
      ≠ some (Error.errorf "secrets mapping is required") := by
  have henv : newSecretFetcher pvc ioutil "env" secretsConfig vaultConfig =
      (match pvc.NewSecretsClient
          [some (SecretsClientOption.WithMapping ""),
           some SecretsClientOption.WithEnvVarBackend] with
        | .error err => (none, some (Error.wrap err
            "secrets.getSecretsClient error creating new PVC Secrets Client"))
        | .ok sc => (some (SecretFetcher.PVC (NewPVCSecretsFetcher sc)), nil),
       { secretsConfig with Backend := some SecretsClientOption.WithEnvVarBackend }) := by
    simp only [newSecretFetcher, Id.run, hAgent, hMapping]
    simp
    split <;> simp_all [errors.Wrap]
  refine ⟨henv, ?_, ?_⟩
  · intro hT
    simp only [newSecretFetcher, Id.run, hAgent, hT, hMapping]
    simp
    split <;> simp_all [errors.Wrap]
  · rw [henv]
    rcases pvc.NewSecretsClient
      [some (SecretsClientOption.WithMapping ""), some SecretsClientOption.WithEnvVarBackend]
      with e | c <;> simp [nil]

/-- Witness of C11: the `env` backend with an empty mapping and a constructor
that accepts its options: a fetcher is returned and the error is `nil`. -/
theorem newSecretFetcher_empty_mapping_witness :
    (newSecretFetcher pvcLenient ioutilJWT "env" secretsConfigNoMapping vaultTokenOnly).1
      = (some (SecretFetcher.PVC (NewPVCSecretsFetcher clientValid)), nil) ∧
    (newSecretFetcher pvcLenient ioutilJWT "vault" secretsConfigNoMapping vaultTokenOnly).1
      = (some (SecretFetcher.PVC (NewPVCSecretsFetcher clientValid)), nil) :=
  ⟨congrArg Prod.fst (newSecretFetcher_empty_mapping pvcLenient ioutilJWT secretsConfigNoMapping
      vaultTokenOnly rfl rfl).1,
   congrArg Prod.fst ((newSecretFetcher_empty_mapping pvcLenient ioutilJWT secretsConfigNoMapping
      vaultTokenOnly rfl rfl).2.1 rfl)⟩

/-- C12, what the code does: for a backend name other than `vault` and `env`,
with `UseAgent = false`, `newSecretFetcher` does call the client constructor,
with the mapping and the backend option that `secretsConfig` already holds, and
its result is the constructor's: the fetcher over the constructed client with a
`nil` error, or the constructor's error wrapped. The error `invalid secrets
backend` is built and dropped; it is never returned. -/
theorem newSecretFetcher_unknown_backend (pvc : PVCPackage) (ioutil : IoutilPackage)
    (secretsBackend : String) (secretsConfig : SecretsConfig) (vaultConfig : VaultConfig)
    (hAgent : vaultConfig.UseAgent = false) (hVault : secretsBackend ≠ "vault")
    (hEnv : secretsBackend ≠ "env") :
    newSecretFetcher pvc ioutil secretsBackend secretsConfig vaultConfig =
      (match pvc.NewSecretsClient
          [some (SecretsClientOption.WithMapping secretsConfig.Mapping),
           secretsConfig.Backend] with
        | .error err => (none, some (Error.wrap err
            "secrets.getSecretsClient error creating new PVC Secrets Client"))
        | .ok sc => (some (SecretFetcher.PVC (NewPVCSecretsFetcher sc)), nil),
       secretsConfig) ∧
    (newSecretFetcher pvc ioutil secretsBackend secretsConfig vaultConfig).1.2
      ≠ some (Error.errorf ("invalid secrets backend: " ++ secretsBackend)) := by
  have h : newSecretFetcher pvc ioutil secretsBackend secretsConfig vaultConfig =
      (match pvc.NewSecretsClient
          [some (SecretsClientOption.WithMapping secretsConfig.Mapping),
           secretsConfig.Backend] with
        | .error err => (none, some (Error.wrap err
            "secrets.getSecretsClient error creating new PVC Secrets Client"))
        | .ok sc => (some (SecretFetcher.PVC (NewPVCSecretsFetcher sc)), nil),
       secretsConfig) := by
    simp only [newSecretFetcher, Id.run, hAgent, hVault, hEnv]
    simp
    split <;> simp_all [errors.Wrap]
  refine ⟨h, ?_⟩
  rw [h]
  rcases pvc.NewSecretsClient
    [some (SecretsClientOption.WithMapping secretsConfig.Mapping), secretsConfig.Backend]
    with e | c <;> simp [nil]

/-- Witness of C12: the backend name `consul`, with a configuration whose
backend option is the one of `env`, and a constructor that accepts its options:
a fetcher is returned and the error is `nil`. -/
theorem newSecretFetcher_unknown_backend_witness :
    (newSecretFetcher pvcLenient ioutilJWT "consul" secretsConfigEnvSet vaultTokenOnly).1
      = (some (SecretFetcher.PVC (NewPVCSecretsFetcher clientValid)), nil) :=
  congrArg Prod.fst (newSecretFetcher_unknown_backend pvcLenient ioutilJWT "consul"
    secretsConfigEnvSet vaultTokenOnly rfl (by decide) (by decide)).1

/-! ## The file adapter: the paths it reads -/

/-- Counterexample to C13 as stated: with the database URI in the file
`/vault/secrets/db/uri` and no other file, `PopulatePG` of the file adapter does
not read that file: its one request is `/vault/secrets/dbURIid`, it fails, and
`pg.PostgresURI` is as before. -/
theorem PopulatePG_file_does_not_read_db_uri :
    readerDbUriSlash.readFile "/vault/secrets/db/uri" = .ok (ascii "postgres://u:p@host/db") ∧
    ((IOReaderSecretsFetcher.mk readerDbUriSlash).PopulatePG.run Dest.zero.pg).reqs
      = ["/vault/secrets/dbURIid"] ∧
    ((IOReaderSecretsFetcher.mk readerDbUriSlash).PopulatePG.run Dest.zero.pg).ret ≠ nil ∧
    ((IOReaderSecretsFetcher.mk readerDbUriSlash).PopulatePG.run Dest.zero.pg).obj.PostgresURI
      = [] := by
  refine ⟨rfl, by decide, by decide, by decide⟩

/-- C13, amended: `PopulatePG` of the file adapter reads exactly the file at
path `/vault/secrets/dbURIid` (the root directory followed by the entry of
`vaultSecrets` for `dbURIid`) and, for every content `c` of that file, returns
no error and sets `pg.PostgresURI` to `c` verbatim; with the file holding
`postgres://u:p@host/db` the URI is that text. -/
theorem PopulatePG_file_reads_dbURIid (iof : IOReaderSecretsFetcher) (pg : PGConfig) :
    (iof.PopulatePG.run pg).reqs = ["/vault/secrets/dbURIid"] ∧
    (∀ c, iof.r.readFile "/vault/secrets/dbURIid" = .ok c →
      (iof.PopulatePG.run pg).ret = nil ∧ (iof.PopulatePG.run pg).obj.PostgresURI = c) ∧
    (iof.r.readFile "/vault/secrets/dbURIid" = .ok (ascii "postgres://u:p@host/db") →
      (iof.PopulatePG.run pg).obj.PostgresURI = ascii "postgres://u:p@host/db") := by
  have hpath : vaultSecrets.index "rootPath" ++ vaultSecrets.index "dbURIid"
      = "/vault/secrets/dbURIid" := by decide
  have hok : ∀ c, iof.r.readFile "/vault/secrets/dbURIid" = .ok c →
      (iof.PopulatePG.run pg).ret = nil ∧ (iof.PopulatePG.run pg).obj.PostgresURI = c := by
    intro c hc
    simp [IOReaderSecretsFetcher.PopulatePG, hpath, hc, string]
  refine ⟨?_, hok, fun hc => (hok _ hc).2⟩
  rcases hc : iof.r.readFile "/vault/secrets/dbURIid" with e | c
  · simp [IOReaderSecretsFetcher.PopulatePG, hpath, hc, string]
  · simp [IOReaderSecretsFetcher.PopulatePG, hpath, hc, string]

/-- Witness of the amended C13: the reader whose file `/vault/secrets/dbURIid`
holds the database URI. -/
theorem PopulatePG_file_reads_dbURIid_witness :
    ((IOReaderSecretsFetcher.mk readerDbURIid).PopulatePG.run Dest.zero.pg).reqs
      = ["/vault/secrets/dbURIid"] ∧
    ((IOReaderSecretsFetcher.mk readerDbURIid).PopulatePG.run Dest.zero.pg).obj.PostgresURI
      = ascii "postgres://u:p@host/db" :=
  ⟨(PopulatePG_file_reads_dbURIid ⟨readerDbURIid⟩ Dest.zero.pg).1,
   (PopulatePG_file_reads_dbURIid ⟨readerDbURIid⟩ Dest.zero.pg).2.2 rfl⟩

/-- C14, what the code does: the names `githubAppId`, `githubOAuthInstId` and
`githubOAuthClientId`, with which `PopulateGithub` of the file adapter indexes
`vaultSecrets`, are not keys of that table (its keys are `githubAppID`,
`githubOAuthInstID` and `githubOAuthClientID`), so the index expression gives
the empty string for each. On a reader where every step succeeds, the app id,
the installation id and the client id are all read from the path
`/vault/secrets/`, the root with an empty suffix: the eleven paths read are
not pairwise distinct. -/
theorem PopulateGithub_file_paths_collide :
    vaultSecrets.entries.lookup "githubAppId" = none ∧
    vaultSecrets.entries.lookup "githubOAuthInstId" = none ∧
    vaultSecrets.entries.lookup "githubOAuthClientId" = none ∧
    vaultSecrets.index "rootPath" ++ vaultSecrets.index "githubAppId" = "/vault/secrets/" ∧
    vaultSecrets.index "rootPath" ++ vaultSecrets.index "githubOAuthInstId" = "/vault/secrets/" ∧
    vaultSecrets.index "rootPath" ++ vaultSecrets.index "githubOAuthClientId"
      = "/vault/secrets/" ∧
    ((IOReaderSecretsFetcher.mk readerValid).PopulateGithub.run GithubConfig.zero).ret = nil ∧
    ((IOReaderSecretsFetcher.mk readerValid).PopulateGithub.run GithubConfig.zero).reqs =
      ["/vault/secrets/githubHookSecretid", "/vault/secrets/githubTokenid",
       "/vault/secrets/", "/vault/secrets/githubAppPK", "/vault/secrets/githubAppHookSecret",
       "/vault/secrets/", "/vault/secrets/", "/vault/secrets/githubOAuthClientSecret",
       "/vault/secrets/githubOAuthCookieAuthKey", "/vault/secrets/githubOAuthCookieEncKey",
       "/vault/secrets/githubOAuthUserTokenEncKey"] ∧
    ¬ ((IOReaderSecretsFetcher.mk readerValid).PopulateGithub.run GithubConfig.zero).reqs.Nodup := by
  refine ⟨by decide, by decide, by decide, by decide, by decide, by decide, by decide,
    by decide, by decide⟩

/-! ## `PopulateServer`: the API keys are never an empty list -/

/-- The file `PopulateServer` stores the split of the API keys file, whatever
the TLS step does. -/
theorem IOReaderSecretsFetcher.PopulateServer_file_APIKeys (iof : IOReaderSecretsFetcher)
    (tls : TLSPackage) (srv : ServerConfig) (s : Bytes)
    (h1 : iof.r.readFile (vaultSecrets.index "rootPath" ++ vaultSecrets.index "apiKeysid") = .ok s) :
    ((iof.PopulateServer tls).run srv).obj.APIKeys = strings.Split s 44 := by
  rcases hD : srv.DisableTLS
  swap
  · simp only [IOReaderSecretsFetcher.PopulateServer, ↓Reader.ReadFile_bind, ↓Populate.pure_bind, string,
      resultPair_ok, resultPair_error, ne_eq, not_false_eq_true, not_true_eq_false,
      reduceCtorEq, ↓reduceIte, *]
    simp [errors.Wrap, hD]
  rcases h2 : iof.r.readFile (vaultSecrets.index "rootPath" ++ vaultSecrets.index "tlsCertid") with e | c
  · simp only [IOReaderSecretsFetcher.PopulateServer, ↓Reader.ReadFile_bind, ↓Populate.pure_bind, string,
      resultPair_ok, resultPair_error, ne_eq, not_false_eq_true, not_true_eq_false,
      reduceCtorEq, ↓reduceIte, *]
    simp [errors.Wrap, hD]
  rcases h3 : iof.r.readFile (vaultSecrets.index "rootPath" ++ vaultSecrets.index "tlsKeyid") with e | k
  · simp only [IOReaderSecretsFetcher.PopulateServer, ↓Reader.ReadFile_bind, ↓Populate.pure_bind, string,
      resultPair_ok, resultPair_error, ne_eq, not_false_eq_true, not_true_eq_false,
      reduceCtorEq, ↓reduceIte, *]
    simp [errors.Wrap, hD]
  rcases hx : tls.X509KeyPair c k with ⟨cert, _ | e⟩
  · simp only [IOReaderSecretsFetcher.PopulateServer, ↓Reader.ReadFile_bind, ↓Populate.pure_bind, string,
      resultPair_ok, resultPair_error, ne_eq, not_false_eq_true, not_true_eq_false,
      reduceCtorEq, ↓reduceIte, *]
    simp [errors.Wrap, hD]
  · simp only [IOReaderSecretsFetcher.PopulateServer, ↓Reader.ReadFile_bind, ↓Populate.pure_bind, string,
      resultPair_ok, resultPair_error, ne_eq, not_false_eq_true, not_true_eq_false,
      reduceCtorEq, ↓reduceIte, *]
    simp [errors.Wrap, hD]

/-- C19: for either adapter, whenever the API keys retrieval of `PopulateServer`
succeeds, `srv.APIKeys` after the call is the split of the retrieved value and
is not the empty list; for an empty value it is the list of one empty key. This
holds whatever the call returns, so also when the TLS step makes it fail. -/
theorem PopulateServer_api_keys_nonempty (tls : TLSPackage) (srv : ServerConfig) :
    (∀ (psf : PVCSecretsFetcher) s, psf.sc.get apiKeysid = .ok s →
      ((psf.PopulateServer tls).run srv).obj.APIKeys = strings.Split s 44 ∧
      ((psf.PopulateServer tls).run srv).obj.APIKeys ≠ [] ∧
      (s = [] → ((psf.PopulateServer tls).run srv).obj.APIKeys = [[]]) ∧
      (((psf.PopulateServer tls).run srv).ret ≠ nil →
        ((psf.PopulateServer tls).run srv).obj.APIKeys = strings.Split s 44)) ∧
    (∀ (iof : IOReaderSecretsFetcher) s, iof.r.readFile "/vault/secrets/apiKeysid" = .ok s →
      ((iof.PopulateServer tls).run srv).obj.APIKeys = strings.Split s 44 ∧
      ((iof.PopulateServer tls).run srv).obj.APIKeys ≠ [] ∧
      (s = [] → ((iof.PopulateServer tls).run srv).obj.APIKeys = [[]]) ∧
      (((iof.PopulateServer tls).run srv).ret ≠ nil →
        ((iof.PopulateServer tls).run srv).obj.APIKeys = strings.Split s 44)) := by
  constructor
  · intro psf s h
    have hk := PVCSecretsFetcher.PopulateServer_APIKeys psf tls srv s h
    refine ⟨hk, ?_, ?_, fun _ => hk⟩
    · rw [hk]
      exact strings.Split_ne_nil s 44
    · intro hs
      rw [hk, hs]
      rfl
  · intro iof s h
    have hpath : vaultSecrets.index "rootPath" ++ vaultSecrets.index "apiKeysid"
        = "/vault/secrets/apiKeysid" := by decide
    have hk := IOReaderSecretsFetcher.PopulateServer_file_APIKeys iof tls srv s (by rw [hpath]; exact h)
    refine ⟨hk, ?_, ?_, fun _ => hk⟩
    · rw [hk]
      exact strings.Split_ne_nil s 44
    · intro hs
      rw [hk, hs]
      rfl

/-- Witness of C19: an empty API keys secret gives the list of one empty key,
and with TLS enabled and no TLS secrets the call fails after it has stored the
API keys, for the remote backend and for the file reader. -/
theorem PopulateServer_api_keys_nonempty_witness :
    (((PVCSecretsFetcher.mk clientEmptyKeys).PopulateServer sampleTLS).run
        Dest.zero.srv).obj.APIKeys = [[]] ∧
    ((((PVCSecretsFetcher.mk clientNoTLS).PopulateServer sampleTLS).run Dest.zero.srv).ret ≠ nil ∧
      (((PVCSecretsFetcher.mk clientNoTLS).PopulateServer sampleTLS).run
        Dest.zero.srv).obj.APIKeys = [ascii "a", ascii "", ascii "b"]) ∧
    ((((IOReaderSecretsFetcher.mk readerNoTLS).PopulateServer sampleTLS).run
        Dest.zero.srv).ret ≠ nil ∧
      (((IOReaderSecretsFetcher.mk readerNoTLS).PopulateServer sampleTLS).run
        Dest.zero.srv).obj.APIKeys = [ascii "a", ascii "", ascii "b"]) :=
  ⟨((PopulateServer_api_keys_nonempty sampleTLS Dest.zero.srv).1 ⟨clientEmptyKeys⟩ [] rfl).2.2.1
      rfl,
   ⟨by decide,
    ((PopulateServer_api_keys_nonempty sampleTLS Dest.zero.srv).1 ⟨clientNoTLS⟩ (ascii "a,,b")
      rfl).2.2.2 (by decide)⟩,
   ⟨by decide,
    ((PopulateServer_api_keys_nonempty sampleTLS Dest.zero.srv).2 ⟨readerNoTLS⟩ (ascii "a,,b")
      rfl).2.2.2 (by decide)⟩⟩

/-! ## `PopulateGithub`: the order of the requests -/

/-- When no element fails, all are taken. -/
theorem throughFirstFailure_all (p : String → Bool) (l : List String)
    (h : ∀ k ∈ l, p k = true) : throughFirstFailure p l = l := by
  induction l with
  | nil => rfl
  | cons k ks ih =>
    have hk : p k = true := h k (List.mem_cons_self _ _)
    have hks : ∀ x ∈ ks, p x = true := fun x hx => h x (List.mem_cons_of_mem _ hx)
    simp [throughFirstFailure, hk, ih hks]

/-- When some element fails, the elements are taken through the first that
fails. -/
theorem throughFirstFailure_some (p : String → Bool) (l : List String)
    (h : ¬ ∀ k ∈ l, p k = true) :
    ∃ n, n < l.length ∧ throughFirstFailure p l = l.take (n + 1) ∧
      (∀ k ∈ l.take n, p k = true) ∧ (∀ k, l.get? n = some k → p k = false) := by
  induction l with
  | nil => exact absurd (fun k hk => absurd hk (List.not_mem_nil k)) h
  | cons k ks ih =>
    by_cases hk : p k = true
    · have hks : ¬ ∀ x ∈ ks, p x = true := by
        intro hall
        apply h
        intro x hx
        rcases List.mem_cons.1 hx with hx | hx
        · rw [hx]; exact hk
        · exact hall x hx
      obtain ⟨n, hn, htake, hbefore, hat⟩ := ih hks
      refine ⟨n + 1, by simpa using hn, ?_, ?_, ?_⟩
      · simp [throughFirstFailure, hk, htake]
      · intro x hx
        simp only [List.take_succ_cons, List.mem_cons] at hx
        rcases hx with hx | hx
        · rw [hx]; exact hk
        · exact hbefore x hx
      · intro x hx
        simp only [List.get?_cons_succ] at hx
        exact hat x hx
    · refine ⟨0, by simp, ?_, ?_, ?_⟩
      · simp [throughFirstFailure, hk]
      · intro x hx
        simp at hx
      · intro x hx
        simp only [List.get?_cons_zero, Option.some.injEq] at hx
        rw [← hx]
        simpa using hk

/-! The validation of each of the eleven GitHub secrets. -/

theorem githubCheck_githubHookSecretid (v : Bytes) : githubCheck githubHookSecretid v = true := rfl

theorem githubCheck_githubTokenid (v : Bytes) : githubCheck githubTokenid v = true := rfl

theorem githubCheck_githubAppID (v : Bytes) :
    githubCheck githubAppID v = decide ((strconv.Atoi v).2 = nil ∧ 1 ≤ (strconv.Atoi v).1) := rfl

theorem githubCheck_githubAppPK (v : Bytes) : githubCheck githubAppPK v = true := rfl

theorem githubCheck_githubAppHookSecret (v : Bytes) : githubCheck githubAppHookSecret v = true := rfl

theorem githubCheck_githubOAuthInstID (v : Bytes) :
    githubCheck githubOAuthInstID v = decide ((strconv.Atoi v).2 = nil ∧ 1 ≤ (strconv.Atoi v).1) := rfl

theorem githubCheck_githubOAuthClientID (v : Bytes) : githubCheck githubOAuthClientID v = true := rfl

theorem githubCheck_githubOAuthClientSecret (v : Bytes) : githubCheck githubOAuthClientSecret v = true := rfl

theorem githubCheck_githubOAuthCookieAuthKey (v : Bytes) : githubCheck githubOAuthCookieAuthKey v = decide (v.length = 32) := rfl

theorem githubCheck_githubOAuthCookieEncKey (v : Bytes) : githubCheck githubOAuthCookieEncKey v = decide (v.length = 32) := rfl

theorem githubCheck_githubOAuthUserTokenEncKey (v : Bytes) : githubCheck githubOAuthUserTokenEncKey v = decide (v.length = 32) := rfl

/-- The requests of the remote `PopulateGithub` are the eleven ids in their
order, through the first one whose step fails; the call returns `nil` exactly
when no step fails. -/
theorem PVCSecretsFetcher.PopulateGithub_reqs (psf : PVCSecretsFetcher) (gh : GithubConfig) :
    (psf.PopulateGithub.run gh).reqs = throughFirstFailure (githubStepOK psf.sc)
      [githubHookSecretid, githubTokenid, githubAppID, githubAppPK, githubAppHookSecret,
        githubOAuthInstID, githubOAuthClientID, githubOAuthClientSecret,
        githubOAuthCookieAuthKey, githubOAuthCookieEncKey, githubOAuthUserTokenEncKey] ∧
    ((psf.PopulateGithub.run gh).ret = nil ↔
      ∀ k ∈ [githubHookSecretid, githubTokenid, githubAppID, githubAppPK, githubAppHookSecret,
        githubOAuthInstID, githubOAuthClientID, githubOAuthClientSecret,
        githubOAuthCookieAuthKey, githubOAuthCookieEncKey, githubOAuthUserTokenEncKey],
        githubStepOK psf.sc k = true) := by
  rcases h1 : psf.sc.get githubHookSecretid with e | v1
  · simp only [PVCSecretsFetcher.PopulateGithub, ↓SecretsClient.Get_bind, ↓Reader.ReadFile_bind,
      ↓Populate.pure_bind, string, resultPair_ok, resultPair_error, ne_eq,
      not_false_eq_true, not_true_eq_false, reduceCtorEq, ↓reduceIte, *]
    simp [errors.Wrap, fmt.Errorf, throughFirstFailure, githubStepOK, githubCheck_githubHookSecretid, githubCheck_githubTokenid, githubCheck_githubAppID, githubCheck_githubAppPK, githubCheck_githubAppHookSecret, githubCheck_githubOAuthInstID, githubCheck_githubOAuthClientID, githubCheck_githubOAuthClientSecret, githubCheck_githubOAuthCookieAuthKey, githubCheck_githubOAuthCookieEncKey, githubCheck_githubOAuthUserTokenEncKey, *]
  rcases h2 : psf.sc.get githubTokenid with e | v2
  · simp only [PVCSecretsFetcher.PopulateGithub, ↓SecretsClient.Get_bind, ↓Reader.ReadFile_bind,
      ↓Populate.pure_bind, string, resultPair_ok, resultPair_error, ne_eq,
      not_false_eq_true, not_true_eq_false, reduceCtorEq, ↓reduceIte, *]
    simp [errors.Wrap, fmt.Errorf, throughFirstFailure, githubStepOK, githubCheck_githubHookSecretid, githubCheck_githubTokenid, githubCheck_githubAppID, githubCheck_githubAppPK, githubCheck_githubAppHookSecret, githubCheck_githubOAuthInstID, githubCheck_githubOAuthClientID, githubCheck_githubOAuthClientSecret, githubCheck_githubOAuthCookieAuthKey, githubCheck_githubOAuthCookieEncKey, githubCheck_githubOAuthUserTokenEncKey, *]
  rcases h3 : psf.sc.get githubAppID with e | v3
  · simp only [PVCSecretsFetcher.PopulateGithub, ↓SecretsClient.Get_bind, ↓Reader.ReadFile_bind,
      ↓Populate.pure_bind, string, resultPair_ok, resultPair_error, ne_eq,
      not_false_eq_true, not_true_eq_false, reduceCtorEq, ↓reduceIte, *]
    simp [errors.Wrap, fmt.Errorf, throughFirstFailure, githubStepOK, githubCheck_githubHookSecretid, githubCheck_githubTokenid, githubCheck_githubAppID, githubCheck_githubAppPK, githubCheck_githubAppHookSecret, githubCheck_githubOAuthInstID, githubCheck_githubOAuthClientID, githubCheck_githubOAuthClientSecret, githubCheck_githubOAuthCookieAuthKey, githubCheck_githubOAuthCookieEncKey, githubCheck_githubOAuthUserTokenEncKey, *]
  rcases h3a : strconv.Atoi v3 with ⟨n3, _ | e⟩
  swap
  · simp only [PVCSecretsFetcher.PopulateGithub, ↓SecretsClient.Get_bind, ↓Reader.ReadFile_bind,
      ↓Populate.pure_bind, string, resultPair_ok, resultPair_error, ne_eq,
      not_false_eq_true, not_true_eq_false, reduceCtorEq, ↓reduceIte, *]
    simp [errors.Wrap, fmt.Errorf, throughFirstFailure, githubStepOK, githubCheck_githubHookSecretid, githubCheck_githubTokenid, githubCheck_githubAppID, githubCheck_githubAppPK, githubCheck_githubAppHookSecret, githubCheck_githubOAuthInstID, githubCheck_githubOAuthClientID, githubCheck_githubOAuthClientSecret, githubCheck_githubOAuthCookieAuthKey, githubCheck_githubOAuthCookieEncKey, githubCheck_githubOAuthUserTokenEncKey, *]
  by_cases h3b : n3 < 1
  · have h3c : ¬ 1 ≤ n3 := by omega
    simp only [PVCSecretsFetcher.PopulateGithub, ↓SecretsClient.Get_bind, ↓Reader.ReadFile_bind,
      ↓Populate.pure_bind, string, resultPair_ok, resultPair_error, ne_eq,
      not_false_eq_true, not_true_eq_false, reduceCtorEq, ↓reduceIte, *]
    simp [errors.Wrap, fmt.Errorf, throughFirstFailure, githubStepOK, githubCheck_githubHookSecretid, githubCheck_githubTokenid, githubCheck_githubAppID, githubCheck_githubAppPK, githubCheck_githubAppHookSecret, githubCheck_githubOAuthInstID, githubCheck_githubOAuthClientID, githubCheck_githubOAuthClientSecret, githubCheck_githubOAuthCookieAuthKey, githubCheck_githubOAuthCookieEncKey, githubCheck_githubOAuthUserTokenEncKey, *]
  have h3c : 1 ≤ n3 := by omega
  rcases h4 : psf.sc.get githubAppPK with e | v4
  · simp only [PVCSecretsFetcher.PopulateGithub, ↓SecretsClient.Get_bind, ↓Reader.ReadFile_bind,
      ↓Populate.pure_bind, string, resultPair_ok, resultPair_error, ne_eq,
      not_false_eq_true, not_true_eq_false, reduceCtorEq, ↓reduceIte, *]
    simp [errors.Wrap, fmt.Errorf, throughFirstFailure, githubStepOK, githubCheck_githubHookSecretid, githubCheck_githubTokenid, githubCheck_githubAppID, githubCheck_githubAppPK, githubCheck_githubAppHookSecret, githubCheck_githubOAuthInstID, githubCheck_githubOAuthClientID, githubCheck_githubOAuthClientSecret, githubCheck_githubOAuthCookieAuthKey, githubCheck_githubOAuthCookieEncKey, githubCheck_githubOAuthUserTokenEncKey, *]
  rcases h5 : psf.sc.get githubAppHookSecret with e | v5
  · simp only [PVCSecretsFetcher.PopulateGithub, ↓SecretsClient.Get_bind, ↓Reader.ReadFile_bind,
      ↓Populate.pure_bind, string, resultPair_ok, resultPair_error, ne_eq,
      not_false_eq_true, not_true_eq_false, reduceCtorEq, ↓reduceIte, *]
    simp [errors.Wrap, fmt.Errorf, throughFirstFailure, githubStepOK, githubCheck_githubHookSecretid, githubCheck_githubTokenid, githubCheck_githubAppID, githubCheck_githubAppPK, githubCheck_githubAppHookSecret, githubCheck_githubOAuthInstID, githubCheck_githubOAuthClientID, githubCheck_githubOAuthClientSecret, githubCheck_githubOAuthCookieAuthKey, githubCheck_githubOAuthCookieEncKey, githubCheck_githubOAuthUserTokenEncKey, *]
  rcases h6 : psf.sc.get githubOAuthInstID with e | v6
  · simp only [PVCSecretsFetcher.PopulateGithub, ↓SecretsClient.Get_bind, ↓Reader.ReadFile_bind,
      ↓Populate.pure_bind, string, resultPair_ok, resultPair_error, ne_eq,
      not_false_eq_true, not_true_eq_false, reduceCtorEq, ↓reduceIte, *]
    simp [errors.Wrap, fmt.Errorf, throughFirstFailure, githubStepOK, githubCheck_githubHookSecretid, githubCheck_githubTokenid, githubCheck_githubAppID, githubCheck_githubAppPK, githubCheck_githubAppHookSecret, githubCheck_githubOAuthInstID, githubCheck_githubOAuthClientID, githubCheck_githubOAuthClientSecret, githubCheck_githubOAuthCookieAuthKey, githubCheck_githubOAuthCookieEncKey, githubCheck_githubOAuthUserTokenEncKey, *]
  rcases h6a : strconv.Atoi v6 with ⟨n6, _ | e⟩
  swap
  · simp only [PVCSecretsFetcher.PopulateGithub, ↓SecretsClient.Get_bind, ↓Reader.ReadFile_bind,
      ↓Populate.pure_bind, string, resultPair_ok, resultPair_error, ne_eq,
      not_false_eq_true, not_true_eq_false, reduceCtorEq, ↓reduceIte, *]
    simp [errors.Wrap, fmt.Errorf, throughFirstFailure, githubStepOK, githubCheck_githubHookSecretid, githubCheck_githubTokenid, githubCheck_githubAppID, githubCheck_githubAppPK, githubCheck_githubAppHookSecret, githubCheck_githubOAuthInstID, githubCheck_githubOAuthClientID, githubCheck_githubOAuthClientSecret, githubCheck_githubOAuthCookieAuthKey, githubCheck_githubOAuthCookieEncKey, githubCheck_githubOAuthUserTokenEncKey, *]
  by_cases h6b : n6 < 1
  · have h6c : ¬ 1 ≤ n6 := by omega
    simp only [PVCSecretsFetcher.PopulateGithub, ↓SecretsClient.Get_bind, ↓Reader.ReadFile_bind,
      ↓Populate.pure_bind, string, resultPair_ok, resultPair_error, ne_eq,
      not_false_eq_true, not_true_eq_false, reduceCtorEq, ↓reduceIte, *]
    simp [errors.Wrap, fmt.Errorf, throughFirstFailure, githubStepOK, githubCheck_githubHookSecretid, githubCheck_githubTokenid, githubCheck_githubAppID, githubCheck_githubAppPK, githubCheck_githubAppHookSecret, githubCheck_githubOAuthInstID, githubCheck_githubOAuthClientID, githubCheck_githubOAuthClientSecret, githubCheck_githubOAuthCookieAuthKey, githubCheck_githubOAuthCookieEncKey, githubCheck_githubOAuthUserTokenEncKey, *]
  have h6c : 1 ≤ n6 := by omega
  rcases h7 : psf.sc.get githubOAuthClientID with e | v7
  · simp only [PVCSecretsFetcher.PopulateGithub, ↓SecretsClient.Get_bind, ↓Reader.ReadFile_bind,
      ↓Populate.pure_bind, string, resultPair_ok, resultPair_error, ne_eq,
      not_false_eq_true, not_true_eq_false, reduceCtorEq, ↓reduceIte, *]
    simp [errors.Wrap, fmt.Errorf, throughFirstFailure, githubStepOK, githubCheck_githubHookSecretid, githubCheck_githubTokenid, githubCheck_githubAppID, githubCheck_githubAppPK, githubCheck_githubAppHookSecret, githubCheck_githubOAuthInstID, githubCheck_githubOAuthClientID, githubCheck_githubOAuthClientSecret, githubCheck_githubOAuthCookieAuthKey, githubCheck_githubOAuthCookieEncKey, githubCheck_githubOAuthUserTokenEncKey, *]
  rcases h8 : psf.sc.get githubOAuthClientSecret with e | v8
  · simp only [PVCSecretsFetcher.PopulateGithub, ↓SecretsClient.Get_bind, ↓Reader.ReadFile_bind,
      ↓Populate.pure_bind, string, resultPair_ok, resultPair_error, ne_eq,
      not_false_eq_true, not_true_eq_false, reduceCtorEq, ↓reduceIte, *]
    simp [errors.Wrap, fmt.Errorf, throughFirstFailure, githubStepOK, githubCheck_githubHookSecretid, githubCheck_githubTokenid, githubCheck_githubAppID, githubCheck_githubAppPK, githubCheck_githubAppHookSecret, githubCheck_githubOAuthInstID, githubCheck_githubOAuthClientID, githubCheck_githubOAuthClientSecret, githubCheck_githubOAuthCookieAuthKey, githubCheck_githubOAuthCookieEncKey, githubCheck_githubOAuthUserTokenEncKey, *]
  rcases h9 : psf.sc.get githubOAuthCookieAuthKey with e | v9
  · simp only [PVCSecretsFetcher.PopulateGithub, ↓SecretsClient.Get_bind, ↓Reader.ReadFile_bind,
      ↓Populate.pure_bind, string, resultPair_ok, resultPair_error, ne_eq,
      not_false_eq_true, not_true_eq_false, reduceCtorEq, ↓reduceIte, *]
    simp [errors.Wrap, fmt.Errorf, throughFirstFailure, githubStepOK, githubCheck_githubHookSecretid, githubCheck_githubTokenid, githubCheck_githubAppID, githubCheck_githubAppPK, githubCheck_githubAppHookSecret, githubCheck_githubOAuthInstID, githubCheck_githubOAuthClientID, githubCheck_githubOAuthClientSecret, githubCheck_githubOAuthCookieAuthKey, githubCheck_githubOAuthCookieEncKey, githubCheck_githubOAuthUserTokenEncKey, *]
  by_cases h9a : v9.length = 32
  swap
  · simp only [PVCSecretsFetcher.PopulateGithub, ↓SecretsClient.Get_bind, ↓Reader.ReadFile_bind,
      ↓Populate.pure_bind, string, resultPair_ok, resultPair_error, ne_eq,
      not_false_eq_true, not_true_eq_false, reduceCtorEq, ↓reduceIte, *]
    simp [errors.Wrap, fmt.Errorf, throughFirstFailure, githubStepOK, githubCheck_githubHookSecretid, githubCheck_githubTokenid, githubCheck_githubAppID, githubCheck_githubAppPK, githubCheck_githubAppHookSecret, githubCheck_githubOAuthInstID, githubCheck_githubOAuthClientID, githubCheck_githubOAuthClientSecret, githubCheck_githubOAuthCookieAuthKey, githubCheck_githubOAuthCookieEncKey, githubCheck_githubOAuthUserTokenEncKey, *]
  rcases h10 : psf.sc.get githubOAuthCookieEncKey with e | v10
  · simp only [PVCSecretsFetcher.PopulateGithub, ↓SecretsClient.Get_bind, ↓Reader.ReadFile_bind,
      ↓Populate.pure_bind, string, resultPair_ok, resultPair_error, ne_eq,
      not_false_eq_true, not_true_eq_false, reduceCtorEq, ↓reduceIte, *]
    simp [errors.Wrap, fmt.Errorf, throughFirstFailure, githubStepOK, githubCheck_githubHookSecretid, githubCheck_githubTokenid, githubCheck_githubAppID, githubCheck_githubAppPK, githubCheck_githubAppHookSecret, githubCheck_githubOAuthInstID, githubCheck_githubOAuthClientID, githubCheck_githubOAuthClientSecret, githubCheck_githubOAuthCookieAuthKey, githubCheck_githubOAuthCookieEncKey, githubCheck_githubOAuthUserTokenEncKey, *]
  by_cases h10a : v10.length = 32
  swap
  · simp only [PVCSecretsFetcher.PopulateGithub, ↓SecretsClient.Get_bind, ↓Reader.ReadFile_bind,
      ↓Populate.pure_bind, string, resultPair_ok, resultPair_error, ne_eq,
      not_false_eq_true, not_true_eq_false, reduceCtorEq, ↓reduceIte, *]
    simp [errors.Wrap, fmt.Errorf, throughFirstFailure, githubStepOK, githubCheck_githubHookSecretid, githubCheck_githubTokenid, githubCheck_githubAppID, githubCheck_githubAppPK, githubCheck_githubAppHookSecret, githubCheck_githubOAuthInstID, githubCheck_githubOAuthClientID, githubCheck_githubOAuthClientSecret, githubCheck_githubOAuthCookieAuthKey, githubCheck_githubOAuthCookieEncKey, githubCheck_githubOAuthUserTokenEncKey, *]
  rcases h11 : psf.sc.get githubOAuthUserTokenEncKey with e | v11
  · simp only [PVCSecretsFetcher.PopulateGithub, ↓SecretsClient.Get_bind, ↓Reader.ReadFile_bind,
      ↓Populate.pure_bind, string, resultPair_ok, resultPair_error, ne_eq,
      not_false_eq_true, not_true_eq_false, reduceCtorEq, ↓reduceIte, *]
    simp [errors.Wrap, fmt.Errorf, throughFirstFailure, githubStepOK, githubCheck_githubHookSecretid, githubCheck_githubTokenid, githubCheck_githubAppID, githubCheck_githubAppPK, githubCheck_githubAppHookSecret, githubCheck_githubOAuthInstID, githubCheck_githubOAuthClientID, githubCheck_githubOAuthClientSecret, githubCheck_githubOAuthCookieAuthKey, githubCheck_githubOAuthCookieEncKey, githubCheck_githubOAuthUserTokenEncKey, *]
  by_cases h11a : v11.length = 32
  swap
  · simp only [PVCSecretsFetcher.PopulateGithub, ↓SecretsClient.Get_bind, ↓Reader.ReadFile_bind,
      ↓Populate.pure_bind, string, resultPair_ok, resultPair_error, ne_eq,
      not_false_eq_true, not_true_eq_false, reduceCtorEq, ↓reduceIte, *]
    simp [errors.Wrap, fmt.Errorf, throughFirstFailure, githubStepOK, githubCheck_githubHookSecretid, githubCheck_githubTokenid, githubCheck_githubAppID, githubCheck_githubAppPK, githubCheck_githubAppHookSecret, githubCheck_githubOAuthInstID, githubCheck_githubOAuthClientID, githubCheck_githubOAuthClientSecret, githubCheck_githubOAuthCookieAuthKey, githubCheck_githubOAuthCookieEncKey, githubCheck_githubOAuthUserTokenEncKey, *]
  simp only [PVCSecretsFetcher.PopulateGithub, ↓SecretsClient.Get_bind, ↓Reader.ReadFile_bind,
    ↓Populate.pure_bind, string, resultPair_ok, resultPair_error, ne_eq,
    not_false_eq_true, not_true_eq_false, reduceCtorEq, ↓reduceIte, *]
  simp [errors.Wrap, fmt.Errorf, throughFirstFailure, githubStepOK, githubCheck_githubHookSecretid, githubCheck_githubTokenid, githubCheck_githubAppID, githubCheck_githubAppPK, githubCheck_githubAppHookSecret, githubCheck_githubOAuthInstID, githubCheck_githubOAuthClientID, githubCheck_githubOAuthClientSecret, githubCheck_githubOAuthCookieAuthKey, githubCheck_githubOAuthCookieEncKey, githubCheck_githubOAuthUserTokenEncKey, *]

/-- C17: the remote `PopulateGithub` requests the eleven GitHub ids in the order
hook secret, token, app id, private key, app hook secret, installation id,
client id, client secret, cookie authentication key, cookie encryption key, user
token encryption key. The eleven ids are pairwise distinct and no id is
requested twice. When every step succeeds, and so whenever the call returns
`nil`, the requests are exactly this list; when the call fails, the requests are
the prefix of this list that ends at the first secret whose step fails (its
retrieval or its validation), all steps before it having succeeded. -/
theorem PopulateGithub_request_order (psf : PVCSecretsFetcher) (gh : GithubConfig) :
    [githubHookSecretid, githubTokenid, githubAppID, githubAppPK, githubAppHookSecret,
      githubOAuthInstID, githubOAuthClientID, githubOAuthClientSecret,
      githubOAuthCookieAuthKey, githubOAuthCookieEncKey, githubOAuthUserTokenEncKey]
      = ["github/hook_secret", "github/token", "github/app/id", "github/app/private_key",
         "github/app/hook_secret", "github/app/oauth/installation_id",
         "github/app/oauth/client/id", "github/app/oauth/client/secret",
         "github/app/oauth/cookie/authentication_key", "github/app/oauth/cookie/encryption_key",
         "github/app/oauth/user_token/encryption_key"] ∧
    (psf.PopulateGithub.run gh).reqs.Nodup ∧
    ((∀ k ∈ [githubHookSecretid, githubTokenid, githubAppID, githubAppPK, githubAppHookSecret,
        githubOAuthInstID, githubOAuthClientID, githubOAuthClientSecret,
        githubOAuthCookieAuthKey, githubOAuthCookieEncKey, githubOAuthUserTokenEncKey],
        githubStepOK psf.sc k = true) →
      (psf.PopulateGithub.run gh).ret = nil ∧
      (psf.PopulateGithub.run gh).reqs =
        [githubHookSecretid, githubTokenid, githubAppID, githubAppPK, githubAppHookSecret,
          githubOAuthInstID, githubOAuthClientID, githubOAuthClientSecret,
          githubOAuthCookieAuthKey, githubOAuthCookieEncKey, githubOAuthUserTokenEncKey]) ∧
    ((psf.PopulateGithub.run gh).ret = nil →
      (psf.PopulateGithub.run gh).reqs =
        [githubHookSecretid, githubTokenid, githubAppID, githubAppPK, githubAppHookSecret,
          githubOAuthInstID, githubOAuthClientID, githubOAuthClientSecret,
          githubOAuthCookieAuthKey, githubOAuthCookieEncKey, githubOAuthUserTokenEncKey]) ∧
    ((psf.PopulateGithub.run gh).ret ≠ nil →
      ∃ n, n < 11 ∧
        (psf.PopulateGithub.run gh).reqs =
          [githubHookSecretid, githubTokenid, githubAppID, githubAppPK, githubAppHookSecret,
            githubOAuthInstID, githubOAuthClientID, githubOAuthClientSecret,
            githubOAuthCookieAuthKey, githubOAuthCookieEncKey,
            githubOAuthUserTokenEncKey].take (n + 1) ∧
        (∀ k ∈ [githubHookSecretid, githubTokenid, githubAppID, githubAppPK,
            githubAppHookSecret, githubOAuthInstID, githubOAuthClientID,
            githubOAuthClientSecret, githubOAuthCookieAuthKey, githubOAuthCookieEncKey,
            githubOAuthUserTokenEncKey].take n, githubStepOK psf.sc k = true) ∧
        (∀ k, [githubHookSecretid, githubTokenid, githubAppID, githubAppPK,
            githubAppHookSecret, githubOAuthInstID, githubOAuthClientID,
            githubOAuthClientSecret, githubOAuthCookieAuthKey, githubOAuthCookieEncKey,
            githubOAuthUserTokenEncKey].get? n = some k → githubStepOK psf.sc k = false)) := by
  have hm := PVCSecretsFetcher.PopulateGithub_reqs psf gh
  have hnodup : [githubHookSecretid, githubTokenid, githubAppID, githubAppPK,
      githubAppHookSecret, githubOAuthInstID, githubOAuthClientID, githubOAuthClientSecret,
      githubOAuthCookieAuthKey, githubOAuthCookieEncKey, githubOAuthUserTokenEncKey].Nodup := by
    decide
  have hall : (∀ k ∈ [githubHookSecretid, githubTokenid, githubAppID, githubAppPK,
        githubAppHookSecret, githubOAuthInstID, githubOAuthClientID, githubOAuthClientSecret,
        githubOAuthCookieAuthKey, githubOAuthCookieEncKey, githubOAuthUserTokenEncKey],
        githubStepOK psf.sc k = true) →
      (psf.PopulateGithub.run gh).ret = nil ∧
      (psf.PopulateGithub.run gh).reqs =
        [githubHookSecretid, githubTokenid, githubAppID, githubAppPK, githubAppHookSecret,
          githubOAuthInstID, githubOAuthClientID, githubOAuthClientSecret,
          githubOAuthCookieAuthKey, githubOAuthCookieEncKey, githubOAuthUserTokenEncKey] := by
    intro h
    exact ⟨hm.2.2 h, by rw [hm.1]; exact throughFirstFailure_all _ _ h⟩
  have hfail : (psf.PopulateGithub.run gh).ret ≠ nil →
      ∃ n, n < 11 ∧
        (psf.PopulateGithub.run gh).reqs =
          [githubHookSecretid, githubTokenid, githubAppID, githubAppPK, githubAppHookSecret,
            githubOAuthInstID, githubOAuthClientID, githubOAuthClientSecret,
            githubOAuthCookieAuthKey, githubOAuthCookieEncKey,
            githubOAuthUserTokenEncKey].take (n + 1) ∧
        (∀ k ∈ [githubHookSecretid, githubTokenid, githubAppID, githubAppPK,
            githubAppHookSecret, githubOAuthInstID, githubOAuthClientID,
            githubOAuthClientSecret, githubOAuthCookieAuthKey, githubOAuthCookieEncKey,
            githubOAuthUserTokenEncKey].take n, githubStepOK psf.sc k = true) ∧
        (∀ k, [githubHookSecretid, githubTokenid, githubAppID, githubAppPK,
            githubAppHookSecret, githubOAuthInstID, githubOAuthClientID,
            githubOAuthClientSecret, githubOAuthCookieAuthKey, githubOAuthCookieEncKey,
            githubOAuthUserTokenEncKey].get? n = some k → githubStepOK psf.sc k = false) := by
    intro hne
    have hnot : ¬ ∀ k ∈ [githubHookSecretid, githubTokenid, githubAppID, githubAppPK,
        githubAppHookSecret, githubOAuthInstID, githubOAuthClientID, githubOAuthClientSecret,
        githubOAuthCookieAuthKey, githubOAuthCookieEncKey, githubOAuthUserTokenEncKey],
        githubStepOK psf.sc k = true := fun h => hne (hm.2.2 h)
    obtain ⟨n, hn, htake, hbefore, hat⟩ := throughFirstFailure_some _ _ hnot
    exact ⟨n, hn, by rw [hm.1]; exact htake, hbefore, hat⟩
  refine ⟨by decide, ?_, hall, fun h => (hall (hm.2.1 h)).2, hfail⟩
  by_cases hret : (psf.PopulateGithub.run gh).ret = nil
  · rw [(hall (hm.2.1 hret)).2]
    exact hnodup
  · obtain ⟨n, _, htake, _, _⟩ := hfail hret
    rw [htake]
    exact List.Sublist.nodup (List.take_sublist _ _) hnodup

/-- Witness of C17: the backend with valid secrets is asked for the eleven ids
in order; the backend with app id `0` is asked for the first three. -/
theorem PopulateGithub_request_order_witness :
    ((PVCSecretsFetcher.mk clientValid).PopulateGithub.run GithubConfig.zero).reqs =
      ["github/hook_secret", "github/token", "github/app/id", "github/app/private_key",
       "github/app/hook_secret", "github/app/oauth/installation_id",
       "github/app/oauth/client/id", "github/app/oauth/client/secret",
       "github/app/oauth/cookie/authentication_key", "github/app/oauth/cookie/encryption_key",
       "github/app/oauth/user_token/encryption_key"] ∧
    ((PVCSecretsFetcher.mk clientAppIdZero).PopulateGithub.run GithubConfig.zero).reqs =
      ["github/hook_secret", "github/token", "github/app/id"] :=
  ⟨((PopulateGithub_request_order ⟨clientValid⟩ GithubConfig.zero).2.2.2.1 (by decide)).trans
      (PopulateGithub_request_order ⟨clientValid⟩ GithubConfig.zero).1,
   by decide⟩

/-! ## Running a populate operation twice -/

/-- Copying thirty-two bytes into a `[32]byte` array gives the array of these
bytes, whatever the array held. -/
theorem copy32_of_length (a : Byte32) (src : Bytes) (h : src.length = 32) :
    copy32 a src = ⟨src, h⟩ :=
  Subtype.ext (copy32_val a src h)

/-- The remote `PopulatePG` run a second time ends as the first run. -/
theorem PVCSecretsFetcher.PopulatePG_twice (psf : PVCSecretsFetcher) (pg : PGConfig) :
    (psf.PopulatePG.run (psf.PopulatePG.run pg).obj).ret = (psf.PopulatePG.run pg).ret ∧
    (psf.PopulatePG.run (psf.PopulatePG.run pg).obj).obj = (psf.PopulatePG.run pg).obj := by
  rcases h1 : psf.sc.get dbURIid with e | v1
  · simp only [PVCSecretsFetcher.PopulatePG, ↓SecretsClient.Get_bind, ↓Reader.ReadFile_bind,
      ↓Populate.pure_bind, string, resultPair_ok, resultPair_error, ne_eq,
      not_false_eq_true, not_true_eq_false, reduceCtorEq, ↓reduceIte, *]
    simp [errors.Wrap, fmt.Errorf]
  simp only [PVCSecretsFetcher.PopulatePG, ↓SecretsClient.Get_bind, ↓Reader.ReadFile_bind,
    ↓Populate.pure_bind, string, resultPair_ok, resultPair_error, ne_eq,
    not_false_eq_true, not_true_eq_false, reduceCtorEq, ↓reduceIte, *]
  simp [errors.Wrap, fmt.Errorf]

/-- The remote `PopulateAWS` run a second time ends as the first run. -/
theorem PVCSecretsFetcher.PopulateAWS_twice (psf : PVCSecretsFetcher) (aws : AWSCreds) :
    (psf.PopulateAWS.run (psf.PopulateAWS.run aws).obj).ret = (psf.PopulateAWS.run aws).ret ∧
    (psf.PopulateAWS.run (psf.PopulateAWS.run aws).obj).obj = (psf.PopulateAWS.run aws).obj := by
  rcases h1 : psf.sc.get awsAccessKeyIDid with e | v1
  · simp only [PVCSecretsFetcher.PopulateAWS, ↓SecretsClient.Get_bind, ↓Reader.ReadFile_bind,
      ↓Populate.pure_bind, string, resultPair_ok, resultPair_error, ne_eq,
      not_false_eq_true, not_true_eq_false, reduceCtorEq, ↓reduceIte, *]
    simp [errors.Wrap, fmt.Errorf]
  rcases h2 : psf.sc.get awsSecretAccessKeyid with e | v2
  · simp only [PVCSecretsFetcher.PopulateAWS, ↓SecretsClient.Get_bind, ↓Reader.ReadFile_bind,
      ↓Populate.pure_bind, string, resultPair_ok, resultPair_error, ne_eq,
      not_false_eq_true, not_true_eq_false, reduceCtorEq, ↓reduceIte, *]
    simp [errors.Wrap, fmt.Errorf]
  simp only [PVCSecretsFetcher.PopulateAWS, ↓SecretsClient.Get_bind, ↓Reader.ReadFile_bind,
    ↓Populate.pure_bind, string, resultPair_ok, resultPair_error, ne_eq,
    not_false_eq_true, not_true_eq_false, reduceCtorEq, ↓reduceIte, *]
  simp [errors.Wrap, fmt.Errorf]

/-- The remote `PopulateSlack` run a second time ends as the first run. -/
theorem PVCSecretsFetcher.PopulateSlack_twice (psf : PVCSecretsFetcher) (slack : SlackConfig) :
    (psf.PopulateSlack.run (psf.PopulateSlack.run slack).obj).ret
      = (psf.PopulateSlack.run slack).ret ∧
    (psf.PopulateSlack.run (psf.PopulateSlack.run slack).obj).obj
      = (psf.PopulateSlack.run slack).obj := by
  rcases h1 : psf.sc.get slackTokenid with e | v1
  · simp only [PVCSecretsFetcher.PopulateSlack, ↓SecretsClient.Get_bind, ↓Reader.ReadFile_bind,
      ↓Populate.pure_bind, string, resultPair_ok, resultPair_error, ne_eq,
      not_false_eq_true, not_true_eq_false, reduceCtorEq, ↓reduceIte, *]
    simp [errors.Wrap, fmt.Errorf]
  simp only [PVCSecretsFetcher.PopulateSlack, ↓SecretsClient.Get_bind, ↓Reader.ReadFile_bind,
    ↓Populate.pure_bind, string, resultPair_ok, resultPair_error, ne_eq,
    not_false_eq_true, not_true_eq_false, reduceCtorEq, ↓reduceIte, *]
  simp [errors.Wrap, fmt.Errorf]

/-- The remote `PopulateServer` run a second time ends as the first run. -/
theorem PVCSecretsFetcher.PopulateServer_twice (psf : PVCSecretsFetcher) (tls : TLSPackage)
    (srv : ServerConfig) :
    ((psf.PopulateServer tls).run ((psf.PopulateServer tls).run srv).obj).ret
      = ((psf.PopulateServer tls).run srv).ret ∧
    ((psf.PopulateServer tls).run ((psf.PopulateServer tls).run srv).obj).obj
      = ((psf.PopulateServer tls).run srv).obj := by
  rcases h1 : psf.sc.get apiKeysid with e | v1
  · simp only [PVCSecretsFetcher.PopulateServer, ↓SecretsClient.Get_bind, ↓Reader.ReadFile_bind,
      ↓Populate.pure_bind, string, resultPair_ok, resultPair_error, ne_eq,
      not_false_eq_true, not_true_eq_false, reduceCtorEq, ↓reduceIte, *]
    simp [errors.Wrap, fmt.Errorf]
  rcases hD : srv.DisableTLS
  swap
  · simp only [PVCSecretsFetcher.PopulateServer, ↓SecretsClient.Get_bind, ↓Reader.ReadFile_bind,
      ↓Populate.pure_bind, string, resultPair_ok, resultPair_error, ne_eq,
      not_false_eq_true, not_true_eq_false, reduceCtorEq, ↓reduceIte, *]
    simp [errors.Wrap, fmt.Errorf, hD]
  rcases h2 : psf.sc.get tlsCertid with e | v2
  · simp only [PVCSecretsFetcher.PopulateServer, ↓SecretsClient.Get_bind, ↓Reader.ReadFile_bind,
      ↓Populate.pure_bind, string, resultPair_ok, resultPair_error, ne_eq,
      not_false_eq_true, not_true_eq_false, reduceCtorEq, ↓reduceIte, *]
    simp [errors.Wrap, fmt.Errorf, hD]
  rcases h3 : psf.sc.get tlsKeyid with e | v3
  · simp only [PVCSecretsFetcher.PopulateServer, ↓SecretsClient.Get_bind, ↓Reader.ReadFile_bind,
      ↓Populate.pure_bind, string, resultPair_ok, resultPair_error, ne_eq,
      not_false_eq_true, not_true_eq_false, reduceCtorEq, ↓reduceIte, *]
    simp [errors.Wrap, fmt.Errorf, hD]
  rcases hx : tls.X509KeyPair v2 v3 with ⟨cert, _ | e⟩
  · simp only [PVCSecretsFetcher.PopulateServer, ↓SecretsClient.Get_bind, ↓Reader.ReadFile_bind,
      ↓Populate.pure_bind, string, resultPair_ok, resultPair_error, ne_eq,
      not_false_eq_true, not_true_eq_false, reduceCtorEq, ↓reduceIte, *]
    simp [errors.Wrap, fmt.Errorf, hD]
  simp only [PVCSecretsFetcher.PopulateServer, ↓SecretsClient.Get_bind, ↓Reader.ReadFile_bind,
    ↓Populate.pure_bind, string, resultPair_ok, resultPair_error, ne_eq,
    not_false_eq_true, not_true_eq_false, reduceCtorEq, ↓reduceIte, *]
  simp [errors.Wrap, fmt.Errorf, hD]

/-- The remote `PopulateGithub` run a second time ends as the first run. -/
theorem PVCSecretsFetcher.PopulateGithub_twice (psf : PVCSecretsFetcher) (gh : GithubConfig) :
    (psf.PopulateGithub.run (psf.PopulateGithub.run gh).obj).ret
      = (psf.PopulateGithub.run gh).ret ∧
    (psf.PopulateGithub.run (psf.PopulateGithub.run gh).obj).obj
      = (psf.PopulateGithub.run gh).obj := by
  rcases h1 : psf.sc.get githubHookSecretid with e | v1
  · simp only [PVCSecretsFetcher.PopulateGithub, ↓SecretsClient.Get_bind, ↓Reader.ReadFile_bind,
      ↓Populate.pure_bind, string, resultPair_ok, resultPair_error, ne_eq,
      not_false_eq_true, not_true_eq_false, reduceCtorEq, ↓reduceIte, *]
    simp [errors.Wrap, fmt.Errorf, copy32_of_length, *]
  rcases h2 : psf.sc.get githubTokenid with e | v2
  · simp only [PVCSecretsFetcher.PopulateGithub, ↓SecretsClient.Get_bind, ↓Reader.ReadFile_bind,
      ↓Populate.pure_bind, string, resultPair_ok, resultPair_error, ne_eq,
      not_false_eq_true, not_true_eq_false, reduceCtorEq, ↓reduceIte, *]
    simp [errors.Wrap, fmt.Errorf, copy32_of_length, *]
  rcases h3 : psf.sc.get githubAppID with e | v3
  · simp only [PVCSecretsFetcher.PopulateGithub, ↓SecretsClient.Get_bind, ↓Reader.ReadFile_bind,
      ↓Populate.pure_bind, string, resultPair_ok, resultPair_error, ne_eq,
      not_false_eq_true, not_true_eq_false, reduceCtorEq, ↓reduceIte, *]
    simp [errors.Wrap, fmt.Errorf, copy32_of_length, *]
  rcases h3a : strconv.Atoi v3 with ⟨n3, _ | e⟩
  swap
  · simp only [PVCSecretsFetcher.PopulateGithub, ↓SecretsClient.Get_bind, ↓Reader.ReadFile_bind,
      ↓Populate.pure_bind, string, resultPair_ok, resultPair_error, ne_eq,
      not_false_eq_true, not_true_eq_false, reduceCtorEq, ↓reduceIte, *]
    simp [errors.Wrap, fmt.Errorf, copy32_of_length, *]
  by_cases h3b : n3 < 1
  · simp only [PVCSecretsFetcher.PopulateGithub, ↓SecretsClient.Get_bind, ↓Reader.ReadFile_bind,
      ↓Populate.pure_bind, string, resultPair_ok, resultPair_error, ne_eq,
      not_false_eq_true, not_true_eq_false, reduceCtorEq, ↓reduceIte, *]
    simp [errors.Wrap, fmt.Errorf, copy32_of_length, *]
  have h3c : 1 ≤ n3 := by omega
  rcases h4 : psf.sc.get githubAppPK with e | v4
  · simp only [PVCSecretsFetcher.PopulateGithub, ↓SecretsClient.Get_bind, ↓Reader.ReadFile_bind,
      ↓Populate.pure_bind, string, resultPair_ok, resultPair_error, ne_eq,
      not_false_eq_true, not_true_eq_false, reduceCtorEq, ↓reduceIte, *]
    simp [errors.Wrap, fmt.Errorf, copy32_of_length, *]
  rcases h5 : psf.sc.get githubAppHookSecret with e | v5
  · simp only [PVCSecretsFetcher.PopulateGithub, ↓SecretsClient.Get_bind, ↓Reader.ReadFile_bind,
      ↓Populate.pure_bind, string, resultPair_ok, resultPair_error, ne_eq,
      not_false_eq_true, not_true_eq_false, reduceCtorEq, ↓reduceIte, *]
    simp [errors.Wrap, fmt.Errorf, copy32_of_length, *]
  rcases h6 : psf.sc.get githubOAuthInstID with e | v6
  · simp only [PVCSecretsFetcher.PopulateGithub, ↓SecretsClient.Get_bind, ↓Reader.ReadFile_bind,
      ↓Populate.pure_bind, string, resultPair_ok, resultPair_error, ne_eq,
      not_false_eq_true, not_true_eq_false, reduceCtorEq, ↓reduceIte, *]
    simp [errors.Wrap, fmt.Errorf, copy32_of_length, *]
  rcases h6a : strconv.Atoi v6 with ⟨n6, _ | e⟩
  swap
  · simp only [PVCSecretsFetcher.PopulateGithub, ↓SecretsClient.Get_bind, ↓Reader.ReadFile_bind,
      ↓Populate.pure_bind, string, resultPair_ok, resultPair_error, ne_eq,
      not_false_eq_true, not_true_eq_false, reduceCtorEq, ↓reduceIte, *]
    simp [errors.Wrap, fmt.Errorf, copy32_of_length, *]
  by_cases h6b : n6 < 1
  · simp only [PVCSecretsFetcher.PopulateGithub, ↓SecretsClient.Get_bind, ↓Reader.ReadFile_bind,
      ↓Populate.pure_bind, string, resultPair_ok, resultPair_error, ne_eq,
      not_false_eq_true, not_true_eq_false, reduceCtorEq, ↓reduceIte, *]
    simp [errors.Wrap, fmt.Errorf, copy32_of_length, *]
  have h6c : 1 ≤ n6 := by omega
  rcases h7 : psf.sc.get githubOAuthClientID with e | v7
  · simp only [PVCSecretsFetcher.PopulateGithub, ↓SecretsClient.Get_bind, ↓Reader.ReadFile_bind,
      ↓Populate.pure_bind, string, resultPair_ok, resultPair_error, ne_eq,
      not_false_eq_true, not_true_eq_false, reduceCtorEq, ↓reduceIte, *]
    simp [errors.Wrap, fmt.Errorf, copy32_of_length, *]
  rcases h8 : psf.sc.get githubOAuthClientSecret with e | v8
  · simp only [PVCSecretsFetcher.PopulateGithub, ↓SecretsClient.Get_bind, ↓Reader.ReadFile_bind,
      ↓Populate.pure_bind, string, resultPair_ok, resultPair_error, ne_eq,
      not_false_eq_true, not_true_eq_false, reduceCtorEq, ↓reduceIte, *]
    simp [errors.Wrap, fmt.Errorf, copy32_of_length, *]
  rcases h9 : psf.sc.get githubOAuthCookieAuthKey with e | v9
  · simp only [PVCSecretsFetcher.PopulateGithub, ↓SecretsClient.Get_bind, ↓Reader.ReadFile_bind,
      ↓Populate.pure_bind, string, resultPair_ok, resultPair_error, ne_eq,
      not_false_eq_true, not_true_eq_false, reduceCtorEq, ↓reduceIte, *]
    simp [errors.Wrap, fmt.Errorf, copy32_of_length, *]
  by_cases h9a : v9.length = 32
  swap
  · simp only [PVCSecretsFetcher.PopulateGithub, ↓SecretsClient.Get_bind, ↓Reader.ReadFile_bind,
      ↓Populate.pure_bind, string, resultPair_ok, resultPair_error, ne_eq,
      not_false_eq_true, not_true_eq_false, reduceCtorEq, ↓reduceIte, *]
    simp [errors.Wrap, fmt.Errorf, copy32_of_length, *]
  rcases h10 : psf.sc.get githubOAuthCookieEncKey with e | v10
  · simp only [PVCSecretsFetcher.PopulateGithub, ↓SecretsClient.Get_bind, ↓Reader.ReadFile_bind,
      ↓Populate.pure_bind, string, resultPair_ok, resultPair_error, ne_eq,
      not_false_eq_true, not_true_eq_false, reduceCtorEq, ↓reduceIte, *]
    simp [errors.Wrap, fmt.Errorf, copy32_of_length, *]
  by_cases h10a : v10.length = 32
  swap
  · simp only [PVCSecretsFetcher.PopulateGithub, ↓SecretsClient.Get_bind, ↓Reader.ReadFile_bind,
      ↓Populate.pure_bind, string, resultPair_ok, resultPair_error, ne_eq,
      not_false_eq_true, not_true_eq_false, reduceCtorEq, ↓reduceIte, *]
    simp [errors.Wrap, fmt.Errorf, copy32_of_length, *]
  rcases h11 : psf.sc.get githubOAuthUserTokenEncKey with e | v11
  · simp only [PVCSecretsFetcher.PopulateGithub, ↓SecretsClient.Get_bind, ↓Reader.ReadFile_bind,
      ↓Populate.pure_bind, string, resultPair_ok, resultPair_error, ne_eq,
      not_false_eq_true, not_true_eq_false, reduceCtorEq, ↓reduceIte, *]
    simp [errors.Wrap, fmt.Errorf, copy32_of_length, *]
  by_cases h11a : v11.length = 32
  swap
  · simp only [PVCSecretsFetcher.PopulateGithub, ↓SecretsClient.Get_bind, ↓Reader.ReadFile_bind,
      ↓Populate.pure_bind, string, resultPair_ok, resultPair_error, ne_eq,
      not_false_eq_true, not_true_eq_false, reduceCtorEq, ↓reduceIte, *]
    simp [errors.Wrap, fmt.Errorf, copy32_of_length, *]
  simp only [PVCSecretsFetcher.PopulateGithub, ↓SecretsClient.Get_bind, ↓Reader.ReadFile_bind,
    ↓Populate.pure_bind, string, resultPair_ok, resultPair_error, ne_eq,
    not_false_eq_true, not_true_eq_false, reduceCtorEq, ↓reduceIte, *]
  simp [errors.Wrap, fmt.Errorf, copy32_of_length, *]

/-- C18: each per-domain populate operation of the remote-client adapter is
idempotent for a fixed backend: run a second time on the object that the first
run left, it returns what the first run returned and leaves the object as the
first run left it, for every backend and every initial object, so also when the
run fails part-way after it has written some fields. -/
theorem Populate_twice_same (psf : PVCSecretsFetcher) (tls : TLSPackage) (pg : PGConfig)
    (aws : AWSCreds) (gh : GithubConfig) (slack : SlackConfig) (srv : ServerConfig) :
    ((psf.PopulatePG.run (psf.PopulatePG.run pg).obj).ret = (psf.PopulatePG.run pg).ret ∧
      (psf.PopulatePG.run (psf.PopulatePG.run pg).obj).obj = (psf.PopulatePG.run pg).obj) ∧
    ((psf.PopulateAWS.run (psf.PopulateAWS.run aws).obj).ret = (psf.PopulateAWS.run aws).ret ∧
      (psf.PopulateAWS.run (psf.PopulateAWS.run aws).obj).obj = (psf.PopulateAWS.run aws).obj) ∧
    ((psf.PopulateGithub.run (psf.PopulateGithub.run gh).obj).ret
        = (psf.PopulateGithub.run gh).ret ∧
      (psf.PopulateGithub.run (psf.PopulateGithub.run gh).obj).obj
        = (psf.PopulateGithub.run gh).obj) ∧
    ((psf.PopulateSlack.run (psf.PopulateSlack.run slack).obj).ret
        = (psf.PopulateSlack.run slack).ret ∧
      (psf.PopulateSlack.run (psf.PopulateSlack.run slack).obj).obj
        = (psf.PopulateSlack.run slack).obj) ∧
    (((psf.PopulateServer tls).run ((psf.PopulateServer tls).run srv).obj).ret
        = ((psf.PopulateServer tls).run srv).ret ∧
      ((psf.PopulateServer tls).run ((psf.PopulateServer tls).run srv).obj).obj
        = ((psf.PopulateServer tls).run srv).obj) :=
  ⟨PVCSecretsFetcher.PopulatePG_twice psf pg, PVCSecretsFetcher.PopulateAWS_twice psf aws,
    PVCSecretsFetcher.PopulateGithub_twice psf gh, PVCSecretsFetcher.PopulateSlack_twice psf slack,
    PVCSecretsFetcher.PopulateServer_twice psf tls srv⟩

/-- Witness of C18: with the backend whose app id is `0`, `PopulateGithub` fails
after it has written the hook secret and the token; a second run fails the same
way and leaves the same object. -/
theorem Populate_twice_same_witness :
    ((PVCSecretsFetcher.mk clientAppIdZero).PopulateGithub.run GithubConfig.zero).ret ≠ nil ∧
    ((PVCSecretsFetcher.mk clientAppIdZero).PopulateGithub.run GithubConfig.zero).obj
      = { GithubConfig.zero with HookSecret := ascii "x", Token := ascii "x" } ∧
    ((PVCSecretsFetcher.mk clientAppIdZero).PopulateGithub.run
        ((PVCSecretsFetcher.mk clientAppIdZero).PopulateGithub.run GithubConfig.zero).obj).obj
      = ((PVCSecretsFetcher.mk clientAppIdZero).PopulateGithub.run GithubConfig.zero).obj :=
  ⟨by decide, by decide,
   (Populate_twice_same ⟨clientAppIdZero⟩ sampleTLS Dest.zero.pg Dest.zero.aws GithubConfig.zero
      Dest.zero.slack Dest.zero.srv).2.2.1.2⟩

/-! ## The populate operations do not read the destination object -/

/-- Two runs of the remote `PopulatePG` on two objects. -/
theorem PVCSecretsFetcher.PopulatePG_independent (psf : PVCSecretsFetcher)
    (pg1 pg2 : PGConfig) :
    (psf.PopulatePG.run pg1).ret = (psf.PopulatePG.run pg2).ret ∧
    (psf.PopulatePG.run pg1).reqs = (psf.PopulatePG.run pg2).reqs ∧
    ((psf.PopulatePG.run pg1).obj.PostgresURI = (psf.PopulatePG.run pg2).obj.PostgresURI ∨
      ((psf.PopulatePG.run pg1).obj.PostgresURI = pg1.PostgresURI ∧ (psf.PopulatePG.run pg2).obj.PostgresURI = pg2.PostgresURI)) := by
  rcases h1 : psf.sc.get dbURIid with e | v1
  · simp only [PVCSecretsFetcher.PopulatePG, ↓SecretsClient.Get_bind, ↓Reader.ReadFile_bind,
      ↓Populate.pure_bind, string, resultPair_ok, resultPair_error, ne_eq,
      not_false_eq_true, not_true_eq_false, reduceCtorEq, ↓reduceIte, *]
    simp [errors.Wrap, fmt.Errorf]
  simp only [PVCSecretsFetcher.PopulatePG, ↓SecretsClient.Get_bind, ↓Reader.ReadFile_bind,
    ↓Populate.pure_bind, string, resultPair_ok, resultPair_error, ne_eq,
    not_false_eq_true, not_true_eq_false, reduceCtorEq, ↓reduceIte, *]
  simp [errors.Wrap, fmt.Errorf]

/-- Two runs of the remote `PopulateAWS` on two objects. -/
theorem PVCSecretsFetcher.PopulateAWS_independent (psf : PVCSecretsFetcher)
    (aws1 aws2 : AWSCreds) :
    (psf.PopulateAWS.run aws1).ret = (psf.PopulateAWS.run aws2).ret ∧
    (psf.PopulateAWS.run aws1).reqs = (psf.PopulateAWS.run aws2).reqs ∧
    ((psf.PopulateAWS.run aws1).obj.AccessKeyID = (psf.PopulateAWS.run aws2).obj.AccessKeyID ∨
      ((psf.PopulateAWS.run aws1).obj.AccessKeyID = aws1.AccessKeyID ∧ (psf.PopulateAWS.run aws2).obj.AccessKeyID = aws2.AccessKeyID)) ∧
    ((psf.PopulateAWS.run aws1).obj.SecretAccessKey = (psf.PopulateAWS.run aws2).obj.SecretAccessKey ∨
      ((psf.PopulateAWS.run aws1).obj.SecretAccessKey = aws1.SecretAccessKey ∧ (psf.PopulateAWS.run aws2).obj.SecretAccessKey = aws2.SecretAccessKey)) := by
  rcases h1 : psf.sc.get awsAccessKeyIDid with e | v1
  · simp only [PVCSecretsFetcher.PopulateAWS, ↓SecretsClient.Get_bind, ↓Reader.ReadFile_bind,
      ↓Populate.pure_bind, string, resultPair_ok, resultPair_error, ne_eq,
      not_false_eq_true, not_true_eq_false, reduceCtorEq, ↓reduceIte, *]
    simp [errors.Wrap, fmt.Errorf]
  rcases h2 : psf.sc.get awsSecretAccessKeyid with e | v2
  · simp only [PVCSecretsFetcher.PopulateAWS, ↓SecretsClient.Get_bind, ↓Reader.ReadFile_bind,
      ↓Populate.pure_bind, string, resultPair_ok, resultPair_error, ne_eq,
      not_false_eq_true, not_true_eq_false, reduceCtorEq, ↓reduceIte, *]
    simp [errors.Wrap, fmt.Errorf]
  simp only [PVCSecretsFetcher.PopulateAWS, ↓SecretsClient.Get_bind, ↓Reader.ReadFile_bind,
    ↓Populate.pure_bind, string, resultPair_ok, resultPair_error, ne_eq,
    not_false_eq_true, not_true_eq_false, reduceCtorEq, ↓reduceIte, *]
  simp [errors.Wrap, fmt.Errorf]

/-- Two runs of the remote `PopulateSlack` on two objects. -/
theorem PVCSecretsFetcher.PopulateSlack_independent (psf : PVCSecretsFetcher)
    (slack1 slack2 : SlackConfig) :
    (psf.PopulateSlack.run slack1).ret = (psf.PopulateSlack.run slack2).ret ∧
    (psf.PopulateSlack.run slack1).reqs = (psf.PopulateSlack.run slack2).reqs ∧
    ((psf.PopulateSlack.run slack1).obj.Token = (psf.PopulateSlack.run slack2).obj.Token ∨
      ((psf.PopulateSlack.run slack1).obj.Token = slack1.Token ∧ (psf.PopulateSlack.run slack2).obj.Token = slack2.Token)) := by
  rcases h1 : psf.sc.get slackTokenid with e | v1
  · simp only [PVCSecretsFetcher.PopulateSlack, ↓SecretsClient.Get_bind, ↓Reader.ReadFile_bind,
      ↓Populate.pure_bind, string, resultPair_ok, resultPair_error, ne_eq,
      not_false_eq_true, not_true_eq_false, reduceCtorEq, ↓reduceIte, *]
    simp [errors.Wrap, fmt.Errorf]
  simp only [PVCSecretsFetcher.PopulateSlack, ↓SecretsClient.Get_bind, ↓Reader.ReadFile_bind,
    ↓Populate.pure_bind, string, resultPair_ok, resultPair_error, ne_eq,
    not_false_eq_true, not_true_eq_false, reduceCtorEq, ↓reduceIte, *]
  simp [errors.Wrap, fmt.Errorf]

/-- Two runs of the remote `PopulateGithub` on two objects. -/
theorem PVCSecretsFetcher.PopulateGithub_independent (psf : PVCSecretsFetcher)
    (gh1 gh2 : GithubConfig) :
    (psf.PopulateGithub.run gh1).ret = (psf.PopulateGithub.run gh2).ret ∧
    (psf.PopulateGithub.run gh1).reqs = (psf.PopulateGithub.run gh2).reqs ∧
    ((psf.PopulateGithub.run gh1).obj.HookSecret = (psf.PopulateGithub.run gh2).obj.HookSecret ∨
      ((psf.PopulateGithub.run gh1).obj.HookSecret = gh1.HookSecret ∧ (psf.PopulateGithub.run gh2).obj.HookSecret = gh2.HookSecret)) ∧
    ((psf.PopulateGithub.run gh1).obj.Token = (psf.PopulateGithub.run gh2).obj.Token ∨
      ((psf.PopulateGithub.run gh1).obj.Token = gh1.Token ∧ (psf.PopulateGithub.run gh2).obj.Token = gh2.Token)) ∧
    ((psf.PopulateGithub.run gh1).obj.AppID = (psf.PopulateGithub.run gh2).obj.AppID ∨
      ((psf.PopulateGithub.run gh1).obj.AppID = gh1.AppID ∧ (psf.PopulateGithub.run gh2).obj.AppID = gh2.AppID)) ∧
    ((psf.PopulateGithub.run gh1).obj.PrivateKeyPEM = (psf.PopulateGithub.run gh2).obj.PrivateKeyPEM ∨
      ((psf.PopulateGithub.run gh1).obj.PrivateKeyPEM = gh1.PrivateKeyPEM ∧ (psf.PopulateGithub.run gh2).obj.PrivateKeyPEM = gh2.PrivateKeyPEM)) ∧
    ((psf.PopulateGithub.run gh1).obj.AppHookSecret = (psf.PopulateGithub.run gh2).obj.AppHookSecret ∨
      ((psf.PopulateGithub.run gh1).obj.AppHookSecret = gh1.AppHookSecret ∧ (psf.PopulateGithub.run gh2).obj.AppHookSecret = gh2.AppHookSecret)) ∧
    ((psf.PopulateGithub.run gh1).obj.OAuth.AppInstallationID = (psf.PopulateGithub.run gh2).obj.OAuth.AppInstallationID ∨
      ((psf.PopulateGithub.run gh1).obj.OAuth.AppInstallationID = gh1.OAuth.AppInstallationID ∧ (psf.PopulateGithub.run gh2).obj.OAuth.AppInstallationID = gh2.OAuth.AppInstallationID)) ∧
    ((psf.PopulateGithub.run gh1).obj.OAuth.ClientID = (psf.PopulateGithub.run gh2).obj.OAuth.ClientID ∨
      ((psf.PopulateGithub.run gh1).obj.OAuth.ClientID = gh1.OAuth.ClientID ∧ (psf.PopulateGithub.run gh2).obj.OAuth.ClientID = gh2.OAuth.ClientID)) ∧
    ((psf.PopulateGithub.run gh1).obj.OAuth.ClientSecret = (psf.PopulateGithub.run gh2).obj.OAuth.ClientSecret ∨
      ((psf.PopulateGithub.run gh1).obj.OAuth.ClientSecret = gh1.OAuth.ClientSecret ∧ (psf.PopulateGithub.run gh2).obj.OAuth.ClientSecret = gh2.OAuth.ClientSecret)) ∧
    ((psf.PopulateGithub.run gh1).obj.OAuth.CookieAuthKey = (psf.PopulateGithub.run gh2).obj.OAuth.CookieAuthKey ∨
      ((psf.PopulateGithub.run gh1).obj.OAuth.CookieAuthKey = gh1.OAuth.CookieAuthKey ∧ (psf.PopulateGithub.run gh2).obj.OAuth.CookieAuthKey = gh2.OAuth.CookieAuthKey)) ∧
    ((psf.PopulateGithub.run gh1).obj.OAuth.CookieEncKey = (psf.PopulateGithub.run gh2).obj.OAuth.CookieEncKey ∨
      ((psf.PopulateGithub.run gh1).obj.OAuth.CookieEncKey = gh1.OAuth.CookieEncKey ∧ (psf.PopulateGithub.run gh2).obj.OAuth.CookieEncKey = gh2.OAuth.CookieEncKey)) ∧
    ((psf.PopulateGithub.run gh1).obj.OAuth.UserTokenEncKey = (psf.PopulateGithub.run gh2).obj.OAuth.UserTokenEncKey ∨
      ((psf.PopulateGithub.run gh1).obj.OAuth.UserTokenEncKey = gh1.OAuth.UserTokenEncKey ∧ (psf.PopulateGithub.run gh2).obj.OAuth.UserTokenEncKey = gh2.OAuth.UserTokenEncKey)) := by
  rcases h1 : psf.sc.get githubHookSecretid with e | v1
  · simp only [PVCSecretsFetcher.PopulateGithub, ↓SecretsClient.Get_bind, ↓Reader.ReadFile_bind,
      ↓Populate.pure_bind, string, resultPair_ok, resultPair_error, ne_eq,
      not_false_eq_true, not_true_eq_false, reduceCtorEq, ↓reduceIte, *]
    simp [errors.Wrap, fmt.Errorf, copy32_of_length, *]
  rcases h2 : psf.sc.get githubTokenid with e | v2
  · simp only [PVCSecretsFetcher.PopulateGithub, ↓SecretsClient.Get_bind, ↓Reader.ReadFile_bind,
      ↓Populate.pure_bind, string, resultPair_ok, resultPair_error, ne_eq,
      not_false_eq_true, not_true_eq_false, reduceCtorEq, ↓reduceIte, *]
    simp [errors.Wrap, fmt.Errorf, copy32_of_length, *]
  rcases h3 : psf.sc.get githubAppID with e | v3
  · simp only [PVCSecretsFetcher.PopulateGithub, ↓SecretsClient.Get_bind, ↓Reader.ReadFile_bind,
      ↓Populate.pure_bind, string, resultPair_ok, resultPair_error, ne_eq,
      not_false_eq_true, not_true_eq_false, reduceCtorEq, ↓reduceIte, *]
    simp [errors.Wrap, fmt.Errorf, copy32_of_length, *]
  rcases h3a : strconv.Atoi v3 with ⟨n3, _ | e⟩
  swap
  · simp only [PVCSecretsFetcher.PopulateGithub, ↓SecretsClient.Get_bind, ↓Reader.ReadFile_bind,
      ↓Populate.pure_bind, string, resultPair_ok, resultPair_error, ne_eq,
      not_false_eq_true, not_true_eq_false, reduceCtorEq, ↓reduceIte, *]
    simp [errors.Wrap, fmt.Errorf, copy32_of_length, *]
  by_cases h3b : n3 < 1
  · simp only [PVCSecretsFetcher.PopulateGithub, ↓SecretsClient.Get_bind, ↓Reader.ReadFile_bind,
      ↓Populate.pure_bind, string, resultPair_ok, resultPair_error, ne_eq,
      not_false_eq_true, not_true_eq_false, reduceCtorEq, ↓reduceIte, *]
    simp [errors.Wrap, fmt.Errorf, copy32_of_length, *]
  have h3c : 1 ≤ n3 := by omega
  rcases h4 : psf.sc.get githubAppPK with e | v4
  · simp only [PVCSecretsFetcher.PopulateGithub, ↓SecretsClient.Get_bind, ↓Reader.ReadFile_bind,
      ↓Populate.pure_bind, string, resultPair_ok, resultPair_error, ne_eq,
      not_false_eq_true, not_true_eq_false, reduceCtorEq, ↓reduceIte, *]
    simp [errors.Wrap, fmt.Errorf, copy32_of_length, *]
  rcases h5 : psf.sc.get githubAppHookSecret with e | v5
  · simp only [PVCSecretsFetcher.PopulateGithub, ↓SecretsClient.Get_bind, ↓Reader.ReadFile_bind,
      ↓Populate.pure_bind, string, resultPair_ok, resultPair_error, ne_eq,
      not_false_eq_true, not_true_eq_false, reduceCtorEq, ↓reduceIte, *]
    simp [errors.Wrap, fmt.Errorf, copy32_of_length, *]
  rcases h6 : psf.sc.get githubOAuthInstID with e | v6
  · simp only [PVCSecretsFetcher.PopulateGithub, ↓SecretsClient.Get_bind, ↓Reader.ReadFile_bind,
      ↓Populate.pure_bind, string, resultPair_ok, resultPair_error, ne_eq,
      not_false_eq_true, not_true_eq_false, reduceCtorEq, ↓reduceIte, *]
    simp [errors.Wrap, fmt.Errorf, copy32_of_length, *]
  rcases h6a : strconv.Atoi v6 with ⟨n6, _ | e⟩
  swap
  · simp only [PVCSecretsFetcher.PopulateGithub, ↓SecretsClient.Get_bind, ↓Reader.ReadFile_bind,
      ↓Populate.pure_bind, string, resultPair_ok, resultPair_error, ne_eq,
      not_false_eq_true, not_true_eq_false, reduceCtorEq, ↓reduceIte, *]
    simp [errors.Wrap, fmt.Errorf, copy32_of_length, *]
  by_cases h6b : n6 < 1
  · simp only [PVCSecretsFetcher.PopulateGithub, ↓SecretsClient.Get_bind, ↓Reader.ReadFile_bind,
      ↓Populate.pure_bind, string, resultPair_ok, resultPair_error, ne_eq,
      not_false_eq_true, not_true_eq_false, reduceCtorEq, ↓reduceIte, *]
    simp [errors.Wrap, fmt.Errorf, copy32_of_length, *]
  have h6c : 1 ≤ n6 := by omega
  rcases h7 : psf.sc.get githubOAuthClientID with e | v7
  · simp only [PVCSecretsFetcher.PopulateGithub, ↓SecretsClient.Get_bind, ↓Reader.ReadFile_bind,
      ↓Populate.pure_bind, string, resultPair_ok, resultPair_error, ne_eq,
      not_false_eq_true, not_true_eq_false, reduceCtorEq, ↓reduceIte, *]
    simp [errors.Wrap, fmt.Errorf, copy32_of_length, *]
  rcases h8 : psf.sc.get githubOAuthClientSecret with e | v8
  · simp only [PVCSecretsFetcher.PopulateGithub, ↓SecretsClient.Get_bind, ↓Reader.ReadFile_bind,
      ↓Populate.pure_bind, string, resultPair_ok, resultPair_error, ne_eq,
      not_false_eq_true, not_true_eq_false, reduceCtorEq, ↓reduceIte, *]
    simp [errors.Wrap, fmt.Errorf, copy32_of_length, *]
  rcases h9 : psf.sc.get githubOAuthCookieAuthKey with e | v9
  · simp only [PVCSecretsFetcher.PopulateGithub, ↓SecretsClient.Get_bind, ↓Reader.ReadFile_bind,
      ↓Populate.pure_bind, string, resultPair_ok, resultPair_error, ne_eq,
      not_false_eq_true, not_true_eq_false, reduceCtorEq, ↓reduceIte, *]
    simp [errors.Wrap, fmt.Errorf, copy32_of_length, *]
  by_cases h9a : v9.length = 32
  swap
  · simp only [PVCSecretsFetcher.PopulateGithub, ↓SecretsClient.Get_bind, ↓Reader.ReadFile_bind,
      ↓Populate.pure_bind, string, resultPair_ok, resultPair_error, ne_eq,
      not_false_eq_true, not_true_eq_false, reduceCtorEq, ↓reduceIte, *]
    simp [errors.Wrap, fmt.Errorf, copy32_of_length, *]
  rcases h10 : psf.sc.get githubOAuthCookieEncKey with e | v10
  · simp only [PVCSecretsFetcher.PopulateGithub, ↓SecretsClient.Get_bind, ↓Reader.ReadFile_bind,
      ↓Populate.pure_bind, string, resultPair_ok, resultPair_error, ne_eq,
      not_false_eq_true, not_true_eq_false, reduceCtorEq, ↓reduceIte, *]
    simp [errors.Wrap, fmt.Errorf, copy32_of_length, *]
  by_cases h10a : v10.length = 32
  swap
  · simp only [PVCSecretsFetcher.PopulateGithub, ↓SecretsClient.Get_bind, ↓Reader.ReadFile_bind,
      ↓Populate.pure_bind, string, resultPair_ok, resultPair_error, ne_eq,
      not_false_eq_true, not_true_eq_false, reduceCtorEq, ↓reduceIte, *]
    simp [errors.Wrap, fmt.Errorf, copy32_of_length, *]
  rcases h11 : psf.sc.get githubOAuthUserTokenEncKey with e | v11
  · simp only [PVCSecretsFetcher.PopulateGithub, ↓SecretsClient.Get_bind, ↓Reader.ReadFile_bind,
      ↓Populate.pure_bind, string, resultPair_ok, resultPair_error, ne_eq,
      not_false_eq_true, not_true_eq_false, reduceCtorEq, ↓reduceIte, *]
    simp [errors.Wrap, fmt.Errorf, copy32_of_length, *]
  by_cases h11a : v11.length = 32
  swap
  · simp only [PVCSecretsFetcher.PopulateGithub, ↓SecretsClient.Get_bind, ↓Reader.ReadFile_bind,
      ↓Populate.pure_bind, string, resultPair_ok, resultPair_error, ne_eq,
      not_false_eq_true, not_true_eq_false, reduceCtorEq, ↓reduceIte, *]
    simp [errors.Wrap, fmt.Errorf, copy32_of_length, *]
  simp only [PVCSecretsFetcher.PopulateGithub, ↓SecretsClient.Get_bind, ↓Reader.ReadFile_bind,
    ↓Populate.pure_bind, string, resultPair_ok, resultPair_error, ne_eq,
    not_false_eq_true, not_true_eq_false, reduceCtorEq, ↓reduceIte, *]
  simp [errors.Wrap, fmt.Errorf, copy32_of_length, *]

/-- Two runs of the remote `PopulateServer` on two objects with the same
`DisableTLS`. -/
theorem PVCSecretsFetcher.PopulateServer_independent (psf : PVCSecretsFetcher) (tls : TLSPackage)
    (srv1 srv2 : ServerConfig)
    (h : srv1.DisableTLS = srv2.DisableTLS) :
    ((psf.PopulateServer tls).run srv1).ret = ((psf.PopulateServer tls).run srv2).ret ∧
    ((psf.PopulateServer tls).run srv1).reqs = ((psf.PopulateServer tls).run srv2).reqs ∧
    (((psf.PopulateServer tls).run srv1).obj.APIKeys = ((psf.PopulateServer tls).run srv2).obj.APIKeys ∨
      (((psf.PopulateServer tls).run srv1).obj.APIKeys = srv1.APIKeys ∧ ((psf.PopulateServer tls).run srv2).obj.APIKeys = srv2.APIKeys)) ∧
    (((psf.PopulateServer tls).run srv1).obj.TLSCert = ((psf.PopulateServer tls).run srv2).obj.TLSCert ∨
      (((psf.PopulateServer tls).run srv1).obj.TLSCert = srv1.TLSCert ∧ ((psf.PopulateServer tls).run srv2).obj.TLSCert = srv2.TLSCert)) := by
  rcases h1 : psf.sc.get apiKeysid with e | v1
  · simp only [PVCSecretsFetcher.PopulateServer, ↓SecretsClient.Get_bind, ↓Reader.ReadFile_bind,
      ↓Populate.pure_bind, string, resultPair_ok, resultPair_error, ne_eq,
      not_false_eq_true, not_true_eq_false, reduceCtorEq, ↓reduceIte, *]
    simp [errors.Wrap, fmt.Errorf, h]
  rcases hD : srv2.DisableTLS
  swap
  · simp only [PVCSecretsFetcher.PopulateServer, ↓SecretsClient.Get_bind, ↓Reader.ReadFile_bind,
      ↓Populate.pure_bind, string, resultPair_ok, resultPair_error, ne_eq,
      not_false_eq_true, not_true_eq_false, reduceCtorEq, ↓reduceIte, *]
    simp [errors.Wrap, fmt.Errorf, hD, h]
  rcases h2 : psf.sc.get tlsCertid with e | v2
  · simp only [PVCSecretsFetcher.PopulateServer, ↓SecretsClient.Get_bind, ↓Reader.ReadFile_bind,
      ↓Populate.pure_bind, string, resultPair_ok, resultPair_error, ne_eq,
      not_false_eq_true, not_true_eq_false, reduceCtorEq, ↓reduceIte, *]
    simp [errors.Wrap, fmt.Errorf, hD, h]
  rcases h3 : psf.sc.get tlsKeyid with e | v3
  · simp only [PVCSecretsFetcher.PopulateServer, ↓SecretsClient.Get_bind, ↓Reader.ReadFile_bind,
      ↓Populate.pure_bind, string, resultPair_ok, resultPair_error, ne_eq,
      not_false_eq_true, not_true_eq_false, reduceCtorEq, ↓reduceIte, *]
    simp [errors.Wrap, fmt.Errorf, hD, h]
  rcases hx : tls.X509KeyPair v2 v3 with ⟨cert, _ | e⟩
  · simp only [PVCSecretsFetcher.PopulateServer, ↓SecretsClient.Get_bind, ↓Reader.ReadFile_bind,
      ↓Populate.pure_bind, string, resultPair_ok, resultPair_error, ne_eq,
      not_false_eq_true, not_true_eq_false, reduceCtorEq, ↓reduceIte, *]
    simp [errors.Wrap, fmt.Errorf, hD, h]
  simp only [PVCSecretsFetcher.PopulateServer, ↓SecretsClient.Get_bind, ↓Reader.ReadFile_bind,
    ↓Populate.pure_bind, string, resultPair_ok, resultPair_error, ne_eq,
    not_false_eq_true, not_true_eq_false, reduceCtorEq, ↓reduceIte, *]
  simp [errors.Wrap, fmt.Errorf, hD, h]

/-- C16: the per-domain populate operations of the remote-client adapter read no
value of the destination object other than `srv.DisableTLS`: for any two runs of
an operation against the same backend on two initial objects (for
`PopulateServer`, two objects with the same `DisableTLS`), the returned error
and the sequence of ids requested are the same, and each field either has the
same value after both runs or was written by neither run and holds its initial
value in both. -/
theorem Populate_reads_only_DisableTLS (psf : PVCSecretsFetcher) (tls : TLSPackage) :
    (∀ pg1 pg2 : PGConfig,
      (psf.PopulatePG.run pg1).ret = (psf.PopulatePG.run pg2).ret ∧
      (psf.PopulatePG.run pg1).reqs = (psf.PopulatePG.run pg2).reqs ∧
      ((psf.PopulatePG.run pg1).obj.PostgresURI = (psf.PopulatePG.run pg2).obj.PostgresURI ∨
        ((psf.PopulatePG.run pg1).obj.PostgresURI = pg1.PostgresURI ∧ (psf.PopulatePG.run pg2).obj.PostgresURI = pg2.PostgresURI))) ∧
    (∀ aws1 aws2 : AWSCreds,
      (psf.PopulateAWS.run aws1).ret = (psf.PopulateAWS.run aws2).ret ∧
      (psf.PopulateAWS.run aws1).reqs = (psf.PopulateAWS.run aws2).reqs ∧
      ((psf.PopulateAWS.run aws1).obj.AccessKeyID = (psf.PopulateAWS.run aws2).obj.AccessKeyID ∨
        ((psf.PopulateAWS.run aws1).obj.AccessKeyID = aws1.AccessKeyID ∧ (psf.PopulateAWS.run aws2).obj.AccessKeyID = aws2.AccessKeyID)) ∧
      ((psf.PopulateAWS.run aws1).obj.SecretAccessKey = (psf.PopulateAWS.run aws2).obj.SecretAccessKey ∨
        ((psf.PopulateAWS.run aws1).obj.SecretAccessKey = aws1.SecretAccessKey ∧ (psf.PopulateAWS.run aws2).obj.SecretAccessKey = aws2.SecretAccessKey))) ∧
    (∀ gh1 gh2 : GithubConfig,
      (psf.PopulateGithub.run gh1).ret = (psf.PopulateGithub.run gh2).ret ∧
      (psf.PopulateGithub.run gh1).reqs = (psf.PopulateGithub.run gh2).reqs ∧
      ((psf.PopulateGithub.run gh1).obj.HookSecret = (psf.PopulateGithub.run gh2).obj.HookSecret ∨
        ((psf.PopulateGithub.run gh1).obj.HookSecret = gh1.HookSecret ∧ (psf.PopulateGithub.run gh2).obj.HookSecret = gh2.HookSecret)) ∧
      ((psf.PopulateGithub.run gh1).obj.Token = (psf.PopulateGithub.run gh2).obj.Token ∨
        ((psf.PopulateGithub.run gh1).obj.Token = gh1.Token ∧ (psf.PopulateGithub.run gh2).obj.Token = gh2.Token)) ∧
      ((psf.PopulateGithub.run gh1).obj.AppID = (psf.PopulateGithub.run gh2).obj.AppID ∨
        ((psf.PopulateGithub.run gh1).obj.AppID = gh1.AppID ∧ (psf.PopulateGithub.run gh2).obj.AppID = gh2.AppID)) ∧
      ((psf.PopulateGithub.run gh1).obj.PrivateKeyPEM = (psf.PopulateGithub.run gh2).obj.PrivateKeyPEM ∨
        ((psf.PopulateGithub.run gh1).obj.PrivateKeyPEM = gh1.PrivateKeyPEM ∧ (psf.PopulateGithub.run gh2).obj.PrivateKeyPEM = gh2.PrivateKeyPEM)) ∧
      ((psf.PopulateGithub.run gh1).obj.AppHookSecret = (psf.PopulateGithub.run gh2).obj.AppHookSecret ∨
        ((psf.PopulateGithub.run gh1).obj.AppHookSecret = gh1.AppHookSecret ∧ (psf.PopulateGithub.run gh2).obj.AppHookSecret = gh2.AppHookSecret)) ∧
      ((psf.PopulateGithub.run gh1).obj.OAuth.AppInstallationID = (psf.PopulateGithub.run gh2).obj.OAuth.AppInstallationID ∨
        ((psf.PopulateGithub.run gh1).obj.OAuth.AppInstallationID = gh1.OAuth.AppInstallationID ∧ (psf.PopulateGithub.run gh2).obj.OAuth.AppInstallationID = gh2.OAuth.AppInstallationID)) ∧
      ((psf.PopulateGithub.run gh1).obj.OAuth.ClientID = (psf.PopulateGithub.run gh2).obj.OAuth.ClientID ∨
        ((psf.PopulateGithub.run gh1).obj.OAuth.ClientID = gh1.OAuth.ClientID ∧ (psf.PopulateGithub.run gh2).obj.OAuth.ClientID = gh2.OAuth.ClientID)) ∧
      ((psf.PopulateGithub.run gh1).obj.OAuth.ClientSecret = (psf.PopulateGithub.run gh2).obj.OAuth.ClientSecret ∨
        ((psf.PopulateGithub.run gh1).obj.OAuth.ClientSecret = gh1.OAuth.ClientSecret ∧ (psf.PopulateGithub.run gh2).obj.OAuth.ClientSecret = gh2.OAuth.ClientSecret)) ∧
      ((psf.PopulateGithub.run gh1).obj.OAuth.CookieAuthKey = (psf.PopulateGithub.run gh2).obj.OAuth.CookieAuthKey ∨
        ((psf.PopulateGithub.run gh1).obj.OAuth.CookieAuthKey = gh1.OAuth.CookieAuthKey ∧ (psf.PopulateGithub.run gh2).obj.OAuth.CookieAuthKey = gh2.OAuth.CookieAuthKey)) ∧
      ((psf.PopulateGithub.run gh1).obj.OAuth.CookieEncKey = (psf.PopulateGithub.run gh2).obj.OAuth.CookieEncKey ∨
        ((psf.PopulateGithub.run gh1).obj.OAuth.CookieEncKey = gh1.OAuth.CookieEncKey ∧ (psf.PopulateGithub.run gh2).obj.OAuth.CookieEncKey = gh2.OAuth.CookieEncKey)) ∧
      ((psf.PopulateGithub.run gh1).obj.OAuth.UserTokenEncKey = (psf.PopulateGithub.run gh2).obj.OAuth.UserTokenEncKey ∨
        ((psf.PopulateGithub.run gh1).obj.OAuth.UserTokenEncKey = gh1.OAuth.UserTokenEncKey ∧ (psf.PopulateGithub.run gh2).obj.OAuth.UserTokenEncKey = gh2.OAuth.UserTokenEncKey))) ∧
    (∀ slack1 slack2 : SlackConfig,
      (psf.PopulateSlack.run slack1).ret = (psf.PopulateSlack.run slack2).ret ∧
      (psf.PopulateSlack.run slack1).reqs = (psf.PopulateSlack.run slack2).reqs ∧
      ((psf.PopulateSlack.run slack1).obj.Token = (psf.PopulateSlack.run slack2).obj.Token ∨
        ((psf.PopulateSlack.run slack1).obj.Token = slack1.Token ∧ (psf.PopulateSlack.run slack2).obj.Token = slack2.Token))) ∧
    (∀ srv1 srv2 : ServerConfig, srv1.DisableTLS = srv2.DisableTLS →
      ((psf.PopulateServer tls).run srv1).ret = ((psf.PopulateServer tls).run srv2).ret ∧
      ((psf.PopulateServer tls).run srv1).reqs = ((psf.PopulateServer tls).run srv2).reqs ∧
      (((psf.PopulateServer tls).run srv1).obj.APIKeys = ((psf.PopulateServer tls).run srv2).obj.APIKeys ∨
        (((psf.PopulateServer tls).run srv1).obj.APIKeys = srv1.APIKeys ∧ ((psf.PopulateServer tls).run srv2).obj.APIKeys = srv2.APIKeys)) ∧
      (((psf.PopulateServer tls).run srv1).obj.TLSCert = ((psf.PopulateServer tls).run srv2).obj.TLSCert ∨
        (((psf.PopulateServer tls).run srv1).obj.TLSCert = srv1.TLSCert ∧ ((psf.PopulateServer tls).run srv2).obj.TLSCert = srv2.TLSCert))) :=
  ⟨fun pg1 pg2 => PVCSecretsFetcher.PopulatePG_independent psf pg1 pg2,
   fun aws1 aws2 => PVCSecretsFetcher.PopulateAWS_independent psf aws1 aws2,
   fun gh1 gh2 => PVCSecretsFetcher.PopulateGithub_independent psf gh1 gh2,
   fun slack1 slack2 => PVCSecretsFetcher.PopulateSlack_independent psf slack1 slack2,
   fun srv1 srv2 h => PVCSecretsFetcher.PopulateServer_independent psf tls srv1 srv2 h⟩

/-- Witness of C16: `PopulateGithub` against the backend with app id `0`, run on
the zero object and on an object with other values: the same error, the same
three requests, and the same hook secret after both runs. -/
theorem Populate_reads_only_DisableTLS_witness :
    ((PVCSecretsFetcher.mk clientAppIdZero).PopulateGithub.run GithubConfig.zero).ret =
      ((PVCSecretsFetcher.mk clientAppIdZero).PopulateGithub.run
        { GithubConfig.zero with HookSecret := ascii "old", AppID := 9 }).ret ∧
    ((PVCSecretsFetcher.mk clientAppIdZero).PopulateGithub.run GithubConfig.zero).reqs =
      ((PVCSecretsFetcher.mk clientAppIdZero).PopulateGithub.run
        { GithubConfig.zero with HookSecret := ascii "old", AppID := 9 }).reqs ∧
    ((PVCSecretsFetcher.mk clientAppIdZero).PopulateGithub.run
        { GithubConfig.zero with HookSecret := ascii "old", AppID := 9 }).obj.HookSecret
      = ascii "x" ∧
    ((PVCSecretsFetcher.mk clientAppIdZero).PopulateGithub.run
        { GithubConfig.zero with HookSecret := ascii "old", AppID := 9 }).obj.AppID = 9 :=
  ⟨((Populate_reads_only_DisableTLS ⟨clientAppIdZero⟩ sampleTLS).2.2.1 GithubConfig.zero
      { GithubConfig.zero with HookSecret := ascii "old", AppID := 9 }).1,
   ((Populate_reads_only_DisableTLS ⟨clientAppIdZero⟩ sampleTLS).2.2.1 GithubConfig.zero
      { GithubConfig.zero with HookSecret := ascii "old", AppID := 9 }).2.1,
   by decide, by decide⟩

/-! ## The two adapters on the same secrets -/

/-- `PopulatePG` of the two adapters on the same secrets. -/
theorem PopulatePG_adapters_agree (psf : PVCSecretsFetcher) (iof : IOReaderSecretsFetcher)
    (pg : PGConfig) (h : SameAnswers psf iof) :
    ((iof.PopulatePG).run pg).ret = ((psf.PopulatePG).run pg).ret ∧ ((iof.PopulatePG).run pg).obj = ((psf.PopulatePG).run pg).obj := by
  unfold SameAnswers at h
  obtain ⟨a1, a2, a3, a4, a5, a6, a7, a8, a9, a10, a11, a12, a13, a14, a15, a16, a17, a18⟩ := h
  rcases h1 : psf.sc.get dbURIid with e | v1
  · simp only [PVCSecretsFetcher.PopulatePG, IOReaderSecretsFetcher.PopulatePG, ↓SecretsClient.Get_bind, ↓Reader.ReadFile_bind,
      ↓Populate.pure_bind, string, resultPair_ok, resultPair_error, ne_eq,
      not_false_eq_true, not_true_eq_false, reduceCtorEq, ↓reduceIte, *]
    simp [errors.Wrap, fmt.Errorf]
  simp only [PVCSecretsFetcher.PopulatePG, IOReaderSecretsFetcher.PopulatePG, ↓SecretsClient.Get_bind, ↓Reader.ReadFile_bind,
    ↓Populate.pure_bind, string, resultPair_ok, resultPair_error, ne_eq,
    not_false_eq_true, not_true_eq_false, reduceCtorEq, ↓reduceIte, *]
  simp [errors.Wrap, fmt.Errorf]

/-- `PopulateAWS` of the two adapters on the same secrets. -/
theorem PopulateAWS_adapters_agree (psf : PVCSecretsFetcher) (iof : IOReaderSecretsFetcher)
    (aws : AWSCreds) (h : SameAnswers psf iof) :
    ((iof.PopulateAWS).run aws).ret = ((psf.PopulateAWS).run aws).ret ∧ ((iof.PopulateAWS).run aws).obj = ((psf.PopulateAWS).run aws).obj := by
  unfold SameAnswers at h
  obtain ⟨a1, a2, a3, a4, a5, a6, a7, a8, a9, a10, a11, a12, a13, a14, a15, a16, a17, a18⟩ := h
  rcases h1 : psf.sc.get awsAccessKeyIDid with e | v1
  · simp only [PVCSecretsFetcher.PopulateAWS, IOReaderSecretsFetcher.PopulateAWS, ↓SecretsClient.Get_bind, ↓Reader.ReadFile_bind,
      ↓Populate.pure_bind, string, resultPair_ok, resultPair_error, ne_eq,
      not_false_eq_true, not_true_eq_false, reduceCtorEq, ↓reduceIte, *]
    simp [errors.Wrap, fmt.Errorf]
  rcases h2 : psf.sc.get awsSecretAccessKeyid with e | v2
  · simp only [PVCSecretsFetcher.PopulateAWS, IOReaderSecretsFetcher.PopulateAWS, ↓SecretsClient.Get_bind, ↓Reader.ReadFile_bind,
      ↓Populate.pure_bind, string, resultPair_ok, resultPair_error, ne_eq,
      not_false_eq_true, not_true_eq_false, reduceCtorEq, ↓reduceIte, *]
    simp [errors.Wrap, fmt.Errorf]
  simp only [PVCSecretsFetcher.PopulateAWS, IOReaderSecretsFetcher.PopulateAWS, ↓SecretsClient.Get_bind, ↓Reader.ReadFile_bind,
    ↓Populate.pure_bind, string, resultPair_ok, resultPair_error, ne_eq,
    not_false_eq_true, not_true_eq_false, reduceCtorEq, ↓reduceIte, *]
  simp [errors.Wrap, fmt.Errorf]

/-- `PopulateSlack` of the two adapters on the same secrets. -/
theorem PopulateSlack_adapters_agree (psf : PVCSecretsFetcher) (iof : IOReaderSecretsFetcher)
    (slack : SlackConfig) (h : SameAnswers psf iof) :
    ((iof.PopulateSlack).run slack).ret = ((psf.PopulateSlack).run slack).ret ∧ ((iof.PopulateSlack).run slack).obj = ((psf.PopulateSlack).run slack).obj := by
  unfold SameAnswers at h
  obtain ⟨a1, a2, a3, a4, a5, a6, a7, a8, a9, a10, a11, a12, a13, a14, a15, a16, a17, a18⟩ := h
  rcases h1 : psf.sc.get slackTokenid with e | v1
  · simp only [PVCSecretsFetcher.PopulateSlack, IOReaderSecretsFetcher.PopulateSlack, ↓SecretsClient.Get_bind, ↓Reader.ReadFile_bind,
      ↓Populate.pure_bind, string, resultPair_ok, resultPair_error, ne_eq,
      not_false_eq_true, not_true_eq_false, reduceCtorEq, ↓reduceIte, *]
    simp [errors.Wrap, fmt.Errorf]
  simp only [PVCSecretsFetcher.PopulateSlack, IOReaderSecretsFetcher.PopulateSlack, ↓SecretsClient.Get_bind, ↓Reader.ReadFile_bind,
    ↓Populate.pure_bind, string, resultPair_ok, resultPair_error, ne_eq,
    not_false_eq_true, not_true_eq_false, reduceCtorEq, ↓reduceIte, *]
  simp [errors.Wrap, fmt.Errorf]

/-- `PopulateGithub` of the two adapters on the same secrets, when in addition
the path `/vault/secrets/`, which the file adapter reads for the app id, the
installation id and the client id, answers what the client answers for each of
these three ids. -/
theorem PopulateGithub_adapters_agree (psf : PVCSecretsFetcher) (iof : IOReaderSecretsFetcher)
    (gh : GithubConfig) (h : SameAnswers psf iof)
    (happ : iof.r.readFile "/vault/secrets/" = psf.sc.get githubAppID)
    (hinst : iof.r.readFile "/vault/secrets/" = psf.sc.get githubOAuthInstID)
    (hclient : iof.r.readFile "/vault/secrets/" = psf.sc.get githubOAuthClientID) :
    ((iof.PopulateGithub).run gh).ret = ((psf.PopulateGithub).run gh).ret ∧ ((iof.PopulateGithub).run gh).obj = ((psf.PopulateGithub).run gh).obj := by
  unfold SameAnswers at h
  obtain ⟨a1, a2, a3, a4, _, a6, a7, _, _, a10, a11, a12, a13, a14, a15, a16, a17, a18⟩ := h
  have a5 : iof.r.readFile (vaultSecrets.index "rootPath" ++ vaultSecrets.index "githubAppId")
      = psf.sc.get githubAppID := happ
  have a8 : iof.r.readFile (vaultSecrets.index "rootPath" ++ vaultSecrets.index "githubOAuthInstId")
      = psf.sc.get githubOAuthInstID := hinst
  have a9 : iof.r.readFile (vaultSecrets.index "rootPath" ++ vaultSecrets.index "githubOAuthClientId")
      = psf.sc.get githubOAuthClientID := hclient
  clear happ hinst hclient
  rcases h1 : psf.sc.get githubHookSecretid with e | v1
  · simp only [PVCSecretsFetcher.PopulateGithub, IOReaderSecretsFetcher.PopulateGithub, ↓SecretsClient.Get_bind, ↓Reader.ReadFile_bind,
      ↓Populate.pure_bind, string, resultPair_ok, resultPair_error, ne_eq,
      not_false_eq_true, not_true_eq_false, reduceCtorEq, ↓reduceIte, *]
    simp [errors.Wrap, fmt.Errorf]
  rcases h2 : psf.sc.get githubTokenid with e | v2
  · simp only [PVCSecretsFetcher.PopulateGithub, IOReaderSecretsFetcher.PopulateGithub, ↓SecretsClient.Get_bind, ↓Reader.ReadFile_bind,
      ↓Populate.pure_bind, string, resultPair_ok, resultPair_error, ne_eq,
      not_false_eq_true, not_true_eq_false, reduceCtorEq, ↓reduceIte, *]
    simp [errors.Wrap, fmt.Errorf]
  rcases h3 : psf.sc.get githubAppID with e | v3
  · simp only [PVCSecretsFetcher.PopulateGithub, IOReaderSecretsFetcher.PopulateGithub, ↓SecretsClient.Get_bind, ↓Reader.ReadFile_bind,
      ↓Populate.pure_bind, string, resultPair_ok, resultPair_error, ne_eq,
      not_false_eq_true, not_true_eq_false, reduceCtorEq, ↓reduceIte, *]
    simp [errors.Wrap, fmt.Errorf]
  rcases h3a : strconv.Atoi v3 with ⟨n3, _ | e⟩
  swap
  · simp only [PVCSecretsFetcher.PopulateGithub, IOReaderSecretsFetcher.PopulateGithub, ↓SecretsClient.Get_bind, ↓Reader.ReadFile_bind,
      ↓Populate.pure_bind, string, resultPair_ok, resultPair_error, ne_eq,
      not_false_eq_true, not_true_eq_false, reduceCtorEq, ↓reduceIte, *]
    simp [errors.Wrap, fmt.Errorf]
  by_cases h3b : n3 < 1
  · simp only [PVCSecretsFetcher.PopulateGithub, IOReaderSecretsFetcher.PopulateGithub, ↓SecretsClient.Get_bind, ↓Reader.ReadFile_bind,
      ↓Populate.pure_bind, string, resultPair_ok, resultPair_error, ne_eq,
      not_false_eq_true, not_true_eq_false, reduceCtorEq, ↓reduceIte, *]
    simp [errors.Wrap, fmt.Errorf]
  have h3c : 1 ≤ n3 := by omega
  rcases h4 : psf.sc.get githubAppPK with e | v4
  · simp only [PVCSecretsFetcher.PopulateGithub, IOReaderSecretsFetcher.PopulateGithub, ↓SecretsClient.Get_bind, ↓Reader.ReadFile_bind,
      ↓Populate.pure_bind, string, resultPair_ok, resultPair_error, ne_eq,
      not_false_eq_true, not_true_eq_false, reduceCtorEq, ↓reduceIte, *]
    simp [errors.Wrap, fmt.Errorf]
  rcases h5 : psf.sc.get githubAppHookSecret with e | v5
  · simp only [PVCSecretsFetcher.PopulateGithub, IOReaderSecretsFetcher.PopulateGithub, ↓SecretsClient.Get_bind, ↓Reader.ReadFile_bind,
      ↓Populate.pure_bind, string, resultPair_ok, resultPair_error, ne_eq,
      not_false_eq_true, not_true_eq_false, reduceCtorEq, ↓reduceIte, *]
    simp [errors.Wrap, fmt.Errorf]
  rcases h6 : psf.sc.get githubOAuthInstID with e | v6
  · simp only [PVCSecretsFetcher.PopulateGithub, IOReaderSecretsFetcher.PopulateGithub, ↓SecretsClient.Get_bind, ↓Reader.ReadFile_bind,
      ↓Populate.pure_bind, string, resultPair_ok, resultPair_error, ne_eq,
      not_false_eq_true, not_true_eq_false, reduceCtorEq, ↓reduceIte, *]
    simp [errors.Wrap, fmt.Errorf]
  rcases h6a : strconv.Atoi v6 with ⟨n6, _ | e⟩
  swap
  · simp only [PVCSecretsFetcher.PopulateGithub, IOReaderSecretsFetcher.PopulateGithub, ↓SecretsClient.Get_bind, ↓Reader.ReadFile_bind,
      ↓Populate.pure_bind, string, resultPair_ok, resultPair_error, ne_eq,
      not_false_eq_true, not_true_eq_false, reduceCtorEq, ↓reduceIte, *]
    simp [errors.Wrap, fmt.Errorf]
  by_cases h6b : n6 < 1
  · simp only [PVCSecretsFetcher.PopulateGithub, IOReaderSecretsFetcher.PopulateGithub, ↓SecretsClient.Get_bind, ↓Reader.ReadFile_bind,
      ↓Populate.pure_bind, string, resultPair_ok, resultPair_error, ne_eq,
      not_false_eq_true, not_true_eq_false, reduceCtorEq, ↓reduceIte, *]
    simp [errors.Wrap, fmt.Errorf]
  have h6c : 1 ≤ n6 := by omega
  rcases h7 : psf.sc.get githubOAuthClientID with e | v7
  · simp only [PVCSecretsFetcher.PopulateGithub, IOReaderSecretsFetcher.PopulateGithub, ↓SecretsClient.Get_bind, ↓Reader.ReadFile_bind,
      ↓Populate.pure_bind, string, resultPair_ok, resultPair_error, ne_eq,
      not_false_eq_true, not_true_eq_false, reduceCtorEq, ↓reduceIte, *]
    simp [errors.Wrap, fmt.Errorf]
  rcases h8 : psf.sc.get githubOAuthClientSecret with e | v8
  · simp only [PVCSecretsFetcher.PopulateGithub, IOReaderSecretsFetcher.PopulateGithub, ↓SecretsClient.Get_bind, ↓Reader.ReadFile_bind,
      ↓Populate.pure_bind, string, resultPair_ok, resultPair_error, ne_eq,
      not_false_eq_true, not_true_eq_false, reduceCtorEq, ↓reduceIte, *]
    simp [errors.Wrap, fmt.Errorf]
  rcases h9 : psf.sc.get githubOAuthCookieAuthKey with e | v9
  · simp only [PVCSecretsFetcher.PopulateGithub, IOReaderSecretsFetcher.PopulateGithub, ↓SecretsClient.Get_bind, ↓Reader.ReadFile_bind,
      ↓Populate.pure_bind, string, resultPair_ok, resultPair_error, ne_eq,
      not_false_eq_true, not_true_eq_false, reduceCtorEq, ↓reduceIte, *]
    simp [errors.Wrap, fmt.Errorf]
  by_cases h9a : v9.length = 32
  swap
  · simp only [PVCSecretsFetcher.PopulateGithub, IOReaderSecretsFetcher.PopulateGithub, ↓SecretsClient.Get_bind, ↓Reader.ReadFile_bind,
      ↓Populate.pure_bind, string, resultPair_ok, resultPair_error, ne_eq,
      not_false_eq_true, not_true_eq_false, reduceCtorEq, ↓reduceIte, *]
    simp [errors.Wrap, fmt.Errorf]
  rcases h10 : psf.sc.get githubOAuthCookieEncKey with e | v10
  · simp only [PVCSecretsFetcher.PopulateGithub, IOReaderSecretsFetcher.PopulateGithub, ↓SecretsClient.Get_bind, ↓Reader.ReadFile_bind,
      ↓Populate.pure_bind, string, resultPair_ok, resultPair_error, ne_eq,
      not_false_eq_true, not_true_eq_false, reduceCtorEq, ↓reduceIte, *]
    simp [errors.Wrap, fmt.Errorf]
  by_cases h10a : v10.length = 32
  swap
  · simp only [PVCSecretsFetcher.PopulateGithub, IOReaderSecretsFetcher.PopulateGithub, ↓SecretsClient.Get_bind, ↓Reader.ReadFile_bind,
      ↓Populate.pure_bind, string, resultPair_ok, resultPair_error, ne_eq,
      not_false_eq_true, not_true_eq_false, reduceCtorEq, ↓reduceIte, *]
    simp [errors.Wrap, fmt.Errorf]
  rcases h11 : psf.sc.get githubOAuthUserTokenEncKey with e | v11
  · simp only [PVCSecretsFetcher.PopulateGithub, IOReaderSecretsFetcher.PopulateGithub, ↓SecretsClient.Get_bind, ↓Reader.ReadFile_bind,
      ↓Populate.pure_bind, string, resultPair_ok, resultPair_error, ne_eq,
      not_false_eq_true, not_true_eq_false, reduceCtorEq, ↓reduceIte, *]
    simp [errors.Wrap, fmt.Errorf]
  by_cases h11a : v11.length = 32
  swap
  · simp only [PVCSecretsFetcher.PopulateGithub, IOReaderSecretsFetcher.PopulateGithub, ↓SecretsClient.Get_bind, ↓Reader.ReadFile_bind,
      ↓Populate.pure_bind, string, resultPair_ok, resultPair_error, ne_eq,
      not_false_eq_true, not_true_eq_false, reduceCtorEq, ↓reduceIte, *]
    simp [errors.Wrap, fmt.Errorf]
  simp only [PVCSecretsFetcher.PopulateGithub, IOReaderSecretsFetcher.PopulateGithub, ↓SecretsClient.Get_bind, ↓Reader.ReadFile_bind,
    ↓Populate.pure_bind, string, resultPair_ok, resultPair_error, ne_eq,
    not_false_eq_true, not_true_eq_false, reduceCtorEq, ↓reduceIte, *]
  simp [errors.Wrap, fmt.Errorf]

/-- `PopulateServer` of the two adapters on the same secrets. -/
theorem PopulateServer_adapters_agree (psf : PVCSecretsFetcher) (iof : IOReaderSecretsFetcher) (tls : TLSPackage)
    (srv : ServerConfig) (h : SameAnswers psf iof) :
    ((iof.PopulateServer tls).run srv).ret = ((psf.PopulateServer tls).run srv).ret ∧ ((iof.PopulateServer tls).run srv).obj = ((psf.PopulateServer tls).run srv).obj := by
  unfold SameAnswers at h
  obtain ⟨a1, a2, a3, a4, a5, a6, a7, a8, a9, a10, a11, a12, a13, a14, a15, a16, a17, a18⟩ := h
  rcases h1 : psf.sc.get apiKeysid with e | v1
  · simp only [PVCSecretsFetcher.PopulateServer, IOReaderSecretsFetcher.PopulateServer, ↓SecretsClient.Get_bind, ↓Reader.ReadFile_bind,
      ↓Populate.pure_bind, string, resultPair_ok, resultPair_error, ne_eq,
      not_false_eq_true, not_true_eq_false, reduceCtorEq, ↓reduceIte, *]
    simp [errors.Wrap, fmt.Errorf]
  rcases hD : srv.DisableTLS
  swap
  · simp only [PVCSecretsFetcher.PopulateServer, IOReaderSecretsFetcher.PopulateServer, ↓SecretsClient.Get_bind, ↓Reader.ReadFile_bind,
      ↓Populate.pure_bind, string, resultPair_ok, resultPair_error, ne_eq,
      not_false_eq_true, not_true_eq_false, reduceCtorEq, ↓reduceIte, *]
    simp [errors.Wrap, fmt.Errorf, hD]
  rcases h2 : psf.sc.get tlsCertid with e | v2
  · simp only [PVCSecretsFetcher.PopulateServer, IOReaderSecretsFetcher.PopulateServer, ↓SecretsClient.Get_bind, ↓Reader.ReadFile_bind,
      ↓Populate.pure_bind, string, resultPair_ok, resultPair_error, ne_eq,
      not_false_eq_true, not_true_eq_false, reduceCtorEq, ↓reduceIte, *]
    simp [errors.Wrap, fmt.Errorf, hD]
  rcases h3 : psf.sc.get tlsKeyid with e | v3
  · simp only [PVCSecretsFetcher.PopulateServer, IOReaderSecretsFetcher.PopulateServer, ↓SecretsClient.Get_bind, ↓Reader.ReadFile_bind,
      ↓Populate.pure_bind, string, resultPair_ok, resultPair_error, ne_eq,
      not_false_eq_true, not_true_eq_false, reduceCtorEq, ↓reduceIte, *]
    simp [errors.Wrap, fmt.Errorf, hD]
  rcases hx : tls.X509KeyPair v2 v3 with ⟨cert, _ | e⟩
  · simp only [PVCSecretsFetcher.PopulateServer, IOReaderSecretsFetcher.PopulateServer, ↓SecretsClient.Get_bind, ↓Reader.ReadFile_bind,
      ↓Populate.pure_bind, string, resultPair_ok, resultPair_error, ne_eq,
      not_false_eq_true, not_true_eq_false, reduceCtorEq, ↓reduceIte, *]
    simp [errors.Wrap, fmt.Errorf, hD]
  simp only [PVCSecretsFetcher.PopulateServer, IOReaderSecretsFetcher.PopulateServer, ↓SecretsClient.Get_bind, ↓Reader.ReadFile_bind,
    ↓Populate.pure_bind, string, resultPair_ok, resultPair_error, ne_eq,
    not_false_eq_true, not_true_eq_false, reduceCtorEq, ↓reduceIte, *]
  simp [errors.Wrap, fmt.Errorf, hD]

/-- C15, what the code does. For every remote client and every file reader that
hold the same secrets (`SameAnswers`: each secret's own file answers what the
client answers for that secret) and for every initial destination object,
`PopulatePG`, `PopulateAWS`, `PopulateSlack` and `PopulateServer` of the file
adapter return the same error value, `nil` or not, and leave the same object as
those of the remote-client adapter. `PopulateGithub` does not: it reads the app
id, the installation id and the client id from `/vault/secrets/` and not from
their own files, so it agrees with the remote operation only when that path,
too, answers what the client answers for each of the three ids, as with the
client `clientSevens` and the reader `readerValid`, where all three ids are `7`.
The client `clientValid` and the reader `readerOwnFiles` hold the same secrets,
with app id 42: the remote `PopulateGithub` returns `nil` and sets `AppID` to
42, while the file one requests the hook secret, the token and
`/vault/secrets/`, returns the reader's failure wrapped as
`error getting GitHub App ID` and leaves `AppID` at 0. -/
theorem PopulateGithub_adapters_differ :
    (∀ (psf : PVCSecretsFetcher) (iof : IOReaderSecretsFetcher) (tls : TLSPackage),
      SameAnswers psf iof →
      ∀ (pg : PGConfig) (aws : AWSCreds) (slack : SlackConfig) (srv : ServerConfig),
        ((iof.PopulatePG.run pg).ret = (psf.PopulatePG.run pg).ret ∧
          (iof.PopulatePG.run pg).obj = (psf.PopulatePG.run pg).obj) ∧
        ((iof.PopulateAWS.run aws).ret = (psf.PopulateAWS.run aws).ret ∧
          (iof.PopulateAWS.run aws).obj = (psf.PopulateAWS.run aws).obj) ∧
        ((iof.PopulateSlack.run slack).ret = (psf.PopulateSlack.run slack).ret ∧
          (iof.PopulateSlack.run slack).obj = (psf.PopulateSlack.run slack).obj) ∧
        (((iof.PopulateServer tls).run srv).ret = ((psf.PopulateServer tls).run srv).ret ∧
          ((iof.PopulateServer tls).run srv).obj = ((psf.PopulateServer tls).run srv).obj)) ∧
    (∀ (psf : PVCSecretsFetcher) (iof : IOReaderSecretsFetcher),
      SameAnswers psf iof →
      iof.r.readFile "/vault/secrets/" = psf.sc.get githubAppID →
      iof.r.readFile "/vault/secrets/" = psf.sc.get githubOAuthInstID →
      iof.r.readFile "/vault/secrets/" = psf.sc.get githubOAuthClientID →
      ∀ gh : GithubConfig,
        (iof.PopulateGithub.run gh).ret = (psf.PopulateGithub.run gh).ret ∧
        (iof.PopulateGithub.run gh).obj = (psf.PopulateGithub.run gh).obj) ∧
    (SameAnswers ⟨clientSevens⟩ ⟨readerValid⟩ ∧
      readerValid.readFile "/vault/secrets/" = clientSevens.get githubAppID ∧
      readerValid.readFile "/vault/secrets/" = clientSevens.get githubOAuthInstID ∧
      readerValid.readFile "/vault/secrets/" = clientSevens.get githubOAuthClientID) ∧
    SameAnswers ⟨clientValid⟩ ⟨readerOwnFiles⟩ ∧
    ((PVCSecretsFetcher.mk clientValid).PopulateGithub.run GithubConfig.zero).ret = nil ∧
    ((PVCSecretsFetcher.mk clientValid).PopulateGithub.run GithubConfig.zero).obj.AppID = 42 ∧
    ((IOReaderSecretsFetcher.mk readerOwnFiles).PopulateGithub.run GithubConfig.zero).reqs =
      ["/vault/secrets/githubHookSecretid", "/vault/secrets/githubTokenid", "/vault/secrets/"] ∧
    ((IOReaderSecretsFetcher.mk readerOwnFiles).PopulateGithub.run GithubConfig.zero).ret =
      errors.Wrap (some (Error.ext "no such file or directory")) "error getting GitHub App ID" ∧
    ((IOReaderSecretsFetcher.mk readerOwnFiles).PopulateGithub.run GithubConfig.zero).ret ≠ nil ∧
    ((IOReaderSecretsFetcher.mk readerOwnFiles).PopulateGithub.run GithubConfig.zero).obj.AppID
      = 0 := by
  refine ⟨fun psf iof tls h pg aws slack srv =>
      ⟨PopulatePG_adapters_agree psf iof pg h, PopulateAWS_adapters_agree psf iof aws h,
        PopulateSlack_adapters_agree psf iof slack h,
        PopulateServer_adapters_agree psf iof tls srv h⟩,
    fun psf iof h happ hinst hclient gh =>
      PopulateGithub_adapters_agree psf iof gh h happ hinst hclient,
    ⟨⟨rfl, rfl, rfl, rfl, rfl, rfl, rfl, rfl, rfl, rfl, rfl, rfl, rfl, rfl, rfl, rfl, rfl, rfl⟩,
      rfl, rfl, rfl⟩,
    ⟨rfl, rfl, rfl, rfl, rfl, rfl, rfl, rfl, rfl, rfl, rfl, rfl, rfl, rfl, rfl, rfl, rfl, rfl⟩,
    by decide, by decide, by decide, by decide, by decide, by decide⟩

end Acyl
